import Mathlib

/-!
# KMS framebuffer management: `libweston/backend-drm/fb.c`

A shallow embedding of the framebuffer resource manager of the DRM backend.

* C structs become Lean structures; pointers are natural numbers with `NULL = 0`;
  the heap of `struct drm_fb` objects and of `struct gbm_bo` objects is a partial
  map from addresses to values.
* Every call out of `fb.c` that acts on the kernel, the driver, the heap or the
  owner of a buffer (libdrm, the dumb-buffer ioctls, `mmap`, libgbm imports and
  releases, buffer references, `free`, the destroy callback) is recorded, in
  program order, in `World.trace`. Pure queries (the format lookup, the
  `gbm_bo_get_*` getters) and logging are not recorded.
* The replies of the kernel, of libgbm and of `zalloc` are arguments of the
  embedded functions, so every theorem quantifies over all possible replies.
* Dereferencing `NULL` or a freed object, a failed `assert`, and an array write
  past its end are reported as a `Fault`.
* The struct declarations live in `drm-internal.h`; their integer fields are
  taken as unbounded integers.
-/

namespace DrmFb

/-! ## Basic types -/

/-- Addresses. `NULL` is address 0. -/
abbrev Ptr := Nat

/-- The null pointer. -/
def NULL : Ptr := 0

/-- Value of `DRM_FORMAT_MOD_INVALID` in `drm_fourcc.h`:
`fourcc_mod_code(NONE, DRM_FORMAT_RESERVED)` with `DRM_FORMAT_RESERVED = (1 << 56) - 1`. -/
def DRM_FORMAT_MOD_INVALID : Nat := 0x00ffffffffffffff

/-- Value of `DRM_MODE_FB_MODIFIERS` in `drm_mode.h`. -/
def DRM_MODE_FB_MODIFIERS : Nat := 2

/-- Value of `MAP_FAILED` in `sys/mman.h`: `(void *) -1` on a 64-bit target. -/
def MAP_FAILED : Ptr := 2 ^ 64 - 1

/-- The value a C `int` has once it is stored in a `__u32` field, as the
assignments `create_arg.width = width` and `create_arg.height = height` do:
the value modulo 2^32. -/
def int_to_u32 (x : Int) : Nat := (x % 4294967296).toNat

/-- Ways in which the C program leaves defined behaviour or aborts. -/
inductive Fault
  | null_deref
  | invalid_pointer
  | assert_failed
  | out_of_bounds
deriving DecidableEq, Repr

/-- A C array of four 32-bit or 64-bit words (`handles[4]`, `strides[4]`, `offsets[4]`,
`mods[4]`). -/
structure arr4 where
  e0 : Nat
  e1 : Nat
  e2 : Nat
  e3 : Nat
deriving DecidableEq, Repr

/-- The zero-initialised array, `{ }`. -/
def arr4.zero : arr4 := ⟨0, 0, 0, 0⟩

/-- Read `a[i]` for `i < 4`. -/
def arr4.get (a : arr4) : Nat → Nat
  | 0 => a.e0
  | 1 => a.e1
  | 2 => a.e2
  | 3 => a.e3
  | _ => 0

/-- Write `a[i] = v` for `i < 4`. -/
def arr4.set (a : arr4) (i : Nat) (v : Nat) : arr4 :=
  match i with
  | 0 => { a with e0 := v }
  | 1 => { a with e1 := v }
  | 2 => { a with e2 := v }
  | 3 => { a with e3 := v }
  | _ => a

/-- The members of `enum drm_fb_type` (declared in `drm-internal.h`). -/
inductive drm_fb_type
  | BUFFER_INVALID
  | BUFFER_CLIENT
  | BUFFER_DMABUF
  | BUFFER_PIXMAN_DUMB
  | BUFFER_GBM_SURFACE
  | BUFFER_CURSOR
deriving DecidableEq, Repr

/-- The fields of `struct pixel_format_info` that `fb.c` reads. -/
structure pixel_format_info where
  format : Nat
  depth : Nat
  bpp : Nat
deriving DecidableEq, Repr

/-- State of a `struct wl_list` link embedded in an object:
`null` is the zero-allocated link (`prev = next = NULL`, also the state
`wl_list_remove` leaves behind), `self` is the link after `wl_list_init`
(`prev = next = &link`), `linked` is a link inserted in a list. -/
inductive wl_link
  | null
  | self
  | linked
deriving DecidableEq, Repr

/-- The fields of `struct drm_fb` that `fb.c` uses. -/
structure drm_fb where
  backend_link : wl_link
  type : drm_fb_type
  refcnt : Int
  fb_id : Nat
  size : Nat
  handles : arr4
  strides : arr4
  offsets : arr4
  num_planes : Int
  format : Option pixel_format_info
  modifier : Nat
  width : Int
  height : Int
  fd : Int
  buffer_ref : Ptr
  buffer_release_ref : Ptr
  bo : Ptr
  gbm_surface : Ptr
  map : Ptr
  on_destroy : Ptr
  on_destroy_priv : Ptr
  suspend_safe : Bool
deriving DecidableEq, Repr

/-- The object `zalloc(sizeof *fb)` returns: every field zero. -/
def drm_fb.zalloc : drm_fb :=
  { backend_link := wl_link.null, type := drm_fb_type.BUFFER_INVALID, refcnt := 0,
    fb_id := 0, size := 0, handles := arr4.zero, strides := arr4.zero,
    offsets := arr4.zero, num_planes := 0, format := none, modifier := 0,
    width := 0, height := 0, fd := 0, buffer_ref := NULL, buffer_release_ref := NULL,
    bo := NULL, gbm_surface := NULL, map := NULL, on_destroy := NULL,
    on_destroy_priv := NULL, suspend_safe := false }

/-- What libgbm keeps for a `struct gbm_bo`: the attributes the getters
`gbm_bo_get_*` return, and the user data with its destroy hook
(`gbm_bo_set_user_data`). -/
structure gbm_bo where
  width : Int
  height : Int
  format : Nat
  modifier : Nat
  plane_count : Int
  strides : arr4
  handles : arr4
  offsets : arr4
  user_data : Ptr
  destroy_user_data : Bool
deriving DecidableEq, Repr

/-- The fields of `struct drm_backend` that `fb.c` uses. `fb_list` is the
registry, most recently remembered first (`wl_list_insert` at the head). -/
structure drm_backend where
  drm_fd : Int
  gbm : Ptr
  fb_modifiers : Bool
  min_width : Int
  max_width : Int
  min_height : Int
  max_height : Int
  fb_list : List Ptr
deriving DecidableEq, Repr

/-- Build-time switches that select code in `fb.c`. -/
structure build_config where
  BUILD_DRM_GBM : Bool
  HAVE_GBM_FD_IMPORT : Bool
  HAVE_GBM_MODIFIERS : Bool
deriving DecidableEq, Repr

/-- The pixel-format registry (`pixel-formats.c`), a collaborator of `fb.c`:
the lookup by format code and the substitution of an alpha-free format. -/
structure pixel_formats where
  pixel_format_get_info : Nat → Option pixel_format_info
  pixel_format_get_opaque_substitute : pixel_format_info → pixel_format_info

/-! ## Calls that leave `fb.c` -/

/-- One call out of `fb.c`, with its arguments and, where the caller reads it,
its reply. -/
inductive Event
  | drmModeAddFB2WithModifiers (fd : Int) (width height : Int) (format : Nat)
      (handles strides offsets mods : arr4) (flags : Nat) (ret : Int) (buf_id : Nat)
  | drmModeAddFB2 (fd : Int) (width height : Int) (format : Nat)
      (handles strides offsets : arr4) (flags : Nat) (ret : Int) (buf_id : Nat)
  | drmModeAddFB (fd : Int) (width height : Int) (depth bpp : Nat)
      (stride handle : Nat) (ret : Int) (buf_id : Nat)
  | drmModeRmFB (fd : Int) (fb_id : Nat)
  | DRM_IOCTL_MODE_CREATE_DUMB (fd : Int) (bpp : Nat) (width height : Nat)
      (ret : Int) (handle pitch size : Nat)
  | DRM_IOCTL_MODE_DESTROY_DUMB (fd : Int) (handle : Nat)
  | DRM_IOCTL_MODE_MAP_DUMB (fd : Int) (handle : Nat) (ret : Int) (offset : Nat)
  | mmap (size : Nat) (fd : Int) (offset : Nat) (ret : Ptr)
  | munmap (map : Ptr) (size : Nat)
  | gbm_bo_import_fd (gbm : Ptr) (width height : Int) (format stride : Nat) (fd : Int)
      (ret : Ptr)
  | gbm_bo_import_fd_modifier (gbm : Ptr) (width height : Int) (format : Nat)
      (num_fds : Int) (modifier : Nat) (ret : Ptr)
  | gbm_bo_import_wl_buffer (gbm : Ptr) (resource : Ptr) (ret : Ptr)
  | gbm_bo_destroy (bo : Ptr)
  | gbm_bo_set_user_data (bo : Ptr) (data : Ptr)
  | gbm_surface_release_buffer (surface : Ptr) (bo : Ptr)
  | weston_buffer_reference (old : Ptr) (buffer : Ptr)
  | weston_buffer_release_reference (old : Ptr) (buffer_release : Ptr)
  | free (fb : Ptr)
  | on_destroy (callback : Ptr) (data : Ptr)
deriving DecidableEq, Repr

/-- The program state `fb.c` works on: the backend, the heap of `drm_fb`
objects (`none` at an address that holds no live object), the driver buffer
objects libgbm holds, and the calls made so far, oldest first. -/
structure World where
  b : drm_backend
  fbs : Ptr → Option drm_fb
  bos : Ptr → Option gbm_bo
  trace : List Event

/-- Append one call to the trace. -/
def World.emit (w : World) (e : Event) : World :=
  { w with trace := w.trace ++ [e] }

/-- Store `fb` at address `p`. -/
def World.store (w : World) (p : Ptr) (fb : drm_fb) : World :=
  { w with fbs := Function.update w.fbs p (some fb) }

/-- Release the object at address `p`: `free(fb)`. -/
def World.free (w : World) (p : Ptr) : World :=
  { (w.emit (Event.free p)) with fbs := Function.update w.fbs p none }

/-- Replace the registry `b->fb_list`. -/
def World.set_fb_list (w : World) (l : List Ptr) : World :=
  { w with b := { w.b with fb_list := l } }

/-! ## Registration: `drm_fb_addfb` -/

/-- Reply of one libdrm registration call: the return value and the id libdrm
writes through `buf_id` when the ioctl succeeded (`xf86drmMode.c` leaves
`*buf_id` untouched when the ioctl fails). -/
structure addfb_reply where
  ret : Int
  buf_id : Nat
deriving DecidableEq, Repr

/-- Replies of the three registration entry points `drm_fb_addfb` may call. -/
structure addfb_replies where
  with_modifiers : addfb_reply
  addfb2 : addfb_reply
  addfb : addfb_reply
deriving DecidableEq, Repr

/-- The loop `for (i = 0; i < ARRAY_LENGTH(mods) && fb->handles[i]; i++)
mods[i] = fb->modifier;` of `drm_fb_addfb`. The first argument counts the
iterations left before `i` reaches `ARRAY_LENGTH(mods)`. -/
def drm_fb_addfb_mods (handles : arr4) (modifier : Nat) : Nat → Nat → arr4 → arr4
  | 0, _, mods => mods
  | left + 1, i, mods =>
    if handles.get i ≠ 0 then
      drm_fb_addfb_mods handles modifier left (i + 1) (mods.set i modifier)
    else mods

/-- What libdrm does with `&fb->fb_id`: written on success only. -/
def addfb_reply.store (r : addfb_reply) (fb : drm_fb) : drm_fb :=
  if r.ret = 0 then { fb with fb_id := r.buf_id } else fb

/-- The body of `drm_fb_addfb(b, fb)` on the object `fb` with format
`fmt = *fb->format`: the value returned, the object afterwards (libdrm writes
`fb->fb_id`) and the calls made, in order. -/
def drm_fb_addfb_calls (k : addfb_replies) (fb_modifiers : Bool) (fb : drm_fb)
    (fmt : pixel_format_info) : Int × drm_fb × List Event :=
  if fb_modifiers = true ∧ fb.modifier ≠ DRM_FORMAT_MOD_INVALID then
    (k.with_modifiers.ret, k.with_modifiers.store fb,
      [Event.drmModeAddFB2WithModifiers fb.fd fb.width fb.height fmt.format fb.handles
        fb.strides fb.offsets (drm_fb_addfb_mods fb.handles fb.modifier 4 0 arr4.zero)
        DRM_MODE_FB_MODIFIERS k.with_modifiers.ret k.with_modifiers.buf_id])
  else if k.addfb2.ret = 0 then
    (0, k.addfb2.store fb,
      [Event.drmModeAddFB2 fb.fd fb.width fb.height fmt.format fb.handles fb.strides
        fb.offsets 0 k.addfb2.ret k.addfb2.buf_id])
  else if fmt.depth = 0 ∨ fmt.bpp = 0 then
    (k.addfb2.ret, k.addfb2.store fb,
      [Event.drmModeAddFB2 fb.fd fb.width fb.height fmt.format fb.handles fb.strides
        fb.offsets 0 k.addfb2.ret k.addfb2.buf_id])
  else if fb.handles.get 1 ≠ 0 ∨ fb.handles.get 2 ≠ 0 ∨ fb.handles.get 3 ≠ 0 then
    (k.addfb2.ret, k.addfb2.store fb,
      [Event.drmModeAddFB2 fb.fd fb.width fb.height fmt.format fb.handles fb.strides
        fb.offsets 0 k.addfb2.ret k.addfb2.buf_id])
  else
    (k.addfb.ret, k.addfb.store (k.addfb2.store fb),
      [Event.drmModeAddFB2 fb.fd fb.width fb.height fmt.format fb.handles fb.strides
        fb.offsets 0 k.addfb2.ret k.addfb2.buf_id,
       Event.drmModeAddFB fb.fd fb.width fb.height fmt.depth fmt.bpp (fb.strides.get 0)
        (fb.handles.get 0) k.addfb.ret k.addfb.buf_id])

/-- Embedding of `drm_fb_addfb(b, fb)`: returns `ret` and the new state. The
object is read through the pointer `fb`, its format through `fb->format`. -/
def drm_fb_addfb (k : addfb_replies) (w : World) (p : Ptr) : Except Fault (Int × World) :=
  match w.fbs p with
  | none => .error (if p = NULL then Fault.null_deref else Fault.invalid_pointer)
  | some fb =>
    match fb.format with
    | none => .error Fault.null_deref
    | some fmt =>
      .ok ((drm_fb_addfb_calls k w.b.fb_modifiers fb fmt).1,
        { w with
          trace := w.trace ++ (drm_fb_addfb_calls k w.b.fb_modifiers fb fmt).2.2,
          fbs := Function.update w.fbs p
            (some (drm_fb_addfb_calls k w.b.fb_modifiers fb fmt).2.1) })

/-! ## The registry link: `drm_fb_remember`, `drm_fb_forget` -/

/-- Read the object at `p`; a fault when `p` is `NULL` or holds no live object. -/
def World.load (w : World) (p : Ptr) : Except Fault drm_fb :=
  match w.fbs p with
  | some fb => .ok fb
  | none => .error (if p = NULL then Fault.null_deref else Fault.invalid_pointer)

/-- The list `wl_list_remove(&fb->backend_link)` leaves in `b->fb_list`
(libwayland): a link that is in the list is unlinked, a self-linked one touches
no other element, and a zeroed link dereferences `NULL`. In every non-faulting
case the link itself is zeroed afterwards. -/
def wl_list_remove (fb_list : List Ptr) (p : Ptr) : wl_link → Except Fault (List Ptr)
  | wl_link.null => .error Fault.null_deref
  | wl_link.self => .ok fb_list
  | wl_link.linked => .ok (fb_list.erase p)

/-- Embedding of `drm_fb_remember(b, fb)`. -/
def drm_fb_remember (w : World) (p : Ptr) : Except Fault World :=
  match w.load p with
  | .error e => .error e
  | .ok fb =>
    match wl_list_remove w.b.fb_list p fb.backend_link with
    | .error e => .error e
    | .ok l =>
      .ok ((w.set_fb_list (p :: l)).store p { fb with backend_link := wl_link.linked })

/-- Embedding of `drm_fb_forget(fb)`. -/
def drm_fb_forget (w : World) (p : Ptr) : Except Fault World :=
  match w.load p with
  | .error e => .error e
  | .ok fb =>
    match wl_list_remove w.b.fb_list p fb.backend_link with
    | .error e => .error e
    | .ok l =>
      .ok ((w.set_fb_list l).store p { fb with backend_link := wl_link.self })

/-! ## Teardown -/

/-- Embedding of `drm_fb_destroy(fb)`. -/
def drm_fb_destroy (w : World) (p : Ptr) : Except Fault World :=
  match drm_fb_forget w p with
  | .error e => .error e
  | .ok w1 =>
    match w1.load p with
    | .error e => .error e
    | .ok fb =>
      let w2 := if fb.fb_id ≠ 0 then w1.emit (Event.drmModeRmFB fb.fd fb.fb_id) else w1
      let w3 := w2.emit (Event.weston_buffer_reference fb.buffer_ref NULL)
      let w4 := w3.emit (Event.weston_buffer_release_reference fb.buffer_release_ref NULL)
      .ok (w4.free p)

/-- Embedding of `drm_fb_destroy_dumb(fb)`. -/
def drm_fb_destroy_dumb (w : World) (p : Ptr) : Except Fault World :=
  match w.load p with
  | .error e => .error e
  | .ok fb =>
    if fb.type ≠ drm_fb_type.BUFFER_PIXMAN_DUMB then .error Fault.assert_failed
    else
      let w1 := if fb.map ≠ NULL ∧ fb.size > 0 then w.emit (Event.munmap fb.map fb.size)
        else w
      let w2 := w1.emit (Event.DRM_IOCTL_MODE_DESTROY_DUMB fb.fd (fb.handles.get 0))
      drm_fb_destroy w2 p

/-- Embedding of `drm_fb_destroy_gbm(bo, data)`, the destroy hook installed on
a driver buffer object by `drm_fb_get_from_bo`. -/
def drm_fb_destroy_gbm (w : World) (_bo : Ptr) (data : Ptr) : Except Fault World :=
  match w.load data with
  | .error e => .error e
  | .ok fb =>
    if fb.type = drm_fb_type.BUFFER_GBM_SURFACE ∨ fb.type = drm_fb_type.BUFFER_CLIENT ∨
        fb.type = drm_fb_type.BUFFER_CURSOR then
      drm_fb_destroy w data
    else .error Fault.assert_failed

/-- What libgbm does in `gbm_bo_destroy(bo)`: it runs the destroy hook of the
user data when one is installed (in this program always `drm_fb_destroy_gbm`),
then releases the driver object. -/
def gbm_bo_destroy (w : World) (bo : Ptr) : Except Fault World :=
  match w.bos bo with
  | none => .error (if bo = NULL then Fault.null_deref else Fault.invalid_pointer)
  | some g =>
    let w1 := w.emit (Event.gbm_bo_destroy bo)
    match (if g.destroy_user_data = true then drm_fb_destroy_gbm w1 bo g.user_data
           else .ok w1) with
    | .error e => .error e
    | .ok w2 => .ok { w2 with bos := Function.update w2.bos bo none }

/-- Embedding of `drm_fb_destroy_dmabuf(fb)`. -/
def drm_fb_destroy_dmabuf (w : World) (p : Ptr) : Except Fault World :=
  match w.load p with
  | .error e => .error e
  | .ok fb =>
    if fb.bo ≠ NULL then
      match gbm_bo_destroy w fb.bo with
      | .error e => .error e
      | .ok w1 => drm_fb_destroy w1 p
    else drm_fb_destroy w p

/-! ## Reference counting -/

/-- Embedding of `drm_fb_ref(fb)`: returns `fb` and the new state. -/
def drm_fb_ref (w : World) (p : Ptr) : Except Fault (Ptr × World) :=
  match w.load p with
  | .error e => .error e
  | .ok fb => .ok (p, w.store p { fb with refcnt := fb.refcnt + 1 })

/-- Embedding of `drm_fb_on_destroy(fb, on_destroy, data)`. -/
def drm_fb_on_destroy (w : World) (p : Ptr) (on_destroy : Ptr) (data : Ptr) :
    Except Fault World :=
  match w.load p with
  | .error e => .error e
  | .ok fb => .ok (w.store p { fb with on_destroy_priv := data, on_destroy := on_destroy })

/-- The `switch (fb->type)` of `drm_fb_unref`: the teardown of each origin. -/
def drm_fb_unref_switch (cfg : build_config) (w : World) (p : Ptr) (fb : drm_fb) :
    Except Fault World :=
  match fb.type with
  | drm_fb_type.BUFFER_PIXMAN_DUMB => drm_fb_destroy_dumb w p
  | drm_fb_type.BUFFER_CURSOR =>
    if cfg.BUILD_DRM_GBM = true then gbm_bo_destroy w fb.bo else .error Fault.assert_failed
  | drm_fb_type.BUFFER_CLIENT =>
    if cfg.BUILD_DRM_GBM = true then gbm_bo_destroy w fb.bo else .error Fault.assert_failed
  | drm_fb_type.BUFFER_GBM_SURFACE =>
    if cfg.BUILD_DRM_GBM = true then
      .ok (w.emit (Event.gbm_surface_release_buffer fb.gbm_surface fb.bo))
    else .error Fault.assert_failed
  | drm_fb_type.BUFFER_DMABUF =>
    if cfg.BUILD_DRM_GBM = true then drm_fb_destroy_dmabuf w p else .error Fault.assert_failed
  | drm_fb_type.BUFFER_INVALID => .error Fault.assert_failed

/-- Embedding of `drm_fb_unref(fb)`. -/
def drm_fb_unref (cfg : build_config) (w : World) (p : Ptr) : Except Fault World :=
  if p = NULL then .ok w
  else
    match w.load p with
    | .error e => .error e
    | .ok fb =>
      if ¬ (fb.refcnt > 0) then .error Fault.assert_failed
      else
        let fb1 := { fb with refcnt := fb.refcnt - 1 }
        let w1 := w.store p fb1
        if fb1.refcnt > 0 then .ok w1
        else
          match drm_fb_unref_switch cfg w1 p fb1 with
          | .error e => .error e
          | .ok w2 =>
            if fb1.on_destroy ≠ NULL then
              .ok (w2.emit (Event.on_destroy fb1.on_destroy fb1.on_destroy_priv))
            else .ok w2

/-- Apply `drm_fb_unref(fb)` `n` times in a row. -/
def drm_fb_unref_times (cfg : build_config) (p : Ptr) : Nat → World → Except Fault World
  | 0, w => .ok w
  | n + 1, w =>
    match drm_fb_unref cfg w p with
    | .error e => .error e
    | .ok w1 => drm_fb_unref_times cfg p n w1

/-! ## Dumb buffers: `drm_fb_create_dumb` -/

/-- Replies of the environment during one run of `drm_fb_create_dumb`:
the address `zalloc` returns (`NULL` when out of memory), the reply of the
create-dumb ioctl (`handle`, `pitch`, `size` as filled in by the kernel), of the
registration calls, of the map-dumb ioctl and of `mmap`. -/
structure create_dumb_replies where
  zalloc : Ptr
  create_ret : Int
  create_handle : Nat
  create_pitch : Nat
  create_size : Nat
  addfb : addfb_replies
  map_ret : Int
  map_offset : Nat
  mmap_ret : Ptr
deriving DecidableEq, Repr

/-- Label `err_fb` of `drm_fb_create_dumb`. -/
def drm_fb_create_dumb_err_fb (w : World) (p : Ptr) : Ptr × World :=
  (NULL, w.free p)

/-- Label `err_bo` of `drm_fb_create_dumb`, falling through to `err_fb`. -/
def drm_fb_create_dumb_err_bo (w : World) (p : Ptr) (create_handle : Nat) : Ptr × World :=
  drm_fb_create_dumb_err_fb
    (w.emit (Event.DRM_IOCTL_MODE_DESTROY_DUMB w.b.drm_fd create_handle)) p

/-- Label `err_add_fb` of `drm_fb_create_dumb`, falling through to `err_bo`. -/
def drm_fb_create_dumb_err_add_fb (w : World) (p : Ptr) (fb_id : Nat) (create_handle : Nat) :
    Ptr × World :=
  drm_fb_create_dumb_err_bo (w.emit (Event.drmModeRmFB w.b.drm_fd fb_id)) p create_handle

/-- The assignments of `drm_fb_create_dumb` between the create-dumb ioctl and
the registration: `fb->type = BUFFER_PIXMAN_DUMB` up to
`wl_list_init(&fb->backend_link)`. -/
def drm_fb_create_dumb_fill (k : create_dumb_replies) (drm_fd : Int) (width height : Int)
    (fb0 : drm_fb) : drm_fb :=
  { fb0 with
    type := drm_fb_type.BUFFER_PIXMAN_DUMB,
    modifier := DRM_FORMAT_MOD_INVALID,
    handles := fb0.handles.set 0 k.create_handle,
    strides := fb0.strides.set 0 k.create_pitch,
    num_planes := 1,
    size := k.create_size,
    width := width,
    height := height,
    fd := drm_fd,
    backend_link := wl_link.self }

/-- Embedding of `drm_fb_create_dumb(b, width, height, format)`: returns the
new object's address, or `NULL`, and the new state. -/
def drm_fb_create_dumb (fmts : pixel_formats) (k : create_dumb_replies) (w : World)
    (width height : Int) (format : Nat) : Except Fault (Ptr × World) :=
  if k.zalloc = NULL then .ok (NULL, w)
  else
    let p := k.zalloc
    let fb0 := { drm_fb.zalloc with refcnt := 1, format := fmts.pixel_format_get_info format }
    let w0 := w.store p fb0
    match fb0.format with
    | none => .ok (drm_fb_create_dumb_err_fb w0 p)
    | some fmt =>
      if fmt.depth = 0 ∨ fmt.bpp = 0 then .ok (drm_fb_create_dumb_err_fb w0 p)
      else
        let w1 := w0.emit (Event.DRM_IOCTL_MODE_CREATE_DUMB w.b.drm_fd fmt.bpp
          (int_to_u32 width) (int_to_u32 height)
          k.create_ret k.create_handle k.create_pitch k.create_size)
        if k.create_ret ≠ 0 then .ok (drm_fb_create_dumb_err_fb w1 p)
        else
          let fb1 := drm_fb_create_dumb_fill k w.b.drm_fd width height fb0
          match drm_fb_addfb k.addfb (w1.store p fb1) p with
          | .error e => .error e
          | .ok (ret, w3) =>
            if ret ≠ 0 then .ok (drm_fb_create_dumb_err_bo w3 p k.create_handle)
            else
              match drm_fb_remember w3 p with
              | .error e => .error e
              | .ok w4 =>
                match w4.load p with
                | .error e => .error e
                | .ok fb4 =>
                  let w5 := w4.emit (Event.DRM_IOCTL_MODE_MAP_DUMB fb4.fd (fb4.handles.get 0)
                    k.map_ret k.map_offset)
                  if k.map_ret ≠ 0 then
                    .ok (drm_fb_create_dumb_err_add_fb w5 p fb4.fb_id k.create_handle)
                  else
                    let w6 := (w5.emit (Event.mmap fb4.size w.b.drm_fd k.map_offset
                      k.mmap_ret)).store p { fb4 with map := k.mmap_ret }
                    if k.mmap_ret = MAP_FAILED then
                      .ok (drm_fb_create_dumb_err_add_fb w6 p fb4.fb_id k.create_handle)
                    else .ok (p, w6)

/-! ## Imports through libgbm: `drm_fb_get_from_dmabuf`, `drm_fb_get_from_bo` -/

/-- The fields of `struct dmabuf_attributes` (`linux-dmabuf.h`). -/
structure dmabuf_attributes where
  width : Int
  height : Int
  format : Nat
  flags : Nat
  n_planes : Int
  fd : arr4
  offset : arr4
  stride : arr4
  modifier : arr4
deriving DecidableEq, Repr

/-- Replies of the environment during one run of `drm_fb_get_from_dmabuf`:
the address `zalloc` returns, the driver object `gbm_bo_import` returns (`NULL`
on failure) with its attributes, and the replies of the registration calls. -/
structure dmabuf_replies where
  zalloc : Ptr
  import_ret : Ptr
  import_bo : gbm_bo
  addfb : addfb_replies
deriving DecidableEq, Repr

/-- The value `(uint32_t) -1`, the `u32` view of a `union gbm_bo_handle` whose
`s32` is `-1`. -/
def GBM_HANDLE_ERROR : Nat := 0xffffffff

/-- What libgbm returns from `gbm_bo_get_handle_for_plane(bo, plane)`: the
plane's handle, and `-1` for a plane the object does not have. -/
def gbm_bo_get_handle_for_plane (g : gbm_bo) (plane : Nat) : Nat :=
  if (plane : Int) < g.plane_count ∧ plane < 4 then g.handles.get plane else GBM_HANDLE_ERROR

/-- What libgbm returns from `gbm_bo_get_handle(bo)`: the handle of the first plane. -/
def gbm_bo_get_handle (g : gbm_bo) : Nat := g.handles.get 0

/-- The state after `gbm_bo_import` returned `bo`: when `bo` is not `NULL`, a
new driver object at `bo`, without user data. -/
def World.gbm_import (w : World) (bo : Ptr) (g : gbm_bo) : World :=
  { w with bos :=
      if bo ≠ NULL then
        Function.update w.bos bo (some { g with user_data := NULL, destroy_user_data := false })
      else w.bos }

/-- The object of `drm_fb_get_from_dmabuf` after `zalloc`, the assignments of
`refcnt` and `type`, and the assignment of the imported driver object to
`fb->bo` (`NULL` before the import). -/
def drm_fb_get_from_dmabuf_alloc (bo : Ptr) : drm_fb :=
  { drm_fb.zalloc with refcnt := 1, type := drm_fb_type.BUFFER_DMABUF, bo := bo }

/-- Label `err_free` of `drm_fb_get_from_dmabuf`. -/
def drm_fb_get_from_dmabuf_err_free (w : World) (p : Ptr) : Except Fault (Ptr × World) :=
  match drm_fb_destroy_dmabuf w p with
  | .error e => .error e
  | .ok w1 => .ok (NULL, w1)

/-- The loop over the planes in `drm_fb_get_from_dmabuf` under
`HAVE_GBM_MODIFIERS`: `none` stands for `goto err_free`. The first argument
counts the iterations left before `i` reaches `n_planes`. -/
def drm_fb_get_from_dmabuf_handles (g : gbm_bo) : Nat → Nat → arr4 → Except Fault (Option arr4)
  | 0, _, handles => .ok (some handles)
  | left + 1, i, handles =>
    if gbm_bo_get_handle_for_plane g i = GBM_HANDLE_ERROR then .ok none
    else if 4 ≤ i then .error Fault.out_of_bounds
    else drm_fb_get_from_dmabuf_handles g left (i + 1)
      (handles.set i (gbm_bo_get_handle_for_plane g i))

/-- The plane handles `drm_fb_get_from_dmabuf` reads from the driver object,
by build: `none` stands for `goto err_free`. The second component is
`fb->num_planes`. -/
def drm_fb_get_from_dmabuf_planes (cfg : build_config) (g : gbm_bo) (n_planes : Int)
    (handles : arr4) : Except Fault (Option arr4) × Int :=
  if cfg.HAVE_GBM_MODIFIERS = true then
    (drm_fb_get_from_dmabuf_handles g n_planes.toNat 0 handles, n_planes)
  else if gbm_bo_get_handle g = GBM_HANDLE_ERROR then (.ok none, 1)
  else (.ok (some (handles.set 0 (gbm_bo_get_handle g))), 1)

/-- The end of `drm_fb_get_from_dmabuf`, from `if (drm_fb_addfb(backend, fb) != 0)`
on: registration, then `drm_fb_remember` or `err_free`. -/
def drm_fb_get_from_dmabuf_register (k : dmabuf_replies) (w : World) (p : Ptr) :
    Except Fault (Ptr × World) :=
  match drm_fb_addfb k.addfb w p with
  | .error e => .error e
  | .ok (ret, w1) =>
    if ret ≠ 0 then drm_fb_get_from_dmabuf_err_free w1 p
    else
      match drm_fb_remember w1 p with
      | .error e => .error e
      | .ok w2 => .ok (p, w2)

/-- The part of `drm_fb_get_from_dmabuf` after `gbm_bo_import`, from
`if (!fb->bo)` on. `fb0` is the object as filled in so far, stored at `p`. -/
def drm_fb_get_from_dmabuf_imported (cfg : build_config) (fmts : pixel_formats)
    (k : dmabuf_replies) (w : World) (dmabuf : dmabuf_attributes) ( is_opaque : Bool)
    (p : Ptr) (fb0 : drm_fb) : Except Fault (Ptr × World) :=
  if fb0.bo = NULL then drm_fb_get_from_dmabuf_err_free w p
  else
    let fb1 := { fb0 with
      width := dmabuf.width,
      height := dmabuf.height,
      modifier := dmabuf.modifier.get 0,
      size := 0,
      fd := w.b.drm_fd,
      backend_link := wl_link.self,
      strides := dmabuf.stride,
      offsets := dmabuf.offset,
      format := fmts.pixel_format_get_info dmabuf.format }
    match fb1.format with
    | none => drm_fb_get_from_dmabuf_err_free (w.store p fb1) p
    | some fmt =>
      let fb2 := if is_opaque = true then
          { fb1 with format := some (fmts.pixel_format_get_opaque_substitute fmt) }
        else fb1
      if w.b.min_width > fb2.width ∨ fb2.width > w.b.max_width ∨
          w.b.min_height > fb2.height ∨ fb2.height > w.b.max_height then
        drm_fb_get_from_dmabuf_err_free (w.store p fb2) p
      else
        match drm_fb_get_from_dmabuf_planes cfg k.import_bo dmabuf.n_planes fb2.handles with
        | (.error e, _) => .error e
        | (.ok none, num_planes) =>
          drm_fb_get_from_dmabuf_err_free (w.store p { fb2 with num_planes := num_planes }) p
        | (.ok (some handles), num_planes) =>
          drm_fb_get_from_dmabuf_register k
            (w.store p { fb2 with num_planes := num_planes, handles := handles }) p

/-- Embedding of `drm_fb_get_from_dmabuf(dmabuf, backend, is_opaque)`: returns
the new object's address, or `NULL`, and the new state. -/
def drm_fb_get_from_dmabuf (cfg : build_config) (fmts : pixel_formats) (k : dmabuf_replies)
    (w : World) (dmabuf : dmabuf_attributes) ( is_opaque : Bool) : Except Fault (Ptr × World) :=
  if dmabuf.flags ≠ 0 then .ok (NULL, w)
  else if k.zalloc = NULL then .ok (NULL, w)
  else if dmabuf.modifier.get 0 ≠ DRM_FORMAT_MOD_INVALID ∨ dmabuf.n_planes > 1 ∨
      dmabuf.offset.get 0 > 0 then
    if cfg.HAVE_GBM_FD_IMPORT = true then
      drm_fb_get_from_dmabuf_imported cfg fmts k
        (((w.emit (Event.gbm_bo_import_fd_modifier w.b.gbm dmabuf.width dmabuf.height
            dmabuf.format dmabuf.n_planes (dmabuf.modifier.get 0) k.import_ret)).gbm_import
          k.import_ret k.import_bo).store k.zalloc (drm_fb_get_from_dmabuf_alloc k.import_ret))
        dmabuf is_opaque k.zalloc (drm_fb_get_from_dmabuf_alloc k.import_ret)
    else
      drm_fb_get_from_dmabuf_err_free
        (w.store k.zalloc (drm_fb_get_from_dmabuf_alloc NULL)) k.zalloc
  else
    drm_fb_get_from_dmabuf_imported cfg fmts k
      (((w.emit (Event.gbm_bo_import_fd w.b.gbm dmabuf.width dmabuf.height dmabuf.format
          (dmabuf.stride.get 0) (dmabuf.fd.get 0) k.import_ret)).gbm_import
        k.import_ret k.import_bo).store k.zalloc (drm_fb_get_from_dmabuf_alloc k.import_ret))
      dmabuf is_opaque k.zalloc (drm_fb_get_from_dmabuf_alloc k.import_ret)

/-- Replies of the environment during one run of `drm_fb_get_from_bo`. -/
structure get_from_bo_replies where
  zalloc : Ptr
  addfb : addfb_replies
deriving DecidableEq, Repr

/-- The loop over the planes in `drm_fb_get_from_bo` under `HAVE_GBM_MODIFIERS`,
on the triple `(strides, handles, offsets)`. The first argument counts the
iterations left before `i` reaches `fb->num_planes`. -/
def drm_fb_get_from_bo_planes (g : gbm_bo) :
    Nat → Nat → arr4 × arr4 × arr4 → Except Fault (arr4 × arr4 × arr4)
  | 0, _, acc => .ok acc
  | left + 1, i, (strides, handles, offsets) =>
    if 4 ≤ i then .error Fault.out_of_bounds
    else drm_fb_get_from_bo_planes g left (i + 1)
      (strides.set i (g.strides.get i), handles.set i (g.handles.get i),
       offsets.set i (g.offsets.get i))

/-- The plane description `drm_fb_get_from_bo` reads from the driver object:
the `#ifdef HAVE_GBM_MODIFIERS` block and its `#else`. -/
def drm_fb_get_from_bo_fill (cfg : build_config) (g : gbm_bo) (fb0 : drm_fb) :
    Except Fault drm_fb :=
  if cfg.HAVE_GBM_MODIFIERS = true then
    match drm_fb_get_from_bo_planes g g.plane_count.toNat 0
        (fb0.strides, fb0.handles, fb0.offsets) with
    | .error e => .error e
    | .ok (strides, handles, offsets) =>
      .ok { fb0 with modifier := g.modifier, num_planes := g.plane_count,
                     strides := strides, handles := handles, offsets := offsets }
  else
    .ok { fb0 with num_planes := 1,
                   strides := fb0.strides.set 0 (g.strides.get 0),
                   handles := fb0.handles.set 0 (gbm_bo_get_handle g),
                   modifier := DRM_FORMAT_MOD_INVALID }

/-- The object of `drm_fb_get_from_bo` after `zalloc` and the assignments from
`fb->type = type` to `wl_list_init(&fb->backend_link)`. -/
def drm_fb_get_from_bo_alloc (fmts : pixel_formats) (drm_fd : Int) (bo : Ptr) (g : gbm_bo)
    (type : drm_fb_type) : drm_fb :=
  { drm_fb.zalloc with
    type := type,
    refcnt := 1,
    bo := bo,
    fd := drm_fd,
    width := g.width,
    height := g.height,
    format := fmts.pixel_format_get_info g.format,
    size := 0,
    backend_link := wl_link.self }

/-- Embedding of `drm_fb_get_from_bo(bo, backend, is_opaque, type)`: returns
the object's address, or `NULL`, and the new state. -/
def drm_fb_get_from_bo (cfg : build_config) (fmts : pixel_formats) (k : get_from_bo_replies)
    (w : World) (bo : Ptr) ( is_opaque : Bool) (type : drm_fb_type) :
    Except Fault (Ptr × World) :=
  match w.bos bo with
  | none => .error (if bo = NULL then Fault.null_deref else Fault.invalid_pointer)
  | some g =>
    if g.user_data ≠ NULL then
      match w.load g.user_data with
      | .error e => .error e
      | .ok fb =>
        if fb.type ≠ type then .error Fault.assert_failed else drm_fb_ref w g.user_data
    else if k.zalloc = NULL then .ok (NULL, w)
    else
      let p := k.zalloc
      match drm_fb_get_from_bo_fill cfg g
          (drm_fb_get_from_bo_alloc fmts w.b.drm_fd bo g type) with
      | .error e => .error e
      | .ok fb1 =>
        match fb1.format with
        | none => .ok (NULL, (w.store p fb1).free p)
        | some fmt =>
          let fb2 := if is_opaque = true then
              { fb1 with format := some (fmts.pixel_format_get_opaque_substitute fmt) }
            else fb1
          if w.b.min_width > fb2.width ∨ fb2.width > w.b.max_width ∨
              w.b.min_height > fb2.height ∨ fb2.height > w.b.max_height then
            .ok (NULL, (w.store p fb2).free p)
          else
            match drm_fb_addfb k.addfb (w.store p fb2) p with
            | .error e => .error e
            | .ok (ret, w1) =>
              if ret ≠ 0 then .ok (NULL, w1.free p)
              else
                match drm_fb_remember w1 p with
                | .error e => .error e
                | .ok w2 =>
                  let w3 := w2.emit (Event.gbm_bo_set_user_data bo p)
                  .ok (p, { w3 with bos := (Function.update w3.bos bo
                    (some { g with user_data := p, destroy_user_data := true })) })

/-- Embedding of `drm_fb_set_buffer(fb, buffer, buffer_release)`. -/
def drm_fb_set_buffer (w : World) (p : Ptr) (buffer : Ptr) (buffer_release : Ptr) :
    Except Fault World :=
  match w.load p with
  | .error e => .error e
  | .ok fb =>
    if fb.buffer_ref ≠ NULL then .error Fault.assert_failed
    else if ¬ (fb.type = drm_fb_type.BUFFER_CLIENT ∨ fb.type = drm_fb_type.BUFFER_DMABUF) then
      .error Fault.assert_failed
    else
      let w1 := w.emit (Event.weston_buffer_reference fb.buffer_ref buffer)
      let w2 := w1.emit (Event.weston_buffer_release_reference fb.buffer_release_ref
        buffer_release)
      .ok (w2.store p { fb with buffer_ref := buffer, buffer_release_ref := buffer_release })

/-- Embedding of `drm_can_scanout_dmabuf(ec, dmabuf)`. -/
def drm_can_scanout_dmabuf (cfg : build_config) (fmts : pixel_formats) (k : dmabuf_replies)
    (w : World) (dmabuf : dmabuf_attributes) : Except Fault (Bool × World) :=
  match drm_fb_get_from_dmabuf cfg fmts k w dmabuf true with
  | .error e => .error e
  | .ok (fb, w1) =>
    match drm_fb_unref cfg w1 fb with
    | .error e => .error e
    | .ok w2 => .ok (decide (fb ≠ NULL), w2)

/-! ## Suspend and resume -/

/-- Embedding of `drm_fb_rmfb(b, fb)`; `ret` is the reply of `drmModeRmFB`. -/
def drm_fb_rmfb (ret : Int) (w : World) (p : Ptr) : Except Fault (Int × World) :=
  match w.load p with
  | .error e => .error e
  | .ok fb => .ok (ret, w.emit (Event.drmModeRmFB fb.fd fb.fb_id))

/-- The `wl_list_for_each` loop of `drm_fb_suspend` over the remaining members. -/
def drm_fb_suspend_loop (k : Ptr → Int) : List Ptr → World → Except Fault World
  | [], w => .ok w
  | p :: rest, w =>
    match w.load p with
    | .error e => .error e
    | .ok fb =>
      if fb.suspend_safe = true then drm_fb_suspend_loop k rest w
      else
        match drm_fb_rmfb (k p) w p with
        | .error e => .error e
        | .ok (_, w1) => drm_fb_suspend_loop k rest w1

/-- Embedding of `drm_fb_suspend(b)`; `k fb` is the kernel's reply to the
removal of `fb`. -/
def drm_fb_suspend (k : Ptr → Int) (w : World) : Except Fault World :=
  drm_fb_suspend_loop k w.b.fb_list w

/-- The `wl_list_for_each` loop of `drm_fb_resume` over the remaining members. -/
def drm_fb_resume_loop (k : Ptr → addfb_replies) : List Ptr → World → Except Fault World
  | [], w => .ok w
  | p :: rest, w =>
    match w.load p with
    | .error e => .error e
    | .ok fb =>
      if fb.suspend_safe = true then drm_fb_resume_loop k rest w
      else
        match drm_fb_addfb (k p) w p with
        | .error e => .error e
        | .ok (_, w1) => drm_fb_resume_loop k rest w1

/-- Embedding of `drm_fb_resume(b)`; `k fb` holds the kernel's replies to the
registration of `fb`. -/
def drm_fb_resume (k : Ptr → addfb_replies) (w : World) : Except Fault World :=
  drm_fb_resume_loop k w.b.fb_list w

/-- The `wl_list_for_each` loop of `drm_fb_from_gbm_surface`. -/
def drm_fb_from_gbm_surface_loop (w : World) (surface : Ptr) : List Ptr → Except Fault Ptr
  | [] => .ok NULL
  | p :: rest =>
    match w.load p with
    | .error e => .error e
    | .ok fb =>
      if fb.gbm_surface = surface then .ok p
      else drm_fb_from_gbm_surface_loop w surface rest

/-- Embedding of `drm_fb_from_gbm_surface(b, surface)`. -/
def drm_fb_from_gbm_surface (w : World) (surface : Ptr) : Except Fault Ptr :=
  drm_fb_from_gbm_surface_loop w surface w.b.fb_list

/-! ## View resolution: `drm_fb_get_from_view` -/

/-- What `drm_fb_get_from_view` reads from the view, its surface and the output:
the outcome of `ev->alpha != 1.0f` (negated), of `drm_view_transform_supported`,
of the protection test's operands, the attached buffer and its resource, the
outcome of `wl_shm_buffer_get` and of `linux_dmabuf_buffer_get`, and of
`weston_view_is_opaque`. -/
structure view_inputs where
  alpha_is_one : Bool
  transform_supported : Bool
  protection_mode_enforced : Bool
  desired_protection : Nat
  current_protection : Nat
  buffer : Ptr
  resource : Ptr
  shm_buffer : Ptr
  dmabuf : Option dmabuf_attributes
  view_is_opaque : Bool
  buffer_release : Ptr
deriving DecidableEq, Repr

/-- Replies of the environment during one run of `drm_fb_get_from_view`. -/
structure view_replies where
  dmabuf : dmabuf_replies
  import_ret : Ptr
  import_bo : gbm_bo
  bo : get_from_bo_replies
deriving DecidableEq, Repr

/-- Embedding of `drm_fb_get_from_view(state, ev)`. -/
def drm_fb_get_from_view (cfg : build_config) (fmts : pixel_formats) (k : view_replies)
    (w : World) (ev : view_inputs) : Except Fault (Ptr × World) :=
  if ev.alpha_is_one = false then .ok (NULL, w)
  else if ev.transform_supported = false then .ok (NULL, w)
  else if ev.protection_mode_enforced = true ∧ ev.desired_protection > ev.current_protection
    then .ok (NULL, w)
  else if ev.buffer = NULL then .ok (NULL, w)
  else if ev.shm_buffer ≠ NULL then .ok (NULL, w)
  else if w.b.gbm = NULL then .ok (NULL, w)
  else
    match ev.dmabuf with
    | some dmabuf =>
      match drm_fb_get_from_dmabuf cfg fmts k.dmabuf w dmabuf ev.view_is_opaque with
      | .error e => .error e
      | .ok (fb, w1) =>
        if fb = NULL then .ok (NULL, w1)
        else
          match drm_fb_set_buffer w1 fb ev.buffer ev.buffer_release with
          | .error e => .error e
          | .ok w2 => .ok (fb, w2)
    | none =>
      let w1 := w.emit (Event.gbm_bo_import_wl_buffer w.b.gbm ev.resource k.import_ret)
      if k.import_ret = NULL then .ok (NULL, w1)
      else
        let w2 := w1.gbm_import k.import_ret k.import_bo
        match drm_fb_get_from_bo cfg fmts k.bo w2 k.import_ret ev.view_is_opaque
            drm_fb_type.BUFFER_CLIENT with
        | .error e => .error e
        | .ok (fb, w3) =>
          if fb = NULL then
            match gbm_bo_destroy w3 k.import_ret with
            | .error e => .error e
            | .ok w4 => .ok (NULL, w4)
          else
            match drm_fb_set_buffer w3 fb ev.buffer ev.buffer_release with
            | .error e => .error e
            | .ok w4 => .ok (fb, w4)

/-! ## The kernel's view of the calls -/

/-- What the kernel holds for the device: the dumb-buffer handles that exist
and the framebuffer ids that are registered. -/
structure kms_state where
  dumb_handles : Finset Nat
  fb_ids : Finset Nat
deriving DecidableEq

/-- Effect of one call on the kernel's objects: a successful create-dumb adds
its handle, destroy-dumb removes one, a successful registration adds its id,
remove-framebuffer removes one; no other call touches them. -/
def kms_step (s : kms_state) : Event → kms_state
  | Event.DRM_IOCTL_MODE_CREATE_DUMB _ _ _ _ ret handle _ _ =>
    if ret = 0 then { s with dumb_handles := insert handle s.dumb_handles } else s
  | Event.DRM_IOCTL_MODE_DESTROY_DUMB _ handle =>
    { s with dumb_handles := s.dumb_handles.erase handle }
  | Event.drmModeAddFB2WithModifiers _ _ _ _ _ _ _ _ _ ret buf_id =>
    if ret = 0 then { s with fb_ids := insert buf_id s.fb_ids } else s
  | Event.drmModeAddFB2 _ _ _ _ _ _ _ _ ret buf_id =>
    if ret = 0 then { s with fb_ids := insert buf_id s.fb_ids } else s
  | Event.drmModeAddFB _ _ _ _ _ _ _ ret buf_id =>
    if ret = 0 then { s with fb_ids := insert buf_id s.fb_ids } else s
  | Event.drmModeRmFB _ fb_id => { s with fb_ids := s.fb_ids.erase fb_id }
  | _ => s

/-- The kernel's objects after a sequence of calls. -/
def kms_run (s : kms_state) (tr : List Event) : kms_state :=
  tr.foldl kms_step s

/-- Whether a kernel in state `s` can give the reply recorded in the call: a
successful create-dumb returns a handle not in use, a successful registration
returns an id not in use. -/
def kms_can_reply (s : kms_state) : Event → Bool
  | Event.DRM_IOCTL_MODE_CREATE_DUMB _ _ _ _ ret handle _ _ =>
    decide (ret = 0 → handle ∉ s.dumb_handles)
  | Event.drmModeAddFB2WithModifiers _ _ _ _ _ _ _ _ _ ret buf_id =>
    decide (ret = 0 → buf_id ∉ s.fb_ids)
  | Event.drmModeAddFB2 _ _ _ _ _ _ _ _ ret buf_id =>
    decide (ret = 0 → buf_id ∉ s.fb_ids)
  | Event.drmModeAddFB _ _ _ _ _ _ _ ret buf_id =>
    decide (ret = 0 → buf_id ∉ s.fb_ids)
  | _ => true

/-- Whether a kernel that starts in state `s` can give the replies recorded in
a sequence of calls. -/
def kms_admits (s : kms_state) : List Event → Bool
  | [] => true
  | e :: rest => kms_can_reply s e && kms_admits (kms_step s e) rest

/-! ## Predicates on traces -/

/-- A kernel registration call: one of the three add-framebuffer entry points. -/
def Event.is_addfb : Event → Bool
  | Event.drmModeAddFB2WithModifiers _ _ _ _ _ _ _ _ _ _ _ => true
  | Event.drmModeAddFB2 _ _ _ _ _ _ _ _ _ _ => true
  | Event.drmModeAddFB _ _ _ _ _ _ _ _ _ => true
  | _ => false

/-- The modifier-aware registration call. -/
def Event.is_addfb2_with_modifiers : Event → Bool
  | Event.drmModeAddFB2WithModifiers _ _ _ _ _ _ _ _ _ _ _ => true
  | _ => false

/-- The kernel's create-dumb call. -/
def Event.is_create_dumb : Event → Bool
  | Event.DRM_IOCTL_MODE_CREATE_DUMB _ _ _ _ _ _ _ _ => true
  | _ => false

/-- The kernel's remove-framebuffer call. -/
def Event.is_rmfb : Event → Bool
  | Event.drmModeRmFB _ _ => true
  | _ => false

/-- The kernel's destroy-dumb call. -/
def Event.is_destroy_dumb : Event → Bool
  | Event.DRM_IOCTL_MODE_DESTROY_DUMB _ _ => true
  | _ => false

/-- A driver import through libgbm. -/
def Event.is_gbm_import : Event → Bool
  | Event.gbm_bo_import_fd _ _ _ _ _ _ _ => true
  | Event.gbm_bo_import_fd_modifier _ _ _ _ _ _ _ => true
  | Event.gbm_bo_import_wl_buffer _ _ _ => true
  | _ => false

/-- An invocation of an owner's destroy callback. -/
def Event.is_on_destroy : Event → Bool
  | Event.on_destroy _ _ => true
  | _ => false

/-- The call passes `modifier` for each leading plane whose handle is non-zero
and 0 for every remaining plane, when it is a modifier-aware registration; any
other call satisfies this. -/
def Event.passes_modifier (modifier : Nat) : Event → Prop
  | Event.drmModeAddFB2WithModifiers _ _ _ _ handles _ _ mods _ _ _ =>
    ∀ i, i < 4 →
      ((∀ j, j ≤ i → handles.get j ≠ 0) → mods.get i = modifier) ∧
      ((∃ j, j ≤ i ∧ handles.get j = 0) → mods.get i = 0)
  | _ => True

/-- A width or height outside the backend's bounds: the width below
`min_width` or above `max_width`, or the height below `min_height` or above
`max_height`. -/
def drm_backend.out_of_bounds (b : drm_backend) (width height : Int) : Prop :=
  width < b.min_width ∨ width > b.max_width ∨ height < b.min_height ∨ height > b.max_height

/-- The state `w1` continues `w`: its trace is the trace of `w` followed by
calls that all satisfy `q`. -/
def World.continues (w w1 : World) (q : Event → Prop) : Prop :=
  ∃ tr, w1.trace = w.trace ++ tr ∧ ∀ e ∈ tr, q e

/-- A live buffer as the factories of `fb.c` hand it out: a non-null address
holding the object, with an initialised registry link and one of the five
origins; an object wrapped around a driver buffer object by
`drm_fb_get_from_bo` as client or cursor buffer is the user data of that
driver object, with `drm_fb_destroy_gbm` as destroy hook; a dmabuf import owns
its driver object, which carries no hook. The origins other than the dumb
buffer exist in builds with libgbm only. -/
def World.live (cfg : build_config) (w : World) (p : Ptr) (fb : drm_fb) : Prop :=
  p ≠ NULL ∧ w.fbs p = some fb ∧ fb.backend_link ≠ wl_link.null ∧
  match fb.type with
  | drm_fb_type.BUFFER_PIXMAN_DUMB => True
  | drm_fb_type.BUFFER_GBM_SURFACE => cfg.BUILD_DRM_GBM = true
  | drm_fb_type.BUFFER_CLIENT =>
    cfg.BUILD_DRM_GBM = true ∧
      ∃ g, w.bos fb.bo = some g ∧ g.user_data = p ∧ g.destroy_user_data = true
  | drm_fb_type.BUFFER_CURSOR =>
    cfg.BUILD_DRM_GBM = true ∧
      ∃ g, w.bos fb.bo = some g ∧ g.user_data = p ∧ g.destroy_user_data = true
  | drm_fb_type.BUFFER_DMABUF =>
    cfg.BUILD_DRM_GBM = true ∧ fb.bo ≠ NULL ∧
      ∃ g, w.bos fb.bo = some g ∧ g.destroy_user_data = false
  | drm_fb_type.BUFFER_INVALID => False

/-- The call that gives up the backing storage in the teardown of a buffer, by
origin: the kernel's destroy-dumb for a dumb buffer, the release to the surface
for a surface-backed buffer, `gbm_bo_destroy` for the imported ones. -/
def Event.releases (fb : drm_fb) (e : Event) : Bool :=
  match fb.type with
  | drm_fb_type.BUFFER_PIXMAN_DUMB =>
    decide (e = Event.DRM_IOCTL_MODE_DESTROY_DUMB fb.fd (fb.handles.get 0))
  | drm_fb_type.BUFFER_GBM_SURFACE =>
    decide (e = Event.gbm_surface_release_buffer fb.gbm_surface fb.bo)
  | drm_fb_type.BUFFER_CLIENT => decide (e = Event.gbm_bo_destroy fb.bo)
  | drm_fb_type.BUFFER_CURSOR => decide (e = Event.gbm_bo_destroy fb.bo)
  | drm_fb_type.BUFFER_DMABUF => decide (e = Event.gbm_bo_destroy fb.bo)
  | drm_fb_type.BUFFER_INVALID => false

/-- The id under which a call registers a framebuffer with the kernel: the
`buf_id` of a registration call that returned 0; `none` for a failed
registration and for every other call. -/
def Event.registers : Event → Option Nat
  | Event.drmModeAddFB2WithModifiers _ _ _ _ _ _ _ _ _ ret buf_id =>
    if ret = 0 then some buf_id else none
  | Event.drmModeAddFB2 _ _ _ _ _ _ _ _ ret buf_id => if ret = 0 then some buf_id else none
  | Event.drmModeAddFB _ _ _ _ _ _ _ ret buf_id => if ret = 0 then some buf_id else none
  | _ => none

/-- The condition under which `drm_fb_get_from_dmabuf` takes the
modifier-aware import:
`modifier[0] != DRM_FORMAT_MOD_INVALID || n_planes > 1 || offset[0] > 0`. -/
def dmabuf_attributes.needs_modifier_import (a : dmabuf_attributes) : Prop :=
  a.modifier.get 0 ≠ DRM_FORMAT_MOD_INVALID ∨ a.n_planes > 1 ∨ a.offset.get 0 > 0

instance (a : dmabuf_attributes) : Decidable a.needs_modifier_import :=
  inferInstanceAs (Decidable (a.modifier.get 0 ≠ DRM_FORMAT_MOD_INVALID ∨ a.n_planes > 1 ∨
    a.offset.get 0 > 0))

/-! ## Sample data

Concrete formats, backends, buffers and replies on which the theorems below are
instantiated. -/

/-- Value of `DRM_FORMAT_XRGB8888` in `drm_fourcc.h`: `fourcc_code('X','R','2','4')`. -/
def DRM_FORMAT_XRGB8888 : Nat := 0x34325258

/-- Value of `DRM_FORMAT_ARGB8888` in `drm_fourcc.h`: `fourcc_code('A','R','2','4')`. -/
def DRM_FORMAT_ARGB8888 : Nat := 0x34325241

/-- Value of `DRM_FORMAT_NV12` in `drm_fourcc.h`: `fourcc_code('N','V','1','2')`. -/
def DRM_FORMAT_NV12 : Nat := 0x3231564e

/-- The XRGB8888 entry of the format table: depth 24, 32 bits per pixel. -/
def sample_xrgb : pixel_format_info :=
  { format := DRM_FORMAT_XRGB8888, depth := 24, bpp := 32 }

/-- The ARGB8888 entry of the format table: depth 32, 32 bits per pixel. -/
def sample_argb : pixel_format_info :=
  { format := DRM_FORMAT_ARGB8888, depth := 32, bpp := 32 }

/-- The NV12 entry of the format table: a two-plane format without depth and bpp. -/
def sample_nv12 : pixel_format_info :=
  { format := DRM_FORMAT_NV12, depth := 0, bpp := 0 }

/-- A format registry with three entries; ARGB8888 has XRGB8888 as its
alpha-free substitute. -/
def sample_formats : pixel_formats :=
  { pixel_format_get_info := fun code =>
      if code = DRM_FORMAT_XRGB8888 then some sample_xrgb
      else if code = DRM_FORMAT_ARGB8888 then some sample_argb
      else if code = DRM_FORMAT_NV12 then some sample_nv12
      else none,
    pixel_format_get_opaque_substitute := fun info =>
      if info.format = DRM_FORMAT_ARGB8888 then sample_xrgb else info }

/-- A build with libgbm, modifier import and per-plane queries. -/
def sample_build : build_config :=
  { BUILD_DRM_GBM := true, HAVE_GBM_FD_IMPORT := true, HAVE_GBM_MODIFIERS := true }

/-- A backend with modifier support, bounds 64x64 to 4096x4096 and an empty registry. -/
def sample_backend : drm_backend :=
  { drm_fd := 3, gbm := 100, fb_modifiers := true, min_width := 64, max_width := 4096,
    min_height := 64, max_height := 4096, fb_list := [] }

/-- An empty state on `sample_backend`. -/
def sample_empty : World :=
  { b := sample_backend, fbs := fun _ => none, bos := fun _ => none, trace := [] }

/-- An empty state on a backend without modifier support. -/
def sample_empty_legacy : World :=
  { b := { sample_backend with fb_modifiers := false }, fbs := fun _ => none,
    bos := fun _ => none, trace := [] }

/-- A two-plane buffer with modifier 1, handles 5 and 6, not yet registered. -/
def sample_fb_tiled : drm_fb :=
  { drm_fb.zalloc with
    backend_link := wl_link.self, type := drm_fb_type.BUFFER_DMABUF, refcnt := 1,
    handles := ⟨5, 6, 0, 0⟩, strides := ⟨512, 256, 0, 0⟩, num_planes := 2,
    format := some sample_nv12, modifier := 1, width := 128, height := 128, fd := 3,
    bo := 200 }

/-- A one-plane XRGB8888 buffer without modifier, handle 5, not yet registered. -/
def sample_fb_linear : drm_fb :=
  { drm_fb.zalloc with
    backend_link := wl_link.self, type := drm_fb_type.BUFFER_PIXMAN_DUMB, refcnt := 1,
    handles := ⟨5, 0, 0, 0⟩, strides := ⟨512, 0, 0, 0⟩, num_planes := 1,
    format := some sample_xrgb, modifier := DRM_FORMAT_MOD_INVALID, width := 128,
    height := 128, fd := 3, size := 65536 }

/-- Registration replies: every entry point succeeds, with ids 41, 42, 43. -/
def sample_addfb_ok : addfb_replies :=
  { with_modifiers := ⟨0, 41⟩, addfb2 := ⟨0, 42⟩, addfb := ⟨0, 43⟩ }

/-- Registration replies: the generic call fails with `-EINVAL`, the legacy
call succeeds with id 43. -/
def sample_addfb_legacy : addfb_replies :=
  { with_modifiers := ⟨-22, 0⟩, addfb2 := ⟨-22, 0⟩, addfb := ⟨0, 43⟩ }

/-- Registration replies: every entry point fails with `-EINVAL`. -/
def sample_addfb_fail : addfb_replies :=
  { with_modifiers := ⟨-22, 0⟩, addfb2 := ⟨-22, 0⟩, addfb := ⟨-22, 0⟩ }

/-- A two-plane NV12 descriptor whose planes carry different modifiers, 1 and 2. -/
def sample_dmabuf_mixed : dmabuf_attributes :=
  { width := 128, height := 128, format := DRM_FORMAT_NV12, flags := 0, n_planes := 2,
    fd := ⟨10, 11, 0, 0⟩, offset := ⟨0, 0, 0, 0⟩, stride := ⟨128, 128, 0, 0⟩,
    modifier := ⟨1, 2, 0, 0⟩ }

/-- A driver object with two planes, handles 5 and 6. -/
def sample_bo_two_planes : gbm_bo :=
  { width := 128, height := 128, format := DRM_FORMAT_NV12, modifier := 1, plane_count := 2,
    strides := ⟨128, 128, 0, 0⟩, handles := ⟨5, 6, 0, 0⟩, offsets := ⟨0, 0, 0, 0⟩,
    user_data := NULL, destroy_user_data := false }

/-- Replies for a dmabuf import: the object is allocated at address 7, the
driver import yields `sample_bo_two_planes` at address 200, registration succeeds. -/
def sample_dmabuf_replies : dmabuf_replies :=
  { zalloc := 7, import_ret := 200, import_bo := sample_bo_two_planes,
    addfb := sample_addfb_ok }

/-- A registered, mapped dumb buffer with two references and a destroy
callback 900 with context 901. -/
def sample_fb_dumb : drm_fb :=
  { sample_fb_linear with
    backend_link := wl_link.linked, refcnt := 2, fb_id := 42, map := 4096,
    on_destroy := 900, on_destroy_priv := 901 }

/-- A state whose registry holds `sample_fb_dumb` at address 7. -/
def sample_world_dumb : World :=
  (sample_empty.set_fb_list [7]).store 7 sample_fb_dumb

/-- Replies for a dumb-buffer request the kernel grants in full: handle 5,
pitch 512, 65536 bytes, registration id 42, mapping at address 4096. -/
def sample_dumb_ok : create_dumb_replies :=
  { zalloc := 7, create_ret := 0, create_handle := 5, create_pitch := 512,
    create_size := 65536, addfb := sample_addfb_ok, map_ret := 0, map_offset := 8192,
    mmap_ret := 4096 }

/-- Replies of a kernel that allocates the dumb buffer and then rejects its
registration with `-EINVAL`. -/
def sample_dumb_rejected : create_dumb_replies :=
  { sample_dumb_ok with
    create_pitch := 32768, create_size := 4194304, addfb := sample_addfb_fail }

/-- Replies of a kernel that allocates and registers the dumb buffer and then
fails the map-dumb ioctl. -/
def sample_dumb_map_fails : create_dumb_replies :=
  { sample_dumb_ok with map_ret := -22 }

/-- A one-plane XRGB8888 driver object 8192 wide, beyond the maximum width 4096. -/
def sample_bo_wide : gbm_bo :=
  { width := 8192, height := 128, format := DRM_FORMAT_XRGB8888,
    modifier := DRM_FORMAT_MOD_INVALID, plane_count := 1, strides := ⟨32768, 0, 0, 0⟩,
    handles := ⟨5, 0, 0, 0⟩, offsets := ⟨0, 0, 0, 0⟩, user_data := NULL,
    destroy_user_data := false }

/-- A one-plane XRGB8888 driver object whose width is the maximum width 4096 and
whose height is the minimum height 64. -/
def sample_bo_edge : gbm_bo :=
  { sample_bo_wide with width := 4096, height := 64, strides := ⟨16384, 0, 0, 0⟩ }

/-- A state with `sample_bo_wide` at address 200 and `sample_bo_edge` at address 201. -/
def sample_world_bos : World :=
  { sample_empty with
    bos := fun a => if a = 200 then some sample_bo_wide
      else if a = 201 then some sample_bo_edge else none }

/-- A one-plane XRGB8888 descriptor 8192 wide, without modifier. -/
def sample_dmabuf_wide : dmabuf_attributes :=
  { width := 8192, height := 128, format := DRM_FORMAT_XRGB8888, flags := 0, n_planes := 1,
    fd := ⟨10, 0, 0, 0⟩, offset := ⟨0, 0, 0, 0⟩, stride := ⟨32768, 0, 0, 0⟩,
    modifier := ⟨DRM_FORMAT_MOD_INVALID, 0, 0, 0⟩ }

/-- Replies for an import through `drm_fb_get_from_bo`: the object is allocated
at address 7 and registration succeeds. -/
def sample_bo_replies : get_from_bo_replies :=
  { zalloc := 7, addfb := sample_addfb_ok }

/-- A build with libgbm whose libgbm has no modifier-aware import
(`HAVE_GBM_FD_IMPORT` undefined). -/
def sample_build_no_fd_import : build_config :=
  { sample_build with HAVE_GBM_FD_IMPORT := false }

/-- Replies for a dmabuf import whose driver import succeeds and whose kernel
registration is rejected with `-EINVAL`. -/
def sample_dmabuf_replies_rejected : dmabuf_replies :=
  { sample_dmabuf_replies with addfb := sample_addfb_fail }

/-- A registered one-plane buffer marked suspend-safe, with registration id 50. -/
def sample_fb_safe : drm_fb :=
  { sample_fb_linear with backend_link := wl_link.linked, fb_id := 50, suspend_safe := true }

/-- A state whose registry holds `sample_fb_dumb` at address 7 and the
suspend-safe `sample_fb_safe` at address 8. -/
def sample_world_two : World :=
  ((sample_empty.set_fb_list [7, 8]).store 7 sample_fb_dumb).store 8 sample_fb_safe

/-- The calls `drm_fb_resume` makes when its loop visits the registry member
`p`: none for a suspend-safe buffer, those of `drm_fb_addfb(b, fb)` otherwise.
`k p` holds the kernel's replies to the registration of `p`. -/
def drm_fb_resume_calls (k : Ptr → addfb_replies) (w : World) (p : Ptr) : List Event :=
  match w.fbs p with
  | none => []
  | some fb =>
    if fb.suspend_safe = true then []
    else
      match fb.format with
      | none => []
      | some fmt => (drm_fb_addfb_calls (k p) w.b.fb_modifiers fb fmt).2.2

/-- Registration replies of a kernel that hands out new ids, 60, 61 and 62. -/
def sample_addfb_resume : addfb_replies :=
  { with_modifiers := ⟨0, 60⟩, addfb2 := ⟨0, 61⟩, addfb := ⟨0, 62⟩ }

/-- A one-plane ARGB8888 driver object, 4096x64, not yet wrapped. -/
def sample_bo_argb : gbm_bo :=
  { sample_bo_edge with format := DRM_FORMAT_ARGB8888 }

/-- A state with `sample_bo_argb` at address 200. -/
def sample_world_argb : World :=
  { sample_empty with bos := fun a => if a = 200 then some sample_bo_argb else none }

/-- A one-plane ARGB8888 descriptor, 4096x64, without modifier. -/
def sample_dmabuf_argb : dmabuf_attributes :=
  { sample_dmabuf_wide with
    width := 4096, height := 64, format := DRM_FORMAT_ARGB8888, stride := ⟨16384, 0, 0, 0⟩ }

/-- Replies for a dmabuf import: the object is allocated at address 7, the
driver import yields `sample_bo_argb` at address 200, registration succeeds. -/
def sample_dmabuf_replies_argb : dmabuf_replies :=
  { zalloc := 7, import_ret := 200, import_bo := sample_bo_argb, addfb := sample_addfb_ok }

/-- A registered buffer backed by the GPU surface 500, wrapped around the
driver object 200, with one reference, registration id 44 and a destroy
callback 900 with context 901. -/
def sample_fb_surface : drm_fb :=
  { sample_fb_linear with
    backend_link := wl_link.linked, type := drm_fb_type.BUFFER_GBM_SURFACE, fb_id := 44,
    size := 0, bo := 200, gbm_surface := 500, on_destroy := 900, on_destroy_priv := 901 }

/-- The driver object 200 of the surface, wrapped: its user data is the buffer
at address 7, with the destroy hook installed. -/
def sample_bo_surface : gbm_bo :=
  { sample_bo_edge with
    width := 128, height := 128, strides := ⟨512, 0, 0, 0⟩, user_data := 7,
    destroy_user_data := true }

/-- A state whose registry holds the surface buffer `sample_fb_surface` at
address 7, wrapped around the driver object `sample_bo_surface` at address 200. -/
def sample_world_surface : World :=
  { b := { sample_backend with fb_list := [7] },
    fbs := fun a => if a = 7 then some sample_fb_surface else none,
    bos := fun a => if a = 200 then some sample_bo_surface else none,
    trace := [] }

/-- A view whose surface has a shared-memory buffer attached: alpha 1, a
supported transform, no content protection. -/
def sample_view_shm : view_inputs :=
  { alpha_is_one := true, transform_supported := true, protection_mode_enforced := false,
    desired_protection := 0, current_protection := 0, buffer := 300, resource := 301,
    shm_buffer := 302, dmabuf := none, view_is_opaque := true, buffer_release := 303 }

/-- Replies for a run of `drm_fb_get_from_view`: the client buffer is imported
as the driver object `sample_bo_edge` at address 200 and registration succeeds. -/
def sample_view_replies : view_replies :=
  { dmabuf := sample_dmabuf_replies, import_ret := 200, import_bo := sample_bo_edge,
    bo := sample_bo_replies }

/-- Every member of the registry `b->fb_list` is the address of a live object:
one that was allocated and has not been freed. -/
def World.registry_live (w : World) : Prop :=
  ∀ p ∈ w.b.fb_list, w.fbs p ≠ none

instance (w : World) : Decidable w.registry_live :=
  inferInstanceAs (Decidable (∀ p ∈ w.b.fb_list, w.fbs p ≠ none))

/-! ## Helper lemmas -/

/-- A non-negative `int` is stored in a `__u32` field unchanged. -/
theorem int_to_u32_of_nonneg (x : Int) (h0 : 0 ≤ x) (h1 : x ≤ 2147483647) :
    (int_to_u32 x : Int) = x := by
  unfold int_to_u32
  omega

/-- A negative `int` is stored in a `__u32` field as the value plus 2^32. -/
theorem int_to_u32_of_neg (x : Int) (h0 : -2147483648 ≤ x) (h1 : x < 0) :
    (int_to_u32 x : Int) = x + 4294967296 := by
  unfold int_to_u32
  omega

/-- The modifier array built by the loop of `drm_fb_addfb`, entry by entry. -/
theorem drm_fb_addfb_mods_entries (h : arr4) (m : Nat) :
    (drm_fb_addfb_mods h m 4 0 arr4.zero).e0 = (if h.e0 ≠ 0 then m else 0) ∧
    (drm_fb_addfb_mods h m 4 0 arr4.zero).e1 = (if h.e0 ≠ 0 ∧ h.e1 ≠ 0 then m else 0) ∧
    (drm_fb_addfb_mods h m 4 0 arr4.zero).e2 =
      (if h.e0 ≠ 0 ∧ h.e1 ≠ 0 ∧ h.e2 ≠ 0 then m else 0) ∧
    (drm_fb_addfb_mods h m 4 0 arr4.zero).e3 =
      (if h.e0 ≠ 0 ∧ h.e1 ≠ 0 ∧ h.e2 ≠ 0 ∧ h.e3 ≠ 0 then m else 0) := by
  obtain ⟨a, b, c, d⟩ := h
  by_cases ha : a = 0 <;> by_cases hb : b = 0 <;> by_cases hc : c = 0 <;>
    by_cases hd : d = 0 <;>
    simp [drm_fb_addfb_mods, arr4.get, arr4.set, arr4.zero, ha, hb, hc, hd]

/-- The modifier array built by the loop of `drm_fb_addfb`: an entry holds the
modifier when every handle up to it is non-zero, and 0 otherwise. -/
theorem drm_fb_addfb_mods_get (h : arr4) (m : Nat) (i : Nat) (hi : i < 4) :
    ((∀ j, j ≤ i → h.get j ≠ 0) → (drm_fb_addfb_mods h m 4 0 arr4.zero).get i = m) ∧
    ((∃ j, j ≤ i ∧ h.get j = 0) → (drm_fb_addfb_mods h m 4 0 arr4.zero).get i = 0) := by
  obtain ⟨h0, h1, h2, h3⟩ := drm_fb_addfb_mods_entries h m
  constructor
  · intro hall
    have a0 := hall 0 (Nat.zero_le _)
    interval_cases i
    · simp only [arr4.get] at a0 ⊢
      rw [h0, if_pos a0]
    · have a1 := hall 1 (le_refl _)
      simp only [arr4.get] at a0 a1 ⊢
      rw [h1, if_pos ⟨a0, a1⟩]
    · have a1 := hall 1 (by omega)
      have a2 := hall 2 (le_refl _)
      simp only [arr4.get] at a0 a1 a2 ⊢
      rw [h2, if_pos ⟨a0, a1, a2⟩]
    · have a1 := hall 1 (by omega)
      have a2 := hall 2 (by omega)
      have a3 := hall 3 (le_refl _)
      simp only [arr4.get] at a0 a1 a2 a3 ⊢
      rw [h3, if_pos ⟨a0, a1, a2, a3⟩]
  · rintro ⟨j, hj, hz⟩
    interval_cases i <;> interval_cases j <;> simp only [arr4.get] at hz ⊢ <;>
      simp [h0, h1, h2, h3, hz]

/-- Reading a live object succeeds. -/
theorem World.load_of_fbs (w : World) (p : Ptr) (fb : drm_fb) (h : w.fbs p = some fb) :
    w.load p = .ok fb := by
  simp [World.load, h]

/-- Closed form of `drm_fb_addfb` on a live object with a format. -/
theorem drm_fb_addfb_eq (k : addfb_replies) (w : World) (p : Ptr) (fb : drm_fb)
    (fmt : pixel_format_info) (hfb : w.fbs p = some fb) (hfmt : fb.format = some fmt) :
    drm_fb_addfb k w p = .ok ((drm_fb_addfb_calls k w.b.fb_modifiers fb fmt).1,
      { w with
        trace := w.trace ++ (drm_fb_addfb_calls k w.b.fb_modifiers fb fmt).2.2,
        fbs := Function.update w.fbs p
          (some (drm_fb_addfb_calls k w.b.fb_modifiers fb fmt).2.1) }) := by
  simp [drm_fb_addfb, hfb, hfmt]

/-- `drm_fb_addfb` changes no field of the object but `fb_id`. -/
theorem drm_fb_addfb_calls_fb (k : addfb_replies) (m : Bool) (fb : drm_fb)
    (fmt : pixel_format_info) :
    (drm_fb_addfb_calls k m fb fmt).2.1 =
      { fb with fb_id := (drm_fb_addfb_calls k m fb fmt).2.1.fb_id } := by
  unfold drm_fb_addfb_calls addfb_reply.store
  split_ifs <;> rfl

/-- Every call `drm_fb_addfb` makes is a registration call. -/
theorem drm_fb_addfb_calls_is_addfb (k : addfb_replies) (m : Bool) (fb : drm_fb)
    (fmt : pixel_format_info) :
    ∀ e ∈ (drm_fb_addfb_calls k m fb fmt).2.2, e.is_addfb = true := by
  unfold drm_fb_addfb_calls
  split_ifs <;> simp [Event.is_addfb]

/-- A modifier-aware call made by `drm_fb_addfb` carries the modifier array
built from the object's handles and its single modifier. -/
theorem drm_fb_addfb_calls_with_modifiers (k : addfb_replies) (m : Bool) (fb : drm_fb)
    (fmt : pixel_format_info) :
    ∀ e ∈ (drm_fb_addfb_calls k m fb fmt).2.2, e.is_addfb2_with_modifiers = true →
      e = Event.drmModeAddFB2WithModifiers fb.fd fb.width fb.height fmt.format fb.handles
        fb.strides fb.offsets (drm_fb_addfb_mods fb.handles fb.modifier 4 0 arr4.zero)
        DRM_MODE_FB_MODIFIERS k.with_modifiers.ret k.with_modifiers.buf_id := by
  unfold drm_fb_addfb_calls
  split_ifs <;> simp [Event.is_addfb2_with_modifiers]

/-- Closed form of `drm_fb_forget` on a live object whose link is initialised. -/
theorem drm_fb_forget_eq (w : World) (p : Ptr) (fb : drm_fb) (hfb : w.fbs p = some fb)
    (hl : fb.backend_link ≠ wl_link.null) :
    drm_fb_forget w p = .ok
      { w with
        b := { w.b with fb_list :=
          if fb.backend_link = wl_link.linked then w.b.fb_list.erase p else w.b.fb_list },
        fbs := Function.update w.fbs p (some { fb with backend_link := wl_link.self }) } := by
  cases hlink : fb.backend_link
  · exact absurd hlink hl
  · simp [drm_fb_forget, World.load, hfb, hlink, wl_list_remove, World.store,
      World.set_fb_list]
  · simp [drm_fb_forget, World.load, hfb, hlink, wl_list_remove, World.store,
      World.set_fb_list]

/-- `drm_fb_forget` on a zero-allocated link dereferences `NULL`. -/
theorem drm_fb_forget_null (w : World) (p : Ptr) (fb : drm_fb) (hfb : w.fbs p = some fb)
    (hl : fb.backend_link = wl_link.null) :
    drm_fb_forget w p = .error Fault.null_deref := by
  simp [drm_fb_forget, World.load, hfb, hl, wl_list_remove]

/-- Closed form of `drm_fb_remember` on a live object whose link is initialised. -/
theorem drm_fb_remember_eq (w : World) (p : Ptr) (fb : drm_fb) (hfb : w.fbs p = some fb)
    (hl : fb.backend_link ≠ wl_link.null) :
    drm_fb_remember w p = .ok
      { w with
        b := { w.b with fb_list := p ::
          (if fb.backend_link = wl_link.linked then w.b.fb_list.erase p else w.b.fb_list) },
        fbs := Function.update w.fbs p (some { fb with backend_link := wl_link.linked }) } := by
  cases hlink : fb.backend_link
  · exact absurd hlink hl
  · simp [drm_fb_remember, World.load, hfb, hlink, wl_list_remove, World.store,
      World.set_fb_list]
  · simp [drm_fb_remember, World.load, hfb, hlink, wl_list_remove, World.store,
      World.set_fb_list]

/-- The calls `drm_fb_destroy` makes for an object: the removal of the kernel
framebuffer when `fb_id` is non-zero, the release of the two buffer
references, and `free`. -/
theorem drm_fb_destroy_eq (w : World) (p : Ptr) (fb : drm_fb) (hfb : w.fbs p = some fb)
    (hl : fb.backend_link ≠ wl_link.null) :
    drm_fb_destroy w p = .ok
      { b := { w.b with fb_list :=
          if fb.backend_link = wl_link.linked then w.b.fb_list.erase p else w.b.fb_list },
        fbs := Function.update w.fbs p none,
        bos := w.bos,
        trace := w.trace ++
          ((if fb.fb_id ≠ 0 then [Event.drmModeRmFB fb.fd fb.fb_id] else []) ++
            [Event.weston_buffer_reference fb.buffer_ref NULL,
             Event.weston_buffer_release_reference fb.buffer_release_ref NULL,
             Event.free p]) } := by
  unfold drm_fb_destroy
  rw [drm_fb_forget_eq w p fb hfb hl]
  by_cases hid : fb.fb_id = 0
  · simp [World.load, World.emit, World.free, hid]
  · simp [World.load, World.emit, World.free, hid]

/-- A state whose trace is unchanged continues the old one. -/
theorem World.continues_of_trace_eq (w w1 : World) (q : Event → Prop)
    (h : w1.trace = w.trace) : w.continues w1 q :=
  ⟨[], by simp [h], by simp⟩

/-- Continuation composes. -/
theorem World.continues_trans (w w1 w2 : World) (q : Event → Prop)
    (h1 : w.continues w1 q) (h2 : w1.continues w2 q) : w.continues w2 q := by
  obtain ⟨t1, e1, q1⟩ := h1
  obtain ⟨t2, e2, q2⟩ := h2
  refine ⟨t1 ++ t2, by rw [e2, e1, List.append_assoc], ?_⟩
  intro e he
  rcases List.mem_append.mp he with h | h
  · exact q1 e h
  · exact q2 e h

/-- Continuation by a weaker property. -/
theorem World.continues_mono (w w1 : World) (q r : Event → Prop)
    (h : w.continues w1 q) (hqr : ∀ e, q e → r e) : w.continues w1 r := by
  obtain ⟨t, e, hq⟩ := h
  exact ⟨t, e, fun x hx => hqr x (hq x hx)⟩

/-- A state that appends the calls `tr`, all satisfying `q`, continues the old one. -/
theorem World.continues_of_append (w w1 : World) (q : Event → Prop) (tr : List Event)
    (h : w1.trace = w.trace ++ tr) (hq : ∀ e ∈ tr, q e) : w.continues w1 q :=
  ⟨tr, h, hq⟩

/-- `drm_fb_destroy` returns only for a live object whose link is initialised. -/
theorem drm_fb_destroy_ok_inv (w w1 : World) (p : Ptr) (h : drm_fb_destroy w p = .ok w1) :
    ∃ fb, w.fbs p = some fb ∧ fb.backend_link ≠ wl_link.null := by
  cases hfb : w.fbs p with
  | none => simp [drm_fb_destroy, drm_fb_forget, World.load, hfb] at h
  | some fb =>
    refine ⟨fb, rfl, ?_⟩
    intro hl
    simp [drm_fb_destroy, drm_fb_forget_null w p fb hfb hl] at h

/-- `drm_fb_destroy` makes no registration call. -/
theorem drm_fb_destroy_continues (w w1 : World) (p : Ptr) (h : drm_fb_destroy w p = .ok w1) :
    w.continues w1 (fun e => e.is_addfb = false) := by
  obtain ⟨fb, hfb, hl⟩ := drm_fb_destroy_ok_inv w w1 p h
  rw [drm_fb_destroy_eq w p fb hfb hl] at h
  injection h with h
  subst h
  refine ⟨_, rfl, ?_⟩
  intro e he
  by_cases hid : fb.fb_id = 0
  · simp [hid] at he
    rcases he with rfl | rfl | rfl <;> rfl
  · simp [hid] at he
    rcases he with rfl | rfl | rfl | rfl <;> rfl

/-- `gbm_bo_destroy` makes no registration call. -/
theorem gbm_bo_destroy_continues (w w1 : World) (bo : Ptr) (h : gbm_bo_destroy w bo = .ok w1) :
    w.continues w1 (fun e => e.is_addfb = false) := by
  unfold gbm_bo_destroy at h
  cases hg : w.bos bo with
  | none => simp [hg] at h
  | some g =>
    simp only [hg] at h
    by_cases hh : g.destroy_user_data = true
    · simp only [hh, if_true] at h
      unfold drm_fb_destroy_gbm at h
      cases hld : (w.emit (Event.gbm_bo_destroy bo)).load g.user_data with
      | error e => simp [hld] at h
      | ok fb =>
        simp only [hld] at h
        split_ifs at h with ht
        · cases hd : drm_fb_destroy (w.emit (Event.gbm_bo_destroy bo)) g.user_data with
          | error e => simp [hd] at h
          | ok w2 =>
            simp only [hd] at h
            injection h with h
            subst h
            have h1 : w.continues (w.emit (Event.gbm_bo_destroy bo))
                (fun e => e.is_addfb = false) :=
              ⟨[Event.gbm_bo_destroy bo], rfl, by simp [Event.is_addfb]⟩
            have h2 := drm_fb_destroy_continues _ _ _ hd
            obtain ⟨t, ht, hq⟩ := World.continues_trans _ _ _ _ h1 h2
            exact ⟨t, ht, hq⟩
    · simp only [hh] at h
      simp at h
      subst h
      exact ⟨[Event.gbm_bo_destroy bo], rfl, by simp [Event.is_addfb]⟩

/-- `drm_fb_destroy_dmabuf` makes no registration call. -/
theorem drm_fb_destroy_dmabuf_continues (w w1 : World) (p : Ptr)
    (h : drm_fb_destroy_dmabuf w p = .ok w1) :
    w.continues w1 (fun e => e.is_addfb = false) := by
  unfold drm_fb_destroy_dmabuf at h
  cases hld : w.load p with
  | error e => simp [hld] at h
  | ok fb =>
    simp only [hld] at h
    split_ifs at h with hbo
    · cases hg : gbm_bo_destroy w fb.bo with
      | error e => simp [hg] at h
      | ok w2 =>
        simp only [hg] at h
        exact World.continues_trans _ _ _ _ (gbm_bo_destroy_continues _ _ _ hg)
          (drm_fb_destroy_continues _ _ _ h)
    · exact drm_fb_destroy_continues _ _ _ h

/-- Label `err_free` of `drm_fb_get_from_dmabuf` returns `NULL` and makes no
registration call. -/
theorem drm_fb_get_from_dmabuf_err_free_continues (w w1 : World) (p r : Ptr)
    (h : drm_fb_get_from_dmabuf_err_free w p = .ok (r, w1)) :
    r = NULL ∧ w.continues w1 (fun e => e.is_addfb = false) := by
  unfold drm_fb_get_from_dmabuf_err_free at h
  cases hd : drm_fb_destroy_dmabuf w p with
  | error e => simp [hd] at h
  | ok w2 =>
    simp only [hd] at h
    injection h with h
    injection h with hr hw
    subst hr hw
    exact ⟨rfl, drm_fb_destroy_dmabuf_continues _ _ _ hd⟩

/-- A call that is no registration call passes any modifier. -/
theorem Event.passes_modifier_of_not_addfb (m : Nat) (e : Event) (h : e.is_addfb = false) :
    e.passes_modifier m := by
  cases e <;> simp [Event.is_addfb] at h <;> simp [Event.passes_modifier]

/-- Every call of `drm_fb_addfb` passes the object's modifier. -/
theorem drm_fb_addfb_calls_passes_modifier (k : addfb_replies) (m : Bool) (fb : drm_fb)
    (fmt : pixel_format_info) :
    ∀ e ∈ (drm_fb_addfb_calls k m fb fmt).2.2, e.passes_modifier fb.modifier := by
  intro e he
  by_cases hw : e.is_addfb2_with_modifiers = true
  · rw [drm_fb_addfb_calls_with_modifiers k m fb fmt e he hw]
    intro i hi
    exact drm_fb_addfb_mods_get fb.handles fb.modifier i hi
  · cases e <;> simp [Event.is_addfb2_with_modifiers] at hw <;> simp [Event.passes_modifier]

/-- Reading back the object just stored. -/
theorem World.store_fbs_same (w : World) (p : Ptr) (fb : drm_fb) :
    (w.store p fb).fbs p = some fb := by
  simp [World.store]

/-- Every call of `drm_fb_addfb` passes the modifier of the object it registers. -/
theorem drm_fb_addfb_continues (k : addfb_replies) (w : World) (p : Ptr) (ret : Int)
    (w2 : World) (fb : drm_fb) (hfb : w.fbs p = some fb)
    (h : drm_fb_addfb k w p = .ok (ret, w2)) :
    w.continues w2 (Event.passes_modifier fb.modifier) := by
  cases hfmt : fb.format with
  | none => simp [drm_fb_addfb, hfb, hfmt] at h
  | some fmt =>
    rw [drm_fb_addfb_eq k w p fb fmt hfb hfmt] at h
    injection h with h
    injection h with _ hw
    subst hw
    exact ⟨_, rfl, drm_fb_addfb_calls_passes_modifier _ _ _ _⟩

/-- `drm_fb_remember` makes no call. -/
theorem drm_fb_remember_trace (w w1 : World) (p : Ptr) (h : drm_fb_remember w p = .ok w1) :
    w1.trace = w.trace := by
  unfold drm_fb_remember at h
  split at h
  · exact absurd h (by simp)
  · split at h
    · exact absurd h (by simp)
    · injection h with h
      subst h
      rfl

/-- Every call made by the end of `drm_fb_get_from_dmabuf` passes the modifier
of the object it registers. -/
theorem drm_fb_get_from_dmabuf_register_continues (k : dmabuf_replies) (w : World) (p : Ptr)
    (fb : drm_fb) (r : Ptr) (w1 : World) (hfb : w.fbs p = some fb)
    (h : drm_fb_get_from_dmabuf_register k w p = .ok (r, w1)) :
    w.continues w1 (Event.passes_modifier fb.modifier) := by
  unfold drm_fb_get_from_dmabuf_register at h
  split at h
  · exact absurd h (by simp)
  · rename_i ret w2 hadd
    have hc2 := drm_fb_addfb_continues _ _ _ _ _ _ hfb hadd
    split at h
    · obtain ⟨t, ht, hq⟩ := (drm_fb_get_from_dmabuf_err_free_continues w2 w1 p r h).2
      exact World.continues_trans _ _ _ _ hc2
        ⟨t, ht, fun e he => Event.passes_modifier_of_not_addfb _ e (hq e he)⟩
    · split at h
      · exact absurd h (by simp)
      · rename_i w3 hrem
        injection h with h
        injection h with hr hw
        subst hw
        exact World.continues_trans _ _ _ _ hc2
          (World.continues_of_trace_eq _ _ _ (drm_fb_remember_trace _ _ _ hrem))

/-- Every call made by the part of `drm_fb_get_from_dmabuf` that follows the
driver import passes the descriptor's first modifier. -/
theorem drm_fb_get_from_dmabuf_imported_continues (cfg : build_config) (fmts : pixel_formats)
    (k : dmabuf_replies) (w : World) (dmabuf : dmabuf_attributes) ( is_opaque : Bool)
    (p : Ptr) (fb0 : drm_fb) (r : Ptr) (w1 : World)
    (h : drm_fb_get_from_dmabuf_imported cfg fmts k w dmabuf is_opaque p fb0 = .ok (r, w1)) :
    w.continues w1 (Event.passes_modifier (dmabuf.modifier.get 0)) := by
  have hfree : ∀ (w0 : World), drm_fb_get_from_dmabuf_err_free w0 p = .ok (r, w1) →
      w0.trace = w.trace →
      w.continues w1 (Event.passes_modifier (dmabuf.modifier.get 0)) := by
    intro w0 h0 htr
    obtain ⟨t, ht, hq⟩ := (drm_fb_get_from_dmabuf_err_free_continues w0 w1 p r h0).2
    exact ⟨t, by rw [ht, htr], fun e he =>
      Event.passes_modifier_of_not_addfb _ e (hq e he)⟩
  unfold drm_fb_get_from_dmabuf_imported at h
  cases is_opaque <;> simp only [Bool.false_eq_true, if_false, if_true] at h <;>
  repeat' first
    | exact hfree _ h rfl
    | contradiction
    | exact drm_fb_get_from_dmabuf_register_continues _ _ _ _ _ _
        (World.store_fbs_same _ _ _) h
    | split at h

/-- Closed form of `drm_fb_destroy_dumb` on a live dumb buffer. -/
theorem drm_fb_destroy_dumb_eq (w : World) (p : Ptr) (fb : drm_fb) (hfb : w.fbs p = some fb)
    (ht : fb.type = drm_fb_type.BUFFER_PIXMAN_DUMB) (hl : fb.backend_link ≠ wl_link.null) :
    drm_fb_destroy_dumb w p = .ok
      { b := { w.b with fb_list :=
          if fb.backend_link = wl_link.linked then w.b.fb_list.erase p else w.b.fb_list },
        fbs := Function.update w.fbs p none,
        bos := w.bos,
        trace := w.trace ++
          ((if fb.map ≠ NULL ∧ fb.size > 0 then [Event.munmap fb.map fb.size] else []) ++
            [Event.DRM_IOCTL_MODE_DESTROY_DUMB fb.fd (fb.handles.get 0)] ++
            ((if fb.fb_id ≠ 0 then [Event.drmModeRmFB fb.fd fb.fb_id] else []) ++
              [Event.weston_buffer_reference fb.buffer_ref NULL,
               Event.weston_buffer_release_reference fb.buffer_release_ref NULL,
               Event.free p])) } := by
  unfold drm_fb_destroy_dumb
  rw [World.load_of_fbs w p fb hfb]
  simp only [ht, ne_eq, not_true_eq_false, if_false]
  by_cases hm : fb.map ≠ NULL ∧ fb.size > 0
  · rw [if_pos hm, if_pos hm,
      drm_fb_destroy_eq _ p fb (by simpa [World.emit] using hfb) hl]
    simp [World.emit]
  · rw [if_neg hm, if_neg hm,
      drm_fb_destroy_eq _ p fb (by simpa [World.emit] using hfb) hl]
    simp [World.emit]

/-- Closed form of `gbm_bo_destroy` on a driver object without destroy hook. -/
theorem gbm_bo_destroy_plain_eq (w : World) (bo : Ptr) (g : gbm_bo) (hg : w.bos bo = some g)
    (hh : g.destroy_user_data = false) :
    gbm_bo_destroy w bo = .ok
      { w with
        trace := w.trace ++ [Event.gbm_bo_destroy bo],
        bos := Function.update w.bos bo none } := by
  simp [gbm_bo_destroy, hg, hh, World.emit]

/-- Closed form of `gbm_bo_destroy` on a driver object whose user data is a
live buffer wrapped by `drm_fb_get_from_bo`. -/
theorem gbm_bo_destroy_hook_eq (w : World) (bo : Ptr) (g : gbm_bo) (fb : drm_fb)
    (hg : w.bos bo = some g) (hh : g.destroy_user_data = true)
    (hfb : w.fbs g.user_data = some fb)
    (ht : fb.type = drm_fb_type.BUFFER_GBM_SURFACE ∨ fb.type = drm_fb_type.BUFFER_CLIENT ∨
      fb.type = drm_fb_type.BUFFER_CURSOR)
    (hl : fb.backend_link ≠ wl_link.null) :
    gbm_bo_destroy w bo = .ok
      { b := { w.b with fb_list :=
          if fb.backend_link = wl_link.linked then w.b.fb_list.erase g.user_data
          else w.b.fb_list },
        fbs := Function.update w.fbs g.user_data none,
        bos := Function.update w.bos bo none,
        trace := w.trace ++
          ([Event.gbm_bo_destroy bo] ++
            ((if fb.fb_id ≠ 0 then [Event.drmModeRmFB fb.fd fb.fb_id] else []) ++
              [Event.weston_buffer_reference fb.buffer_ref NULL,
               Event.weston_buffer_release_reference fb.buffer_release_ref NULL,
               Event.free g.user_data])) } := by
  unfold gbm_bo_destroy
  simp only [hg, hh, if_true]
  unfold drm_fb_destroy_gbm
  rw [World.load_of_fbs _ g.user_data fb (by simpa [World.emit] using hfb)]
  simp only [ht, if_true]
  rw [drm_fb_destroy_eq _ g.user_data fb (by simpa [World.emit] using hfb) hl]
  simp [World.emit]

/-- Closed form of `drm_fb_destroy_dmabuf` on a live dmabuf import. -/
theorem drm_fb_destroy_dmabuf_eq (w : World) (p : Ptr) (fb : drm_fb) (g : gbm_bo)
    (hfb : w.fbs p = some fb) (hl : fb.backend_link ≠ wl_link.null) (hbo : fb.bo ≠ NULL)
    (hg : w.bos fb.bo = some g) (hh : g.destroy_user_data = false) :
    drm_fb_destroy_dmabuf w p = .ok
      { b := { w.b with fb_list :=
          if fb.backend_link = wl_link.linked then w.b.fb_list.erase p else w.b.fb_list },
        fbs := Function.update w.fbs p none,
        bos := Function.update w.bos fb.bo none,
        trace := w.trace ++
          ([Event.gbm_bo_destroy fb.bo] ++
            ((if fb.fb_id ≠ 0 then [Event.drmModeRmFB fb.fd fb.fb_id] else []) ++
              [Event.weston_buffer_reference fb.buffer_ref NULL,
               Event.weston_buffer_release_reference fb.buffer_release_ref NULL,
               Event.free p])) } := by
  unfold drm_fb_destroy_dmabuf
  rw [World.load_of_fbs w p fb hfb]
  simp only [if_pos hbo]
  rw [gbm_bo_destroy_plain_eq w fb.bo g hg hh]
  simp only
  rw [drm_fb_destroy_eq _ p fb (by simpa using hfb) hl]
  simp

/-- Storing twice at one address keeps the second object. -/
theorem World.store_store (w : World) (p : Ptr) (a b : drm_fb) :
    (w.store p a).store p b = w.store p b := by
  simp [World.store]

/-- A buffer stays live when its reference count is rewritten. -/
theorem World.live_store_refcnt (cfg : build_config) (w : World) (p : Ptr) (fb : drm_fb)
    (c : Int) (h : w.live cfg p fb) :
    (w.store p { fb with refcnt := c }).live cfg p { fb with refcnt := c } := by
  obtain ⟨hp, _, hl, ht⟩ := h
  exact ⟨hp, World.store_fbs_same _ _ _, hl, ht⟩

/-- A call of `drm_fb_unref` on a buffer with more than one reference only
decrements the count. -/
theorem drm_fb_unref_decrement (cfg : build_config) (w : World) (p : Ptr) (fb : drm_fb)
    (hp : p ≠ NULL) (hfb : w.fbs p = some fb) (hn : 1 < fb.refcnt) :
    drm_fb_unref cfg w p = .ok (w.store p { fb with refcnt := fb.refcnt - 1 }) := by
  have h1 : ¬ (fb.refcnt ≤ 0) := by omega
  have h2 : 0 < fb.refcnt - 1 := by omega
  simp only [drm_fb_unref, if_neg hp, World.load_of_fbs w p fb hfb, gt_iff_lt, not_lt,
    if_neg h1, if_pos h2]

/-- A call of `drm_fb_unref` on a buffer with one reference stores count 0,
runs the teardown of the buffer's origin, then invokes the destroy callback
that was registered, if any. -/
theorem drm_fb_unref_last (cfg : build_config) (w : World) (p : Ptr) (fb : drm_fb)
    (hp : p ≠ NULL) (hfb : w.fbs p = some fb) (hn : fb.refcnt = 1) :
    drm_fb_unref cfg w p =
      match drm_fb_unref_switch cfg (w.store p { fb with refcnt := 0 }) p
          { fb with refcnt := 0 } with
      | .error e => .error e
      | .ok w2 =>
        if fb.on_destroy ≠ NULL then
          .ok (w2.emit (Event.on_destroy fb.on_destroy fb.on_destroy_priv))
        else .ok w2 := by
  have h1 : ¬ (fb.refcnt ≤ 0) := by omega
  have h2 : ¬ (0 < fb.refcnt - 1) := by omega
  have h3 : fb.refcnt - 1 = 0 := by omega
  simp only [drm_fb_unref, if_neg hp, World.load_of_fbs w p fb hfb, gt_iff_lt, not_lt,
    if_neg h1, if_neg h2, h3, lt_self_iff_false, if_false]

/-- The first calls of a run of `drm_fb_unref`, as long as references remain,
only decrement the count. -/
theorem drm_fb_unref_times_decrement (cfg : build_config) (p : Ptr) (hp : p ≠ NULL) :
    ∀ (j : Nat) (w : World) (fb : drm_fb), w.fbs p = some fb → (j : Int) < fb.refcnt →
      drm_fb_unref_times cfg p j w = .ok (w.store p { fb with refcnt := fb.refcnt - j }) := by
  intro j
  induction j with
  | zero =>
    intro w fb hfb _
    have h3 : Function.update w.fbs p (some fb) = w.fbs := by
      rw [← hfb]
      exact Function.update_eq_self p w.fbs
    simp [drm_fb_unref_times, World.store, h3]
  | succ j ih =>
    intro w fb hfb hj
    have hj1 : 1 < fb.refcnt := by omega
    simp only [drm_fb_unref_times, drm_fb_unref_decrement cfg w p fb hp hfb hj1]
    rw [ih _ { fb with refcnt := fb.refcnt - 1 } (World.store_fbs_same _ _ _)
      (by simp only; omega), World.store_store]
    have : fb.refcnt - 1 - (j : Int) = fb.refcnt - ((j + 1 : Nat) : Int) := by
      push_cast
      omega
    simp only [this]

/-- A run of as many calls of `drm_fb_unref` as the buffer has references ends
like a single call on the buffer with one reference left. -/
theorem drm_fb_unref_times_all (cfg : build_config) (p : Ptr) (hp : p ≠ NULL) (j : Nat)
    (w : World) (fb : drm_fb) (hfb : w.fbs p = some fb) (hn : fb.refcnt = (j : Int) + 1) :
    drm_fb_unref_times cfg p (j + 1) w =
      match drm_fb_unref_switch cfg (w.store p { fb with refcnt := 0 }) p
          { fb with refcnt := 0 } with
      | .error e => .error e
      | .ok w2 =>
        if fb.on_destroy ≠ NULL then
          .ok (w2.emit (Event.on_destroy fb.on_destroy fb.on_destroy_priv))
        else .ok w2 := by
  induction j generalizing w fb with
  | zero =>
    have h1 : fb.refcnt = 1 := by simpa using hn
    simp only [drm_fb_unref_times]
    rw [drm_fb_unref_last cfg w p fb hp hfb h1]
    cases drm_fb_unref_switch cfg (w.store p { fb with refcnt := 0 }) p
        { fb with refcnt := 0 } with
    | error e => rfl
    | ok w2 => by_cases hc : fb.on_destroy ≠ NULL <;> simp [hc]
  | succ j ih =>
    have hj1 : 1 < fb.refcnt := by omega
    rw [drm_fb_unref_times, drm_fb_unref_decrement cfg w p fb hp hfb hj1]
    simp only
    rw [ih _ { fb with refcnt := fb.refcnt - 1 } (World.store_fbs_same _ _ _)
      (by simp only; push_cast at hn; omega), World.store_store]

/-- The teardown of a live buffer returns, makes the release call of the
buffer's origin exactly once, and invokes no destroy callback. -/
theorem drm_fb_unref_switch_live (cfg : build_config) (w : World) (p : Ptr) (fb : drm_fb)
    (hlive : w.live cfg p fb) :
    ∃ (w2 : World) (tr : List Event),
      drm_fb_unref_switch cfg w p fb = .ok w2 ∧ w2.trace = w.trace ++ tr ∧
      (∀ e ∈ tr, e.is_on_destroy = false) ∧ tr.countP (Event.releases fb) = 1 := by
  obtain ⟨hp, hfb, hl, ht⟩ := hlive
  cases htype : fb.type <;> simp only [htype] at ht
  · obtain ⟨hb, g, hg, hud, hh⟩ := ht
    rw [← hud] at hfb
    rw [show drm_fb_unref_switch cfg w p fb = gbm_bo_destroy w fb.bo by
        simp only [drm_fb_unref_switch, htype, hb, if_true],
      gbm_bo_destroy_hook_eq w fb.bo g fb hg hh hfb (Or.inr (Or.inl htype)) hl]
    refine ⟨_, _, rfl, rfl, ?_, ?_⟩
    · by_cases hid : fb.fb_id = 0 <;> simp [hid, Event.is_on_destroy]
    · by_cases hid : fb.fb_id = 0 <;>
        simp [hid, Event.releases, htype, List.countP_cons]
  · obtain ⟨hb, hbo, g, hg, hh⟩ := ht
    rw [show drm_fb_unref_switch cfg w p fb = drm_fb_destroy_dmabuf w p by
        simp only [drm_fb_unref_switch, htype, hb, if_true],
      drm_fb_destroy_dmabuf_eq w p fb g hfb hl hbo hg hh]
    refine ⟨_, _, rfl, rfl, ?_, ?_⟩
    · by_cases hid : fb.fb_id = 0 <;> simp [hid, Event.is_on_destroy]
    · by_cases hid : fb.fb_id = 0 <;>
        simp [hid, Event.releases, htype, List.countP_cons]
  · rw [show drm_fb_unref_switch cfg w p fb = drm_fb_destroy_dumb w p by
        simp only [drm_fb_unref_switch, htype],
      drm_fb_destroy_dumb_eq w p fb hfb htype hl]
    refine ⟨_, _, rfl, rfl, ?_, ?_⟩
    · by_cases hid : fb.fb_id = 0 <;> by_cases hm : fb.map ≠ NULL ∧ fb.size > 0 <;>
        simp [hid, hm, Event.is_on_destroy]
    · by_cases hid : fb.fb_id = 0 <;> by_cases hm : fb.map ≠ NULL ∧ fb.size > 0 <;>
        simp [hid, hm, Event.releases, htype, List.countP_cons]
  · refine ⟨w.emit (Event.gbm_surface_release_buffer fb.gbm_surface fb.bo),
      [Event.gbm_surface_release_buffer fb.gbm_surface fb.bo], ?_, rfl, ?_, ?_⟩
    · simp only [drm_fb_unref_switch, htype, ht, if_true]
    · intro e he
      rw [List.mem_singleton.mp he]
      rfl
    · simp [Event.releases, htype]
  · obtain ⟨hb, g, hg, hud, hh⟩ := ht
    rw [← hud] at hfb
    rw [show drm_fb_unref_switch cfg w p fb = gbm_bo_destroy w fb.bo by
        simp only [drm_fb_unref_switch, htype, hb, if_true],
      gbm_bo_destroy_hook_eq w fb.bo g fb hg hh hfb (Or.inr (Or.inr htype)) hl]
    refine ⟨_, _, rfl, rfl, ?_, ?_⟩
    · by_cases hid : fb.fb_id = 0 <;> simp [hid, Event.is_on_destroy]
    · by_cases hid : fb.fb_id = 0 <;>
        simp [hid, Event.releases, htype, List.countP_cons]

/-- Closed form of `drm_fb_create_dumb` once the kernel has allocated the dumb
buffer: the four ways the function can end, by the result of the registration,
of the map-dumb ioctl and of `mmap`. -/
theorem drm_fb_create_dumb_eq (fmts : pixel_formats) (k : create_dumb_replies) (w : World)
    (width height : Int) (format : Nat) (fmt : pixel_format_info) (c : Int × drm_fb × List Event)
    (hz : k.zalloc ≠ NULL) (hfmt : fmts.pixel_format_get_info format = some fmt)
    (hd : fmt.depth ≠ 0) (hb : fmt.bpp ≠ 0) (hc : k.create_ret = 0)
    (hcalls : c = drm_fb_addfb_calls k.addfb w.b.fb_modifiers
      (drm_fb_create_dumb_fill k w.b.drm_fd width height
        { drm_fb.zalloc with refcnt := 1, format := some fmt }) fmt) :
    drm_fb_create_dumb fmts k w width height format =
      if c.1 ≠ 0 then
        .ok (NULL,
          { b := w.b, fbs := Function.update w.fbs k.zalloc none, bos := w.bos,
            trace := w.trace ++
              ([Event.DRM_IOCTL_MODE_CREATE_DUMB w.b.drm_fd fmt.bpp (int_to_u32 width)
                  (int_to_u32 height) k.create_ret
                  k.create_handle k.create_pitch k.create_size] ++ c.2.2 ++
                [Event.DRM_IOCTL_MODE_DESTROY_DUMB w.b.drm_fd k.create_handle,
                 Event.free k.zalloc]) })
      else if k.map_ret ≠ 0 then
        .ok (NULL,
          { b := { w.b with fb_list := k.zalloc :: w.b.fb_list },
            fbs := Function.update w.fbs k.zalloc none, bos := w.bos,
            trace := w.trace ++
              ([Event.DRM_IOCTL_MODE_CREATE_DUMB w.b.drm_fd fmt.bpp (int_to_u32 width)
                  (int_to_u32 height) k.create_ret
                  k.create_handle k.create_pitch k.create_size] ++ c.2.2 ++
                [Event.DRM_IOCTL_MODE_MAP_DUMB w.b.drm_fd k.create_handle k.map_ret
                   k.map_offset,
                 Event.drmModeRmFB w.b.drm_fd c.2.1.fb_id,
                 Event.DRM_IOCTL_MODE_DESTROY_DUMB w.b.drm_fd k.create_handle,
                 Event.free k.zalloc]) })
      else if k.mmap_ret = MAP_FAILED then
        .ok (NULL,
          { b := { w.b with fb_list := k.zalloc :: w.b.fb_list },
            fbs := Function.update w.fbs k.zalloc none, bos := w.bos,
            trace := w.trace ++
              ([Event.DRM_IOCTL_MODE_CREATE_DUMB w.b.drm_fd fmt.bpp (int_to_u32 width)
                  (int_to_u32 height) k.create_ret
                  k.create_handle k.create_pitch k.create_size] ++ c.2.2 ++
                [Event.DRM_IOCTL_MODE_MAP_DUMB w.b.drm_fd k.create_handle k.map_ret
                   k.map_offset,
                 Event.mmap k.create_size w.b.drm_fd k.map_offset k.mmap_ret,
                 Event.drmModeRmFB w.b.drm_fd c.2.1.fb_id,
                 Event.DRM_IOCTL_MODE_DESTROY_DUMB w.b.drm_fd k.create_handle,
                 Event.free k.zalloc]) })
      else
        .ok (k.zalloc,
          { b := { w.b with fb_list := k.zalloc :: w.b.fb_list },
            fbs := Function.update w.fbs k.zalloc
              (some { c.2.1 with backend_link := wl_link.linked, map := k.mmap_ret }),
            bos := w.bos,
            trace := w.trace ++
              ([Event.DRM_IOCTL_MODE_CREATE_DUMB w.b.drm_fd fmt.bpp (int_to_u32 width)
                  (int_to_u32 height) k.create_ret
                  k.create_handle k.create_pitch k.create_size] ++ c.2.2 ++
                [Event.DRM_IOCTL_MODE_MAP_DUMB w.b.drm_fd k.create_handle k.map_ret
                   k.map_offset,
                 Event.mmap k.create_size w.b.drm_fd k.map_offset k.mmap_ret]) }) := by
  have hdb : ¬ (fmt.depth = 0 ∨ fmt.bpp = 0) := by
    rintro (h | h)
    · exact hd h
    · exact hb h
  have hfbc := drm_fb_addfb_calls_fb k.addfb w.b.fb_modifiers
    (drm_fb_create_dumb_fill k w.b.drm_fd width height
      { drm_fb.zalloc with refcnt := 1, format := some fmt }) fmt
  rw [← hcalls] at hfbc
  unfold drm_fb_create_dumb
  simp only [if_neg hz, hfmt, if_neg hdb, hc, ne_eq, not_true_eq_false, if_false]
  rw [drm_fb_addfb_eq k.addfb _ k.zalloc _ fmt (World.store_fbs_same _ _ _) rfl]
  simp only [World.store, World.emit, ← hcalls]
  by_cases hr : c.1 = 0
  · simp only [hr, not_true_eq_false, if_false]
    rw [drm_fb_remember_eq _ k.zalloc c.2.1 (by simp) (by rw [hfbc]; simp [drm_fb_create_dumb_fill])]
    have hlink : c.2.1.backend_link = wl_link.self := by
      rw [hfbc]; rfl
    have hfd : c.2.1.fd = w.b.drm_fd := by
      rw [hfbc]; rfl
    have hh : c.2.1.handles.get 0 = k.create_handle := by
      rw [hfbc]; rfl
    have hs : c.2.1.size = k.create_size := by
      rw [hfbc]; rfl
    simp only [World.load, Function.update_same, hlink, hfd, hh, hs, Function.update_idem]
    by_cases hm : k.map_ret = 0
    · by_cases hmm : k.mmap_ret = MAP_FAILED
      · simp [hm, hmm, drm_fb_create_dumb_err_add_fb, drm_fb_create_dumb_err_bo,
          drm_fb_create_dumb_err_fb, World.free, World.emit]
      · simp [hm, hmm]
    · simp [hm, drm_fb_create_dumb_err_add_fb, drm_fb_create_dumb_err_bo,
        drm_fb_create_dumb_err_fb, World.free, World.emit]
  · simp [hr, drm_fb_create_dumb_err_bo, drm_fb_create_dumb_err_fb, World.free, World.emit]

/-- The first call `drm_fb_addfb` makes is a registration call. -/
theorem drm_fb_addfb_calls_head (k : addfb_replies) (m : Bool) (fb : drm_fb)
    (fmt : pixel_format_info) :
    ∃ e tr, (drm_fb_addfb_calls k m fb fmt).2.2 = e :: tr ∧ e.is_addfb = true := by
  unfold drm_fb_addfb_calls
  split_ifs <;> exact ⟨_, _, rfl, rfl⟩

/-- The registration of a dumb buffer: the generic call, followed by the
legacy call when the generic call failed. -/
theorem drm_fb_create_dumb_calls (k : create_dumb_replies) (m : Bool) (fd width height : Int)
    (fmt : pixel_format_info) (fb0 : drm_fb) (h0 : fb0.handles = arr4.zero)
    (hd : fmt.depth ≠ 0) (hb : fmt.bpp ≠ 0) :
    drm_fb_addfb_calls k.addfb m (drm_fb_create_dumb_fill k fd width height fb0) fmt =
      if k.addfb.addfb2.ret = 0 then
        (0, { drm_fb_create_dumb_fill k fd width height fb0 with
              fb_id := k.addfb.addfb2.buf_id },
          [Event.drmModeAddFB2 fd width height fmt.format ⟨k.create_handle, 0, 0, 0⟩
            ((fb0.strides.set 0 k.create_pitch)) fb0.offsets 0 k.addfb.addfb2.ret
            k.addfb.addfb2.buf_id])
      else
        (k.addfb.addfb.ret,
          k.addfb.addfb.store (drm_fb_create_dumb_fill k fd width height fb0),
          [Event.drmModeAddFB2 fd width height fmt.format ⟨k.create_handle, 0, 0, 0⟩
            ((fb0.strides.set 0 k.create_pitch)) fb0.offsets 0 k.addfb.addfb2.ret
            k.addfb.addfb2.buf_id,
           Event.drmModeAddFB fd width height fmt.depth fmt.bpp k.create_pitch
            k.create_handle k.addfb.addfb.ret k.addfb.addfb.buf_id]) := by
  have hdb : ¬ (fmt.depth = 0 ∨ fmt.bpp = 0) := by
    rintro (h | h)
    · exact hd h
    · exact hb h
  unfold drm_fb_addfb_calls
  by_cases h2 : k.addfb.addfb2.ret = 0
  · simp [drm_fb_create_dumb_fill, h2, addfb_reply.store, h0, arr4.set, arr4.zero]
  · simp [drm_fb_create_dumb_fill, h2, addfb_reply.store, h0, arr4.set, arr4.zero, arr4.get,
      hdb]

/-- The plane loop of `drm_fb_get_from_bo` stays inside the arrays when it
ends at index 4 or before. -/
theorem drm_fb_get_from_bo_planes_ok (g : gbm_bo) :
    ∀ (n i : Nat) (acc : arr4 × arr4 × arr4), i + n ≤ 4 →
      ∃ acc1, drm_fb_get_from_bo_planes g n i acc = .ok acc1 := by
  intro n
  induction n with
  | zero => intro i acc _; exact ⟨acc, rfl⟩
  | succ n ih =>
    intro i acc h
    obtain ⟨strides, handles, offsets⟩ := acc
    have hi : ¬ (4 ≤ i) := by omega
    simp only [drm_fb_get_from_bo_planes, if_neg hi]
    exact ih (i + 1) _ (by omega)

/-- For a driver object with at most four planes, the plane description read
by `drm_fb_get_from_bo` leaves geometry, format, link, registration id and
driver object of the new buffer as they were. -/
theorem drm_fb_get_from_bo_fill_ok (cfg : build_config) (g : gbm_bo) (fb0 : drm_fb)
    (hpc : g.plane_count ≤ 4) :
    ∃ fb1, drm_fb_get_from_bo_fill cfg g fb0 = .ok fb1 ∧ fb1.width = fb0.width ∧
      fb1.height = fb0.height ∧ fb1.format = fb0.format ∧
      fb1.backend_link = fb0.backend_link ∧ fb1.fb_id = fb0.fb_id ∧ fb1.bo = fb0.bo ∧
      fb1.type = fb0.type ∧ fb1.refcnt = fb0.refcnt := by
  unfold drm_fb_get_from_bo_fill
  by_cases hm : cfg.HAVE_GBM_MODIFIERS = true
  · obtain ⟨⟨strides, handles, offsets⟩, hacc⟩ := drm_fb_get_from_bo_planes_ok g
      g.plane_count.toNat 0 (fb0.strides, fb0.handles, fb0.offsets) (by omega)
    simp only [hm, if_true, hacc]
    exact ⟨_, rfl, rfl, rfl, rfl, rfl, rfl, rfl, rfl, rfl⟩
  · simp only [hm]
    exact ⟨_, rfl, rfl, rfl, rfl, rfl, rfl, rfl, rfl, rfl⟩

/-- Closed form of label `err_free` of `drm_fb_get_from_dmabuf` for an object
with an initialised link that owns a driver object without destroy hook. -/
theorem drm_fb_get_from_dmabuf_err_free_eq (w : World) (p : Ptr) (fb : drm_fb) (g : gbm_bo)
    (hfb : w.fbs p = some fb) (hl : fb.backend_link ≠ wl_link.null) (hbo : fb.bo ≠ NULL)
    (hg : w.bos fb.bo = some g) (hh : g.destroy_user_data = false) :
    drm_fb_get_from_dmabuf_err_free w p = .ok (NULL,
      { b := { w.b with fb_list :=
          if fb.backend_link = wl_link.linked then w.b.fb_list.erase p else w.b.fb_list },
        fbs := Function.update w.fbs p none,
        bos := Function.update w.bos fb.bo none,
        trace := w.trace ++
          ([Event.gbm_bo_destroy fb.bo] ++
            ((if fb.fb_id ≠ 0 then [Event.drmModeRmFB fb.fd fb.fb_id] else []) ++
              [Event.weston_buffer_reference fb.buffer_ref NULL,
               Event.weston_buffer_release_reference fb.buffer_release_ref NULL,
               Event.free p])) }) := by
  unfold drm_fb_get_from_dmabuf_err_free
  rw [drm_fb_destroy_dmabuf_eq w p fb g hfb hl hbo hg hh]

/-- Label `err_free` of `drm_fb_get_from_dmabuf` applied to an object without
driver object whose link is still zero-allocated dereferences `NULL`. -/
theorem drm_fb_get_from_dmabuf_err_free_null (w : World) (p : Ptr) (fb : drm_fb)
    (hfb : w.fbs p = some fb) (hl : fb.backend_link = wl_link.null) (hbo : fb.bo = NULL) :
    drm_fb_get_from_dmabuf_err_free w p = .error Fault.null_deref := by
  unfold drm_fb_get_from_dmabuf_err_free drm_fb_destroy_dmabuf
  rw [World.load_of_fbs w p fb hfb]
  simp only [hbo, ne_eq, not_true_eq_false, if_false]
  unfold drm_fb_destroy
  rw [drm_fb_forget_null w p fb hfb hl]

/-- The part of `drm_fb_get_from_dmabuf` after a failed driver import
dereferences `NULL`: the teardown unlinks a link that was never initialised. -/
theorem drm_fb_get_from_dmabuf_imported_null (cfg : build_config) (fmts : pixel_formats)
    (k : dmabuf_replies) (w : World) (dmabuf : dmabuf_attributes) ( is_opaque : Bool)
    (p : Ptr) (fb0 : drm_fb) (hfb : w.fbs p = some fb0)
    (hl : fb0.backend_link = wl_link.null) (hbo : fb0.bo = NULL) :
    drm_fb_get_from_dmabuf_imported cfg fmts k w dmabuf is_opaque p fb0 =
      .error Fault.null_deref := by
  unfold drm_fb_get_from_dmabuf_imported
  rw [if_pos hbo]
  exact drm_fb_get_from_dmabuf_err_free_null w p fb0 hfb hl hbo

/-- The part of `drm_fb_get_from_dmabuf` after a successful driver import
rejects a descriptor whose geometry is out of bounds (or whose format is
unknown): it returns `NULL`, leaves the backend as it was, and makes no
registration call. -/
theorem drm_fb_get_from_dmabuf_imported_out_of_bounds (cfg : build_config)
    (fmts : pixel_formats) (k : dmabuf_replies) (w : World) (dmabuf : dmabuf_attributes)
    ( is_opaque : Bool) (p : Ptr) (fb0 : drm_fb) (g : gbm_bo)
    (hbo : fb0.bo ≠ NULL) (hg : w.bos fb0.bo = some g) (hh : g.destroy_user_data = false)
    (hid : fb0.fb_id = 0) (hout : w.b.out_of_bounds dmabuf.width dmabuf.height) :
    ∃ w1, drm_fb_get_from_dmabuf_imported cfg fmts k w dmabuf is_opaque p fb0 =
        .ok (NULL, w1) ∧ w1.b = w.b ∧
      ∃ tr, w1.trace = w.trace ++ tr ∧ ∀ e ∈ tr, e.is_addfb = false := by
  have hcheck : w.b.min_width > dmabuf.width ∨ dmabuf.width > w.b.max_width ∨
      w.b.min_height > dmabuf.height ∨ dmabuf.height > w.b.max_height := hout
  unfold drm_fb_get_from_dmabuf_imported
  rw [if_neg hbo]
  simp only
  cases hfmt : fmts.pixel_format_get_info dmabuf.format with
  | none =>
    simp only
    rw [drm_fb_get_from_dmabuf_err_free_eq _ p _ g (World.store_fbs_same _ _ _)
      (by simp) (by simpa using hbo) (by simpa [World.store] using hg) hh]
    refine ⟨_, rfl, ?_, _, rfl, ?_⟩
    · simp [World.store]
    · simp [hid, Event.is_addfb]
  | some fmt =>
    cases is_opaque <;> simp only [Bool.false_eq_true, if_false, if_true, if_pos hcheck] <;>
    ( rw [drm_fb_get_from_dmabuf_err_free_eq _ p _ g (World.store_fbs_same _ _ _)
        (by simp) (by simpa using hbo) (by simpa [World.store] using hg) hh]
      refine ⟨_, rfl, ?_, _, rfl, ?_⟩
      · simp [World.store]
      · simp [hid, Event.is_addfb] )

/-- The link, the driver object and the buffer references of an object are as
before after `drm_fb_addfb`. -/
theorem drm_fb_addfb_calls_fields (k : addfb_replies) (m : Bool) (fb : drm_fb)
    (fmt : pixel_format_info) :
    (drm_fb_addfb_calls k m fb fmt).2.1.backend_link = fb.backend_link ∧
    (drm_fb_addfb_calls k m fb fmt).2.1.bo = fb.bo ∧
    (drm_fb_addfb_calls k m fb fmt).2.1.fd = fb.fd ∧
    (drm_fb_addfb_calls k m fb fmt).2.1.buffer_ref = fb.buffer_ref ∧
    (drm_fb_addfb_calls k m fb fmt).2.1.buffer_release_ref = fb.buffer_release_ref := by
  rw [drm_fb_addfb_calls_fb k m fb fmt]
  exact ⟨rfl, rfl, rfl, rfl, rfl⟩

/-- The end of `drm_fb_get_from_dmabuf` on an object with a format, an
initialised link and a driver object without destroy hook returns, and its
first call is a registration call. -/
theorem drm_fb_get_from_dmabuf_register_reached (k : dmabuf_replies) (w : World) (p : Ptr)
    (fb : drm_fb) (fmt : pixel_format_info) (g : gbm_bo) (hfb : w.fbs p = some fb)
    (hfmt : fb.format = some fmt) (hl : fb.backend_link ≠ wl_link.null) (hbo : fb.bo ≠ NULL)
    (hg : w.bos fb.bo = some g) (hh : g.destroy_user_data = false) :
    ∃ (r : Ptr) (w1 : World) (e : Event) (tr : List Event),
      drm_fb_get_from_dmabuf_register k w p = .ok (r, w1) ∧
      w1.trace = w.trace ++ e :: tr ∧ e.is_addfb = true := by
  obtain ⟨e, tr2, hcalls, he⟩ := drm_fb_addfb_calls_head k.addfb w.b.fb_modifiers fb fmt
  obtain ⟨hlink, hbo2, _, _, _⟩ := drm_fb_addfb_calls_fields k.addfb w.b.fb_modifiers fb fmt
  unfold drm_fb_get_from_dmabuf_register
  rw [drm_fb_addfb_eq k.addfb w p fb fmt hfb hfmt]
  simp only [hcalls]
  by_cases hr : (drm_fb_addfb_calls k.addfb w.b.fb_modifiers fb fmt).1 = 0
  · simp only [hr, ne_eq, not_true_eq_false, if_false]
    rw [drm_fb_remember_eq _ p (drm_fb_addfb_calls k.addfb w.b.fb_modifiers fb fmt).2.1
      (by simp) (by rw [hlink]; exact hl)]
    exact ⟨_, _, e, _, rfl, rfl, he⟩
  · simp only [hr, ne_eq, not_false_eq_true, if_true]
    rw [drm_fb_get_from_dmabuf_err_free_eq _ p
      (drm_fb_addfb_calls k.addfb w.b.fb_modifiers fb fmt).2.1 g (by simp)
      (by rw [hlink]; exact hl) (by rw [hbo2]; exact hbo) (by rw [hbo2]; exact hg) hh]
    exact ⟨_, _, e, _, rfl, List.append_assoc _ _ _, he⟩

/-- When the driver import fails, or the modifier-aware import is needed in a
build without it, `drm_fb_get_from_dmabuf` does not return: label `err_free`
unlinks the zero-allocated registry link and dereferences `NULL`. -/
theorem drm_fb_get_from_dmabuf_import_failed (cfg : build_config) (fmts : pixel_formats)
    (k : dmabuf_replies) (w : World) (dmabuf : dmabuf_attributes) ( is_opaque : Bool)
    (hflags : dmabuf.flags = 0) (hz : k.zalloc ≠ NULL)
    (hfail : k.import_ret = NULL ∨
      ((dmabuf.modifier.get 0 ≠ DRM_FORMAT_MOD_INVALID ∨ dmabuf.n_planes > 1 ∨
          dmabuf.offset.get 0 > 0) ∧ cfg.HAVE_GBM_FD_IMPORT = false)) :
    drm_fb_get_from_dmabuf cfg fmts k w dmabuf is_opaque = .error Fault.null_deref := by
  have hf : ¬ (dmabuf.flags ≠ 0) := by simp [hflags]
  unfold drm_fb_get_from_dmabuf
  rw [if_neg hf, if_neg hz]
  by_cases hneeds : dmabuf.modifier.get 0 ≠ DRM_FORMAT_MOD_INVALID ∨ dmabuf.n_planes > 1 ∨
      dmabuf.offset.get 0 > 0
  · rw [if_pos hneeds]
    by_cases hhave : cfg.HAVE_GBM_FD_IMPORT = true
    · rw [if_pos hhave]
      rcases hfail with hret | ⟨_, hno⟩
      · exact drm_fb_get_from_dmabuf_imported_null _ _ _ _ _ _ _ _
          (World.store_fbs_same _ _ _) rfl (by rw [hret]; rfl)
      · rw [hno] at hhave
        exact absurd hhave (by decide)
    · rw [if_neg hhave]
      exact drm_fb_get_from_dmabuf_err_free_null _ _ _ (World.store_fbs_same _ _ _) rfl rfl
  · rw [if_neg hneeds]
    rcases hfail with hret | ⟨hn, _⟩
    · exact drm_fb_get_from_dmabuf_imported_null _ _ _ _ _ _ _ _
        (World.store_fbs_same _ _ _) rfl (by rw [hret]; rfl)
    · exact absurd hn hneeds

/-- The part of `drm_fb_get_from_dmabuf` that follows a successful driver
import, in the state the import leaves, rejects a descriptor whose geometry is
out of bounds. -/
theorem drm_fb_get_from_dmabuf_after_import_out_of_bounds (cfg : build_config)
    (fmts : pixel_formats) (k : dmabuf_replies) (w0 : World) (dmabuf : dmabuf_attributes)
    ( is_opaque : Bool) (hret : k.import_ret ≠ NULL)
    (hout : w0.b.out_of_bounds dmabuf.width dmabuf.height) :
    ∃ w1, drm_fb_get_from_dmabuf_imported cfg fmts k
        ((w0.gbm_import k.import_ret k.import_bo).store k.zalloc
          (drm_fb_get_from_dmabuf_alloc k.import_ret))
        dmabuf is_opaque k.zalloc (drm_fb_get_from_dmabuf_alloc k.import_ret) =
        .ok (NULL, w1) ∧ w1.b = w0.b ∧
      ∃ tr, w1.trace = w0.trace ++ tr ∧ ∀ e ∈ tr, e.is_addfb = false :=
  drm_fb_get_from_dmabuf_imported_out_of_bounds cfg fmts k
    ((w0.gbm_import k.import_ret k.import_bo).store k.zalloc
      (drm_fb_get_from_dmabuf_alloc k.import_ret))
    dmabuf is_opaque k.zalloc (drm_fb_get_from_dmabuf_alloc k.import_ret)
    { k.import_bo with user_data := NULL, destroy_user_data := false }
    hret (by simp [World.store, World.gbm_import, drm_fb_get_from_dmabuf_alloc, hret]) rfl rfl
    hout

/-- Whenever `drm_fb_get_from_dmabuf` gets as far as its geometry check with a
descriptor whose width or height is out of bounds (or returns before it), it
returns `NULL`, leaves the backend as it was and makes no registration call. -/
theorem drm_fb_get_from_dmabuf_out_of_bounds_reached (cfg : build_config)
    (fmts : pixel_formats) (k : dmabuf_replies) (w : World) (dmabuf : dmabuf_attributes)
    ( is_opaque : Bool) (hout : w.b.out_of_bounds dmabuf.width dmabuf.height)
    (hreach : dmabuf.flags ≠ 0 ∨ k.zalloc = NULL ∨
      (k.import_ret ≠ NULL ∧
        ((dmabuf.modifier.get 0 ≠ DRM_FORMAT_MOD_INVALID ∨ dmabuf.n_planes > 1 ∨
          dmabuf.offset.get 0 > 0) → cfg.HAVE_GBM_FD_IMPORT = true))) :
    ∃ w1, drm_fb_get_from_dmabuf cfg fmts k w dmabuf is_opaque = .ok (NULL, w1) ∧
      w1.b = w.b ∧ ∃ tr, w1.trace = w.trace ++ tr ∧ ∀ e ∈ tr, e.is_addfb = false := by
  unfold drm_fb_get_from_dmabuf
  by_cases hf : dmabuf.flags ≠ 0
  · rw [if_pos hf]
    exact ⟨w, rfl, rfl, [], by simp, by simp⟩
  · rw [if_neg hf]
    by_cases hz : k.zalloc = NULL
    · rw [if_pos hz]
      exact ⟨w, rfl, rfl, [], by simp, by simp⟩
    · rw [if_neg hz]
      obtain ⟨hret, hhave⟩ : k.import_ret ≠ NULL ∧
          ((dmabuf.modifier.get 0 ≠ DRM_FORMAT_MOD_INVALID ∨ dmabuf.n_planes > 1 ∨
            dmabuf.offset.get 0 > 0) → cfg.HAVE_GBM_FD_IMPORT = true) := by
        rcases hreach with h | h | h
        · exact absurd h hf
        · exact absurd h hz
        · exact h
      by_cases hneeds : dmabuf.modifier.get 0 ≠ DRM_FORMAT_MOD_INVALID ∨
          dmabuf.n_planes > 1 ∨ dmabuf.offset.get 0 > 0
      · rw [if_pos hneeds, if_pos (hhave hneeds)]
        obtain ⟨w1, h1, hb, tr, htr, hq⟩ :=
          drm_fb_get_from_dmabuf_after_import_out_of_bounds cfg fmts k
            (w.emit (Event.gbm_bo_import_fd_modifier w.b.gbm dmabuf.width dmabuf.height
              dmabuf.format dmabuf.n_planes (dmabuf.modifier.get 0) k.import_ret))
            dmabuf is_opaque hret hout
        refine ⟨w1, h1, hb, _ :: tr, htr.trans (List.append_assoc _ _ _), ?_⟩
        intro e he
        rcases List.mem_cons.mp he with rfl | h
        · rfl
        · exact hq e h
      · rw [if_neg hneeds]
        obtain ⟨w1, h1, hb, tr, htr, hq⟩ :=
          drm_fb_get_from_dmabuf_after_import_out_of_bounds cfg fmts k
            (w.emit (Event.gbm_bo_import_fd w.b.gbm dmabuf.width dmabuf.height dmabuf.format
              (dmabuf.stride.get 0) (dmabuf.fd.get 0) k.import_ret))
            dmabuf is_opaque hret hout
        refine ⟨w1, h1, hb, _ :: tr, htr.trans (List.append_assoc _ _ _), ?_⟩
        intro e he
        rcases List.mem_cons.mp he with rfl | h
        · rfl
        · exact hq e h

/-- `drm_fb_get_from_bo` rejects a driver object, not yet wrapped, whose
geometry is out of bounds: it returns `NULL`, leaves the backend and the driver
objects as they were, and makes no registration call. -/
theorem drm_fb_get_from_bo_out_of_bounds (cfg : build_config) (fmts : pixel_formats)
    (k : get_from_bo_replies) (w : World) (bo : Ptr) (g : gbm_bo) ( is_opaque : Bool)
    (type : drm_fb_type) (hg : w.bos bo = some g) (hud : g.user_data = NULL)
    (hpc : g.plane_count ≤ 4) (hout : w.b.out_of_bounds g.width g.height) :
    ∃ w1, drm_fb_get_from_bo cfg fmts k w bo is_opaque type = .ok (NULL, w1) ∧
      w1.b = w.b ∧ w1.bos = w.bos ∧
      ∃ tr, w1.trace = w.trace ++ tr ∧ ∀ e ∈ tr, e.is_addfb = false := by
  obtain ⟨fb1, hfill, hw, hh, _, _, _, _, _, _⟩ := drm_fb_get_from_bo_fill_ok cfg g
    (drm_fb_get_from_bo_alloc fmts w.b.drm_fd bo g type) hpc
  have hcheck : w.b.min_width > fb1.width ∨ fb1.width > w.b.max_width ∨
      w.b.min_height > fb1.height ∨ fb1.height > w.b.max_height := by
    rw [hw, hh]
    exact hout
  have hud2 : ¬ (g.user_data ≠ NULL) := by simp [hud]
  unfold drm_fb_get_from_bo
  simp only [hg, if_neg hud2]
  by_cases hz : k.zalloc = NULL
  · rw [if_pos hz]
    exact ⟨w, rfl, rfl, rfl, [], by simp, by simp⟩
  · rw [if_neg hz]
    simp only [hfill]
    cases hfmt : fb1.format with
    | none =>
      exact ⟨_, rfl, rfl, rfl, [Event.free k.zalloc], rfl, by simp [Event.is_addfb]⟩
    | some fmt =>
      cases is_opaque <;> simp only [Bool.false_eq_true, if_false, if_true, if_pos hcheck] <;>
        exact ⟨_, rfl, rfl, rfl, [Event.free k.zalloc], rfl, by simp [Event.is_addfb]⟩

/-- `drm_fb_get_from_bo` on a driver object, not yet wrapped, whose format is
known and whose geometry is within the bounds, ends included, returns, and its
first call is a registration call. -/
theorem drm_fb_get_from_bo_registration_reached (cfg : build_config) (fmts : pixel_formats)
    (k : get_from_bo_replies) (w : World) (bo : Ptr) (g : gbm_bo) ( is_opaque : Bool)
    (type : drm_fb_type) (fmt : pixel_format_info) (hg : w.bos bo = some g)
    (hud : g.user_data = NULL) (hpc : g.plane_count ≤ 4) (hz : k.zalloc ≠ NULL)
    (hfmt : fmts.pixel_format_get_info g.format = some fmt)
    (hin : w.b.min_width ≤ g.width ∧ g.width ≤ w.b.max_width ∧
      w.b.min_height ≤ g.height ∧ g.height ≤ w.b.max_height) :
    ∃ (r : Ptr) (w1 : World) (e : Event) (tr : List Event),
      drm_fb_get_from_bo cfg fmts k w bo is_opaque type = .ok (r, w1) ∧
      w1.trace = w.trace ++ e :: tr ∧ e.is_addfb = true := by
  obtain ⟨fb1, hfill, hw, hh, hf, hl, _, _, _, _⟩ := drm_fb_get_from_bo_fill_ok cfg g
    (drm_fb_get_from_bo_alloc fmts w.b.drm_fd bo g type) hpc
  have hf1 : fb1.format = some fmt := by
    rw [hf]
    exact hfmt
  have hl1 : fb1.backend_link = wl_link.self := by
    rw [hl]
    rfl
  have hcheck : ¬ (w.b.min_width > fb1.width ∨ fb1.width > w.b.max_width ∨
      w.b.min_height > fb1.height ∨ fb1.height > w.b.max_height) := by
    rw [hw, hh]
    show ¬ (w.b.min_width > g.width ∨ g.width > w.b.max_width ∨
      w.b.min_height > g.height ∨ g.height > w.b.max_height)
    omega
  have hud2 : ¬ (g.user_data ≠ NULL) := by simp [hud]
  have key : ∀ (fb2 : drm_fb) (fmt2 : pixel_format_info), fb2.format = some fmt2 →
      fb2.backend_link = wl_link.self →
      ∃ (r : Ptr) (w1 : World) (e : Event) (tr : List Event),
        (match drm_fb_addfb k.addfb (w.store k.zalloc fb2) k.zalloc with
          | .error e => .error e
          | .ok (ret, w1) =>
            if ret ≠ 0 then .ok (NULL, w1.free k.zalloc)
            else
              match drm_fb_remember w1 k.zalloc with
              | .error e => .error e
              | .ok w2 =>
                .ok (k.zalloc,
                  { (w2.emit (Event.gbm_bo_set_user_data bo k.zalloc)) with
                    bos := (Function.update (w2.emit (Event.gbm_bo_set_user_data bo
                      k.zalloc)).bos bo
                      (some { g with user_data := k.zalloc, destroy_user_data := true })) }) :
            Except Fault (Ptr × World)) = .ok (r, w1) ∧
        w1.trace = w.trace ++ e :: tr ∧ e.is_addfb = true := by
    intro fb2 fmt2 hf2 hl2
    obtain ⟨e, tr2, hcalls, he⟩ := drm_fb_addfb_calls_head k.addfb w.b.fb_modifiers fb2 fmt2
    obtain ⟨hlink, _, _, _, _⟩ := drm_fb_addfb_calls_fields k.addfb w.b.fb_modifiers fb2 fmt2
    rw [drm_fb_addfb_eq k.addfb (w.store k.zalloc fb2) k.zalloc fb2 fmt2
      (World.store_fbs_same _ _ _) hf2]
    simp only [World.store, hcalls]
    by_cases hr : (drm_fb_addfb_calls k.addfb w.b.fb_modifiers fb2 fmt2).1 = 0
    · simp only [hr, ne_eq, not_true_eq_false, if_false]
      rw [drm_fb_remember_eq _ k.zalloc
        (drm_fb_addfb_calls k.addfb w.b.fb_modifiers fb2 fmt2).2.1 (by simp)
        (by rw [hlink, hl2]; decide)]
      exact ⟨_, _, e, _, rfl, List.append_assoc _ _ _, he⟩
    · simp only [hr, ne_eq, not_false_eq_true, if_true]
      exact ⟨_, _, e, _, rfl, List.append_assoc _ _ _, he⟩
  unfold drm_fb_get_from_bo
  simp only [hg, if_neg hud2, if_neg hz, hfill, hf1]
  cases is_opaque <;> simp only [Bool.false_eq_true, if_false, if_true, if_neg hcheck]
  · exact key fb1 fmt hf1 hl1
  · exact key _ _ rfl hl1

/-- The end of `drm_fb_get_from_dmabuf` right after the object was stored:
see `drm_fb_get_from_dmabuf_register_reached`. -/
theorem drm_fb_get_from_dmabuf_register_reached_store (k : dmabuf_replies) (w : World)
    (p : Ptr) (fb : drm_fb) (fmt : pixel_format_info) (g : gbm_bo)
    (hfmt : fb.format = some fmt) (hl : fb.backend_link ≠ wl_link.null) (hbo : fb.bo ≠ NULL)
    (hg : w.bos fb.bo = some g) (hh : g.destroy_user_data = false) :
    ∃ (r : Ptr) (w1 : World) (e : Event) (tr : List Event),
      drm_fb_get_from_dmabuf_register k (w.store p fb) p = .ok (r, w1) ∧
      w1.trace = w.trace ++ e :: tr ∧ e.is_addfb = true :=
  drm_fb_get_from_dmabuf_register_reached k (w.store p fb) p fb fmt g
    (World.store_fbs_same _ _ _) hfmt hl hbo hg hh

/-- The part of `drm_fb_get_from_dmabuf` that follows a successful driver
import, for a descriptor with a known format, a geometry within the bounds,
ends included, and plane handles the driver hands out, returns, and its first
call is a registration call. -/
theorem drm_fb_get_from_dmabuf_imported_reached (cfg : build_config)
    (fmts : pixel_formats) (k : dmabuf_replies) (w : World) (dmabuf : dmabuf_attributes)
    ( is_opaque : Bool) (p : Ptr) (fb0 : drm_fb) (g : gbm_bo) (fmt : pixel_format_info)
    (handles : arr4) (num_planes : Int)
    (hbo : fb0.bo ≠ NULL) (hg : w.bos fb0.bo = some g) (hh : g.destroy_user_data = false)
    (hfmt : fmts.pixel_format_get_info dmabuf.format = some fmt)
    (hplanes : drm_fb_get_from_dmabuf_planes cfg k.import_bo dmabuf.n_planes fb0.handles =
      (.ok (some handles), num_planes))
    (hin : w.b.min_width ≤ dmabuf.width ∧ dmabuf.width ≤ w.b.max_width ∧
      w.b.min_height ≤ dmabuf.height ∧ dmabuf.height ≤ w.b.max_height) :
    ∃ (r : Ptr) (w1 : World) (e : Event) (tr : List Event),
      drm_fb_get_from_dmabuf_imported cfg fmts k w dmabuf is_opaque p fb0 = .ok (r, w1) ∧
      w1.trace = w.trace ++ e :: tr ∧ e.is_addfb = true := by
  have hcheck : ¬ (w.b.min_width > dmabuf.width ∨ dmabuf.width > w.b.max_width ∨
      w.b.min_height > dmabuf.height ∨ dmabuf.height > w.b.max_height) := by omega
  have hbo1 : ¬ (fb0.bo = NULL) := hbo
  unfold drm_fb_get_from_dmabuf_imported
  rw [if_neg hbo1]
  simp only [hfmt]
  cases is_opaque <;>
    simp only [Bool.false_eq_true, if_false, if_true, if_neg hcheck, hplanes]
  · refine drm_fb_get_from_dmabuf_register_reached_store k w p _ fmt g ?_ ?_ ?_ ?_ ?_
    · rfl
    · simp
    · exact hbo
    · exact hg
    · exact hh
  · refine drm_fb_get_from_dmabuf_register_reached_store k w p _
      (fmts.pixel_format_get_opaque_substitute fmt) g ?_ ?_ ?_ ?_ ?_
    · rfl
    · simp
    · exact hbo
    · exact hg
    · exact hh

/-- The part of `drm_fb_get_from_dmabuf` that follows a successful driver
import, in the state the import leaves: see
`drm_fb_get_from_dmabuf_imported_reached`. -/
theorem drm_fb_get_from_dmabuf_after_import_reached (cfg : build_config)
    (fmts : pixel_formats) (k : dmabuf_replies) (w0 : World) (dmabuf : dmabuf_attributes)
    ( is_opaque : Bool) (fmt : pixel_format_info) (handles : arr4) (num_planes : Int)
    (hret : k.import_ret ≠ NULL)
    (hfmt : fmts.pixel_format_get_info dmabuf.format = some fmt)
    (hplanes : drm_fb_get_from_dmabuf_planes cfg k.import_bo dmabuf.n_planes arr4.zero =
      (.ok (some handles), num_planes))
    (hin : w0.b.min_width ≤ dmabuf.width ∧ dmabuf.width ≤ w0.b.max_width ∧
      w0.b.min_height ≤ dmabuf.height ∧ dmabuf.height ≤ w0.b.max_height) :
    ∃ (r : Ptr) (w1 : World) (e : Event) (tr : List Event),
      drm_fb_get_from_dmabuf_imported cfg fmts k
        ((w0.gbm_import k.import_ret k.import_bo).store k.zalloc
          (drm_fb_get_from_dmabuf_alloc k.import_ret))
        dmabuf is_opaque k.zalloc (drm_fb_get_from_dmabuf_alloc k.import_ret) = .ok (r, w1) ∧
      w1.trace = w0.trace ++ e :: tr ∧ e.is_addfb = true :=
  drm_fb_get_from_dmabuf_imported_reached cfg fmts k
    ((w0.gbm_import k.import_ret k.import_bo).store k.zalloc
      (drm_fb_get_from_dmabuf_alloc k.import_ret))
    dmabuf is_opaque k.zalloc (drm_fb_get_from_dmabuf_alloc k.import_ret)
    { k.import_bo with user_data := NULL, destroy_user_data := false } fmt handles num_planes
    hret (by simp [World.store, World.gbm_import, drm_fb_get_from_dmabuf_alloc, hret]) rfl
    hfmt hplanes hin

/-- `drm_fb_get_from_dmabuf` on a descriptor without flags, with a known
format, a geometry within the bounds, ends included, and plane handles the
driver hands out, returns when the driver import succeeds; its first call is
the driver import and its second a registration call. -/
theorem drm_fb_get_from_dmabuf_registration_reached (cfg : build_config)
    (fmts : pixel_formats) (k : dmabuf_replies) (w : World) (dmabuf : dmabuf_attributes)
    ( is_opaque : Bool) (fmt : pixel_format_info) (handles : arr4) (num_planes : Int)
    (hflags : dmabuf.flags = 0) (hz : k.zalloc ≠ NULL) (hret : k.import_ret ≠ NULL)
    (hhave : (dmabuf.modifier.get 0 ≠ DRM_FORMAT_MOD_INVALID ∨ dmabuf.n_planes > 1 ∨
      dmabuf.offset.get 0 > 0) → cfg.HAVE_GBM_FD_IMPORT = true)
    (hfmt : fmts.pixel_format_get_info dmabuf.format = some fmt)
    (hplanes : drm_fb_get_from_dmabuf_planes cfg k.import_bo dmabuf.n_planes arr4.zero =
      (.ok (some handles), num_planes))
    (hin : w.b.min_width ≤ dmabuf.width ∧ dmabuf.width ≤ w.b.max_width ∧
      w.b.min_height ≤ dmabuf.height ∧ dmabuf.height ≤ w.b.max_height) :
    ∃ (r : Ptr) (w1 : World) (e0 e : Event) (tr : List Event),
      drm_fb_get_from_dmabuf cfg fmts k w dmabuf is_opaque = .ok (r, w1) ∧
      w1.trace = w.trace ++ e0 :: e :: tr ∧ e0.is_gbm_import = true ∧ e.is_addfb = true := by
  have hf : ¬ (dmabuf.flags ≠ 0) := by simp [hflags]
  unfold drm_fb_get_from_dmabuf
  rw [if_neg hf, if_neg hz]
  by_cases hneeds : dmabuf.modifier.get 0 ≠ DRM_FORMAT_MOD_INVALID ∨ dmabuf.n_planes > 1 ∨
      dmabuf.offset.get 0 > 0
  · rw [if_pos hneeds, if_pos (hhave hneeds)]
    obtain ⟨r, w1, e, tr, h1, htr, he⟩ := drm_fb_get_from_dmabuf_after_import_reached cfg fmts k
      (w.emit (Event.gbm_bo_import_fd_modifier w.b.gbm dmabuf.width dmabuf.height
        dmabuf.format dmabuf.n_planes (dmabuf.modifier.get 0) k.import_ret))
      dmabuf is_opaque fmt handles num_planes hret hfmt hplanes hin
    exact ⟨r, w1, _, e, tr, h1, htr.trans (List.append_assoc _ _ _), rfl, he⟩
  · rw [if_neg hneeds]
    obtain ⟨r, w1, e, tr, h1, htr, he⟩ := drm_fb_get_from_dmabuf_after_import_reached cfg fmts k
      (w.emit (Event.gbm_bo_import_fd w.b.gbm dmabuf.width dmabuf.height dmabuf.format
        (dmabuf.stride.get 0) (dmabuf.fd.get 0) k.import_ret))
      dmabuf is_opaque fmt handles num_planes hret hfmt hplanes hin
    exact ⟨r, w1, _, e, tr, h1, htr.trans (List.append_assoc _ _ _), rfl, he⟩

/-! ## Registration strategy -/

/-- **C1.** On a backend with modifier support and for a buffer whose modifier
is not `DRM_FORMAT_MOD_INVALID`, `drm_fb_addfb` makes exactly one call, the
modifier-aware registration, whose modifier array holds the buffer's modifier
for each leading plane with a non-zero handle and 0 for every remaining plane,
and it returns that call's result, zero or not; no generic and no legacy
registration call is made. -/
theorem drm_fb_addfb_with_modifiers (k : addfb_replies) (w : World) (p : Ptr) (fb : drm_fb)
    (fmt : pixel_format_info) (hfb : w.fbs p = some fb) (hfmt : fb.format = some fmt)
    (hsup : w.b.fb_modifiers = true) (hmod : fb.modifier ≠ DRM_FORMAT_MOD_INVALID) :
    ∃ (mods : arr4) (w1 : World),
      drm_fb_addfb k w p = .ok (k.with_modifiers.ret, w1) ∧
      w1.trace = w.trace ++ [Event.drmModeAddFB2WithModifiers fb.fd fb.width fb.height
        fmt.format fb.handles fb.strides fb.offsets mods DRM_MODE_FB_MODIFIERS
        k.with_modifiers.ret k.with_modifiers.buf_id] ∧
      (∀ i, i < 4 → (∀ j, j ≤ i → fb.handles.get j ≠ 0) → mods.get i = fb.modifier) ∧
      (∀ i, i < 4 → (∃ j, j ≤ i ∧ fb.handles.get j = 0) → mods.get i = 0) := by
  have hc : w.b.fb_modifiers = true ∧ fb.modifier ≠ DRM_FORMAT_MOD_INVALID := ⟨hsup, hmod⟩
  simp only [drm_fb_addfb, hfb, hfmt, drm_fb_addfb_calls, if_pos hc]
  refine ⟨drm_fb_addfb_mods fb.handles fb.modifier 4 0 arr4.zero, _, rfl, rfl, ?_, ?_⟩
  · intro i hi hall
    exact (drm_fb_addfb_mods_get fb.handles fb.modifier i hi).1 hall
  · intro i hi hex
    exact (drm_fb_addfb_mods_get fb.handles fb.modifier i hi).2 hex

/-- **C2.** On the branch without modifiers (backend without modifier support,
or modifier `DRM_FORMAT_MOD_INVALID`) `drm_fb_addfb` first makes the generic
multi-plane call. The legacy single-plane call follows if and only if the
generic call failed, the format's depth and bpp are both non-zero and
`handles[1]`, `handles[2]`, `handles[3]` are all zero; the function then returns
the legacy call's result. When the generic call failed and that guard does not
hold, the generic call's error is returned unchanged; when the generic call
succeeded, 0 is returned. -/
theorem drm_fb_addfb_fallback (k : addfb_replies) (w : World) (p : Ptr) (fb : drm_fb)
    (fmt : pixel_format_info) (hfb : w.fbs p = some fb) (hfmt : fb.format = some fmt)
    (hbranch : w.b.fb_modifiers = false ∨ fb.modifier = DRM_FORMAT_MOD_INVALID) :
    ∃ (ret : Int) (w1 : World),
      drm_fb_addfb k w p = .ok (ret, w1) ∧
      ((k.addfb2.ret ≠ 0 ∧ fmt.depth ≠ 0 ∧ fmt.bpp ≠ 0 ∧
          fb.handles.get 1 = 0 ∧ fb.handles.get 2 = 0 ∧ fb.handles.get 3 = 0) →
        w1.trace = w.trace ++
          [Event.drmModeAddFB2 fb.fd fb.width fb.height fmt.format fb.handles fb.strides
             fb.offsets 0 k.addfb2.ret k.addfb2.buf_id,
           Event.drmModeAddFB fb.fd fb.width fb.height fmt.depth fmt.bpp (fb.strides.get 0)
             (fb.handles.get 0) k.addfb.ret k.addfb.buf_id] ∧
        ret = k.addfb.ret) ∧
      (¬ (k.addfb2.ret ≠ 0 ∧ fmt.depth ≠ 0 ∧ fmt.bpp ≠ 0 ∧
          fb.handles.get 1 = 0 ∧ fb.handles.get 2 = 0 ∧ fb.handles.get 3 = 0) →
        w1.trace = w.trace ++
          [Event.drmModeAddFB2 fb.fd fb.width fb.height fmt.format fb.handles fb.strides
             fb.offsets 0 k.addfb2.ret k.addfb2.buf_id]) ∧
      (k.addfb2.ret ≠ 0 →
        ¬ (fmt.depth ≠ 0 ∧ fmt.bpp ≠ 0 ∧
          fb.handles.get 1 = 0 ∧ fb.handles.get 2 = 0 ∧ fb.handles.get 3 = 0) →
        ret = k.addfb2.ret) ∧
      (k.addfb2.ret = 0 → ret = 0) := by
  have hcond : ¬ (w.b.fb_modifiers = true ∧ fb.modifier ≠ DRM_FORMAT_MOD_INVALID) := by
    rintro ⟨h1, h2⟩
    rcases hbranch with h | h
    · rw [h] at h1; exact Bool.noConfusion h1
    · exact h2 h
  by_cases h2 : k.addfb2.ret = 0
  · simp only [drm_fb_addfb, hfb, hfmt, drm_fb_addfb_calls, if_neg hcond, if_pos h2]
    refine ⟨_, _, rfl, ?_, ?_, ?_, ?_⟩
    · intro hg; exact absurd h2 hg.1
    · intro _; rfl
    · intro hne; exact absurd h2 hne
    · intro _; rfl
  · by_cases hd : fmt.depth = 0 ∨ fmt.bpp = 0
    · simp only [drm_fb_addfb, hfb, hfmt, drm_fb_addfb_calls, if_neg hcond, if_neg h2, if_pos hd]
      refine ⟨_, _, rfl, ?_, ?_, ?_, ?_⟩
      · intro hg
        rcases hd with hd | hd
        · exact absurd hd hg.2.1
        · exact absurd hd hg.2.2.1
      · intro _; rfl
      · intro _ _; rfl
      · intro h0; exact absurd h0 h2
    · by_cases hh : fb.handles.get 1 ≠ 0 ∨ fb.handles.get 2 ≠ 0 ∨ fb.handles.get 3 ≠ 0
      · simp only [drm_fb_addfb, hfb, hfmt, drm_fb_addfb_calls, if_neg hcond, if_neg h2, if_neg hd,
          if_pos hh]
        refine ⟨_, _, rfl, ?_, ?_, ?_, ?_⟩
        · intro hg
          rcases hh with hh | hh | hh
          · exact absurd hg.2.2.2.1 hh
          · exact absurd hg.2.2.2.2.1 hh
          · exact absurd hg.2.2.2.2.2 hh
        · intro _; rfl
        · intro _ _; rfl
        · intro h0; exact absurd h0 h2
      · simp only [drm_fb_addfb, hfb, hfmt, drm_fb_addfb_calls, if_neg hcond, if_neg h2, if_neg hd,
          if_neg hh]
        refine ⟨_, _, rfl, ?_, ?_, ?_, ?_⟩
        · intro _; exact ⟨rfl, rfl⟩
        · intro hng
          exfalso
          apply hng
          push_neg at hd hh
          exact ⟨h2, hd.1, hd.2, hh.1, hh.2.1, hh.2.2⟩
        · intro _ hng
          exfalso
          apply hng
          push_neg at hd hh
          exact ⟨hd.1, hd.2, hh.1, hh.2.1, hh.2.2⟩
        · intro h0; exact absurd h0 h2

/-- Instance of **C1**: a two-plane buffer with modifier 1 on a backend with
modifier support is registered by the modifier-aware call with modifiers
`1, 1, 0, 0`. -/
theorem drm_fb_addfb_with_modifiers_witness :
    ∃ (mods : arr4) (w1 : World),
      drm_fb_addfb sample_addfb_ok (sample_empty.store 7 sample_fb_tiled) 7 = .ok (0, w1) ∧
      w1.trace = [Event.drmModeAddFB2WithModifiers 3 128 128 DRM_FORMAT_NV12 ⟨5, 6, 0, 0⟩
        ⟨512, 256, 0, 0⟩ ⟨0, 0, 0, 0⟩ mods 2 0 41] ∧
      mods.get 0 = 1 ∧ mods.get 1 = 1 ∧ mods.get 2 = 0 ∧ mods.get 3 = 0 := by
  obtain ⟨mods, w1, h, htr, hset, hzero⟩ :=
    drm_fb_addfb_with_modifiers sample_addfb_ok (sample_empty.store 7 sample_fb_tiled) 7
      sample_fb_tiled sample_nv12 (by simp [World.store]) rfl rfl (by decide)
  refine ⟨mods, w1, h, htr, ?_, ?_, ?_, ?_⟩
  · exact hset 0 (by decide) (by
      intro j hj
      interval_cases j
      decide)
  · exact hset 1 (by decide) (by
      intro j hj
      interval_cases j <;> decide)
  · exact hzero 2 (by decide) ⟨2, le_refl _, rfl⟩
  · exact hzero 3 (by decide) ⟨2, by decide, rfl⟩

/-- Instance of **C2**: for a one-plane XRGB8888 buffer whose generic
registration fails, the legacy call is made and its result returned. -/
theorem drm_fb_addfb_fallback_witness :
    ∃ (w1 : World),
      drm_fb_addfb sample_addfb_legacy (sample_empty.store 7 sample_fb_linear) 7 =
        .ok (0, w1) ∧
      w1.trace = [Event.drmModeAddFB2 3 128 128 DRM_FORMAT_XRGB8888 ⟨5, 0, 0, 0⟩
          ⟨512, 0, 0, 0⟩ ⟨0, 0, 0, 0⟩ 0 (-22) 0,
        Event.drmModeAddFB 3 128 128 24 32 512 5 0 43] := by
  obtain ⟨ret, w1, h, hlegacy, _, _, _⟩ :=
    drm_fb_addfb_fallback sample_addfb_legacy (sample_empty.store 7 sample_fb_linear) 7
      sample_fb_linear sample_xrgb (by simp [World.store]) rfl (Or.inr rfl)
  obtain ⟨htr, hret⟩ := hlegacy (by decide)
  subst hret
  exact ⟨w1, h, htr⟩

/-! ## Dmabuf import and per-plane modifiers -/

/-- **C3**, counterexample. On a backend with modifier support, a two-plane
descriptor whose planes carry the different modifiers 1 and 2 is not rejected:
the import succeeds, the modifier-aware registration call is issued for it
(with modifier 1 for both planes), and the buffer joins the registry. -/
theorem drm_fb_get_from_dmabuf_mixed_modifiers_registered :
    sample_empty.b.fb_modifiers = true ∧ sample_dmabuf_mixed.n_planes = 2 ∧
    sample_dmabuf_mixed.modifier.get 0 ≠ sample_dmabuf_mixed.modifier.get 1 ∧
    ∃ w1, drm_fb_get_from_dmabuf sample_build sample_formats sample_dmabuf_replies
        sample_empty sample_dmabuf_mixed false = .ok (7, w1) ∧
      w1.trace = [Event.gbm_bo_import_fd_modifier 100 128 128 DRM_FORMAT_NV12 2 1 200,
        Event.drmModeAddFB2WithModifiers 3 128 128 DRM_FORMAT_NV12 ⟨5, 6, 0, 0⟩
          ⟨128, 128, 0, 0⟩ ⟨0, 0, 0, 0⟩ ⟨1, 1, 0, 0⟩ 2 0 41] ∧
      w1.b.fb_list = [7] := by
  refine ⟨rfl, rfl, by decide, _, rfl, rfl, rfl⟩

/-- **C3**, as amended. `drm_fb_get_from_dmabuf` does not compare the per-plane
modifiers of a descriptor. It reads `modifier[0]` only, so a descriptor whose
planes carry different modifiers is treated exactly like the descriptor with
the other three entries replaced by anything else; and every modifier-aware
registration call it issues passes `modifier[0]` for each leading plane with a
non-zero handle and 0 for every remaining plane. -/
theorem drm_fb_get_from_dmabuf_first_modifier_only (cfg : build_config)
    (fmts : pixel_formats) (k : dmabuf_replies) (w : World) (dmabuf : dmabuf_attributes)
    ( is_opaque : Bool) :
    (∀ m1 m2 m3 : Nat,
      drm_fb_get_from_dmabuf cfg fmts k w
        { dmabuf with modifier := ⟨dmabuf.modifier.get 0, m1, m2, m3⟩ } is_opaque =
      drm_fb_get_from_dmabuf cfg fmts k w dmabuf is_opaque) ∧
    (∀ (r : Ptr) (w1 : World),
      drm_fb_get_from_dmabuf cfg fmts k w dmabuf is_opaque = .ok (r, w1) →
      ∃ tr, w1.trace = w.trace ++ tr ∧
        ∀ e ∈ tr, e.passes_modifier (dmabuf.modifier.get 0)) := by
  constructor
  · intro m1 m2 m3
    rfl
  · intro r w1 h
    have himp : ∀ (w2 : World) (fb1 : drm_fb),
        drm_fb_get_from_dmabuf_imported cfg fmts k (w2.store k.zalloc fb1) dmabuf is_opaque
          k.zalloc fb1 = .ok (r, w1) →
        (∃ e : Event, w2.trace = w.trace ++ [e] ∧ e.is_addfb = false) →
        w.continues w1 (Event.passes_modifier (dmabuf.modifier.get 0)) := by
      intro w2 fb1 h2 he
      obtain ⟨e, htr, he⟩ := he
      have h3 := drm_fb_get_from_dmabuf_imported_continues _ _ _ _ _ _ _ _ _ _ h2
      exact World.continues_trans _ _ _ _
        ⟨[e], htr, by
          intro x hx
          rw [List.mem_singleton.mp hx]
          exact Event.passes_modifier_of_not_addfb _ e he⟩ h3
    have hfree : ∀ (w0 : World), drm_fb_get_from_dmabuf_err_free w0 k.zalloc = .ok (r, w1) →
        w0.trace = w.trace →
        w.continues w1 (Event.passes_modifier (dmabuf.modifier.get 0)) := by
      intro w0 h0 htr
      obtain ⟨t, ht, hq⟩ := (drm_fb_get_from_dmabuf_err_free_continues w0 w1 _ r h0).2
      exact ⟨t, by rw [ht, htr], fun e he =>
        Event.passes_modifier_of_not_addfb _ e (hq e he)⟩
    unfold drm_fb_get_from_dmabuf at h
    repeat' first
      | contradiction
      | exact himp _ _ h ⟨_, rfl, rfl⟩
      | exact hfree _ h rfl
      | ( injection h with h
          injection h with _ hw
          subst hw
          exact World.continues_of_trace_eq _ _ _ rfl )
      | split at h

/-! ## Reference counting -/

/-- **C4.** For a live buffer with reference count `n ≥ 1`, `drm_fb_ref` returns
the same pointer and leaves the object with count `n + 1`, nothing else being
changed; `drm_fb_unref` applied to the result gives back exactly the state
before `drm_fb_ref`: the count is `n` again, the trace is unchanged (no
teardown, no destroy callback, no kernel or driver call), and every other
field, every other object, the driver objects and the registry are unchanged. -/
theorem drm_fb_unref_ref (cfg : build_config) (w : World) (p : Ptr) (fb : drm_fb)
    (hp : p ≠ NULL) (hfb : w.fbs p = some fb) (hn : 1 ≤ fb.refcnt) :
    ∃ w1 : World,
      drm_fb_ref w p = .ok (p, w1) ∧
      w1.fbs p = some { fb with refcnt := fb.refcnt + 1 } ∧
      (∀ q, q ≠ p → w1.fbs q = w.fbs q) ∧
      w1.b = w.b ∧ w1.bos = w.bos ∧ w1.trace = w.trace ∧
      drm_fb_unref cfg w1 p = .ok w := by
  refine ⟨w.store p { fb with refcnt := fb.refcnt + 1 }, ?_, ?_, ?_, rfl, rfl, rfl, ?_⟩
  · simp [drm_fb_ref, World.load, hfb]
  · simp [World.store]
  · intro q hq
    simp [World.store, Function.update_noteq hq]
  · have h1 : ¬ (fb.refcnt + 1 ≤ 0) := by omega
    have h2 : 0 < fb.refcnt := by omega
    simp only [drm_fb_unref, if_neg hp, World.load, World.store, Function.update_same,
      gt_iff_lt, not_lt, if_neg h1, add_sub_cancel_right, if_pos h2, Function.update_idem]
    have h3 : Function.update w.fbs p (some fb) = w.fbs := by
      rw [← hfb]
      exact Function.update_eq_self p w.fbs
    rw [h3]

/-- Instance of **C4**: taking and dropping a reference on a buffer with count 1. -/
theorem drm_fb_unref_ref_witness :
    ∃ w1 : World,
      drm_fb_ref (sample_empty.store 7 sample_fb_linear) 7 = .ok (7, w1) ∧
      w1.fbs 7 = some { sample_fb_linear with refcnt := 2 } ∧
      drm_fb_unref sample_build w1 7 = .ok (sample_empty.store 7 sample_fb_linear) := by
  obtain ⟨w1, h1, h2, _, _, _, _, h3⟩ :=
    drm_fb_unref_ref sample_build (sample_empty.store 7 sample_fb_linear) 7 sample_fb_linear
      (by decide) (World.store_fbs_same _ _ _) (by decide)
  exact ⟨w1, h1, h2, h3⟩

/-- **C5.** For a live buffer with reference count `n ≥ 1`, each of the first
`n - 1` calls of `drm_fb_unref` only decrements the count (after `j < n` calls
the state is the initial one with count `n - j`). The `n`-th call runs the
teardown of the buffer's origin, once: the teardown returns, makes the release
call of the origin exactly once and invokes no callback. With a destroy
callback registered, the `n`-th call then invokes it, once, with the registered
context, as the last call of the run; with none registered, no callback is
invoked. -/
theorem drm_fb_unref_times_refcnt (cfg : build_config) (w : World) (p : Ptr) (fb : drm_fb)
    (n : Nat) (hlive : w.live cfg p fb) (hn : fb.refcnt = (n : Int)) (h1 : 1 ≤ n) :
    (∀ j, j < n →
      drm_fb_unref_times cfg p j w = .ok (w.store p { fb with refcnt := fb.refcnt - j })) ∧
    ∃ (w2 : World) (tr : List Event),
      drm_fb_unref_switch cfg (w.store p { fb with refcnt := 0 }) p { fb with refcnt := 0 } =
        .ok w2 ∧
      w2.trace = w.trace ++ tr ∧
      (∀ e ∈ tr, e.is_on_destroy = false) ∧
      tr.countP (Event.releases fb) = 1 ∧
      (fb.on_destroy ≠ NULL →
        drm_fb_unref_times cfg p n w =
          .ok (w2.emit (Event.on_destroy fb.on_destroy fb.on_destroy_priv))) ∧
      (fb.on_destroy = NULL → drm_fb_unref_times cfg p n w = .ok w2) := by
  have hp := hlive.1
  have hfb := hlive.2.1
  constructor
  · intro j hj
    exact drm_fb_unref_times_decrement cfg p hp j w fb hfb (by omega)
  · obtain ⟨w2, tr, hsw, htr, hcb, hrel⟩ :=
      drm_fb_unref_switch_live cfg _ p _ (World.live_store_refcnt cfg w p fb 0 hlive)
    obtain ⟨m, rfl⟩ : ∃ m, n = m + 1 := ⟨n - 1, by omega⟩
    have hall := drm_fb_unref_times_all cfg p hp m w fb hfb (by rw [hn]; push_cast; rfl)
    rw [hsw] at hall
    refine ⟨w2, tr, hsw, htr, hcb, hrel, ?_, ?_⟩
    · intro hc
      rw [hall]
      simp [hc]
    · intro hc
      rw [hall]
      simp [hc]

/-- Instance of **C5**: a mapped, registered dumb buffer with two references
and the callback 900 with context 901. The first call only decrements; the
second unmaps, destroys the dumb buffer, removes the framebuffer, frees the
object and then invokes the callback. -/
theorem drm_fb_unref_times_refcnt_witness :
    ((∀ j, j < 2 →
        drm_fb_unref_times sample_build 7 j sample_world_dumb =
          .ok (sample_world_dumb.store 7
            { sample_fb_dumb with refcnt := sample_fb_dumb.refcnt - j })) ∧
      ∃ (w2 : World) (tr : List Event),
        drm_fb_unref_switch sample_build
          (sample_world_dumb.store 7 { sample_fb_dumb with refcnt := 0 }) 7
          { sample_fb_dumb with refcnt := 0 } = .ok w2 ∧
        w2.trace = sample_world_dumb.trace ++ tr ∧
        (∀ e ∈ tr, e.is_on_destroy = false) ∧
        tr.countP (Event.releases sample_fb_dumb) = 1 ∧
        (sample_fb_dumb.on_destroy ≠ NULL →
          drm_fb_unref_times sample_build 7 2 sample_world_dumb =
            .ok (w2.emit (Event.on_destroy sample_fb_dumb.on_destroy
              sample_fb_dumb.on_destroy_priv))) ∧
        (sample_fb_dumb.on_destroy = NULL →
          drm_fb_unref_times sample_build 7 2 sample_world_dumb = .ok w2)) ∧
    ∃ w3 : World,
      drm_fb_unref_times sample_build 7 2 sample_world_dumb = .ok w3 ∧
      w3.trace = [Event.munmap 4096 65536, Event.DRM_IOCTL_MODE_DESTROY_DUMB 3 5,
        Event.drmModeRmFB 3 42, Event.weston_buffer_reference 0 0,
        Event.weston_buffer_release_reference 0 0, Event.free 7,
        Event.on_destroy 900 901] ∧
      w3.b.fb_list = [] ∧ w3.fbs 7 = none :=
  ⟨drm_fb_unref_times_refcnt sample_build sample_world_dumb 7 sample_fb_dumb 2
      ⟨by decide, World.store_fbs_same _ _ _, by decide, trivial⟩ rfl (by decide),
    _, rfl, rfl, rfl, rfl⟩

/-! ## Dumb buffers -/

/-- **C6**, counterexample. On a backend with bounds 64x64 to 4096x4096 a
request for a dumb buffer 8192 wide is not rejected by `drm_fb_create_dumb`:
the kernel is asked to allocate it. When the kernel allocates it and rejects
the registration, `NULL` is returned after a kernel dumb buffer was allocated
and two registration calls were issued; when the kernel grants every call, a
buffer 8192 wide is returned. -/
theorem drm_fb_create_dumb_out_of_bounds_allocates :
    sample_empty.b.max_width < 8192 ∧
    (∃ w1, drm_fb_create_dumb sample_formats sample_dumb_rejected sample_empty 8192 128
        DRM_FORMAT_XRGB8888 = .ok (NULL, w1) ∧
      w1.trace = [Event.DRM_IOCTL_MODE_CREATE_DUMB 3 32 8192 128 0 5 32768 4194304,
        Event.drmModeAddFB2 3 8192 128 DRM_FORMAT_XRGB8888 ⟨5, 0, 0, 0⟩ ⟨32768, 0, 0, 0⟩
          ⟨0, 0, 0, 0⟩ 0 (-22) 0,
        Event.drmModeAddFB 3 8192 128 24 32 32768 5 (-22) 0,
        Event.DRM_IOCTL_MODE_DESTROY_DUMB 3 5, Event.free 7]) ∧
    (∃ w1, drm_fb_create_dumb sample_formats sample_dumb_ok sample_empty 8192 128
        DRM_FORMAT_XRGB8888 = .ok (7, w1) ∧
      (w1.fbs 7).map (fun fb => (fb.width, fb.fb_id)) = some (8192, 42) ∧
      w1.b.fb_list = [7]) := by
  refine ⟨by decide, ⟨_, rfl, rfl⟩, ⟨_, rfl, rfl, rfl⟩⟩

/-- **C6**, as amended. `drm_fb_create_dumb` makes no bounds check; whatever
the width and height, inside the backend's bounds or not: when the format code
does not resolve, or resolves to a format with zero depth or zero bpp, it
returns `NULL` having made no kernel call at all; when the format has depth
and bpp, its first call asks the kernel for a dumb buffer whose width and
height are the `int` arguments as stored in the `__u32` fields of the
create-dumb argument, and if the kernel refuses, it returns `NULL` without any
registration call, while if the kernel grants it, the next call is a
registration call. The stored value is the requested one for a non-negative
`int`, and the requested one plus 2^32 for a negative `int`. -/
theorem drm_fb_create_dumb_no_bounds_check (fmts : pixel_formats) (k : create_dumb_replies)
    (w : World) (width height : Int) (format : Nat) (hz : k.zalloc ≠ NULL) :
    ((fmts.pixel_format_get_info format = none ∨
        ∃ fmt, fmts.pixel_format_get_info format = some fmt ∧ (fmt.depth = 0 ∨ fmt.bpp = 0)) →
      ∃ w1, drm_fb_create_dumb fmts k w width height format = .ok (NULL, w1) ∧
        w1.trace = w.trace ++ [Event.free k.zalloc]) ∧
    (∀ fmt, fmts.pixel_format_get_info format = some fmt → fmt.depth ≠ 0 → fmt.bpp ≠ 0 →
      ∃ (r : Ptr) (w1 : World) (tr : List Event),
        drm_fb_create_dumb fmts k w width height format = .ok (r, w1) ∧
        w1.trace = w.trace ++
          Event.DRM_IOCTL_MODE_CREATE_DUMB w.b.drm_fd fmt.bpp (int_to_u32 width)
            (int_to_u32 height) k.create_ret k.create_handle k.create_pitch
            k.create_size :: tr ∧
        (k.create_ret ≠ 0 → r = NULL ∧ tr = [Event.free k.zalloc]) ∧
        (k.create_ret = 0 → ∃ e tr2, tr = e :: tr2 ∧ e.is_addfb = true)) ∧
    (∀ x : Int, 0 ≤ x → x ≤ 2147483647 → (int_to_u32 x : Int) = x) ∧
    (∀ x : Int, -2147483648 ≤ x → x < 0 → (int_to_u32 x : Int) = x + 4294967296) := by
  refine ⟨?_, ?_, int_to_u32_of_nonneg, int_to_u32_of_neg⟩
  · rintro (hnone | ⟨fmt, hfmt, hzero⟩)
    · simp only [drm_fb_create_dumb, if_neg hz, hnone, drm_fb_create_dumb_err_fb]
      exact ⟨_, rfl, rfl⟩
    · simp only [drm_fb_create_dumb, if_neg hz, hfmt, if_pos hzero, drm_fb_create_dumb_err_fb]
      exact ⟨_, rfl, rfl⟩
  · intro fmt hfmt hd hb
    by_cases hc : k.create_ret = 0
    · obtain ⟨e, tr2, hcalls, he⟩ := drm_fb_addfb_calls_head k.addfb w.b.fb_modifiers
        (drm_fb_create_dumb_fill k w.b.drm_fd width height
          { drm_fb.zalloc with refcnt := 1, format := some fmt }) fmt
      have heq := drm_fb_create_dumb_eq fmts k w width height format fmt _ hz hfmt hd hb hc rfl
      rw [hcalls] at heq
      split_ifs at heq <;>
        exact ⟨_, _, _, heq, rfl, fun h => absurd hc h, fun _ => ⟨e, _, rfl, he⟩⟩
    · have hdb : ¬ (fmt.depth = 0 ∨ fmt.bpp = 0) := by
        rintro (h | h)
        · exact hd h
        · exact hb h
      simp only [drm_fb_create_dumb, if_neg hz, hfmt, if_neg hdb, ne_eq, hc,
        not_false_eq_true, if_true, drm_fb_create_dumb_err_fb]
      exact ⟨NULL, _, [Event.free k.zalloc], rfl, by simp [World.free, World.emit, World.store],
        fun _ => ⟨rfl, rfl⟩, fun h => False.elim h⟩

/-- Instance of **C6** as amended: a request 8192 wide on a backend whose
maximum width is 4096 reaches the kernel's create-dumb call, and so does a
request of width -1, below the minimum width 64, for which the kernel is asked
for a buffer 4294967295 wide; when the kernel refuses that with `-EINVAL`,
`NULL` is returned after this one call. -/
theorem drm_fb_create_dumb_no_bounds_check_witness :
    (∃ (r : Ptr) (w1 : World) (tr : List Event),
      drm_fb_create_dumb sample_formats sample_dumb_rejected sample_empty 8192 128
        DRM_FORMAT_XRGB8888 = .ok (r, w1) ∧
      w1.trace = Event.DRM_IOCTL_MODE_CREATE_DUMB 3 32 8192 128 0 5 32768 4194304 :: tr ∧
      ∃ e tr2, tr = e :: tr2 ∧ e.is_addfb = true) ∧
    (sample_empty.b.out_of_bounds (-1) 128 ∧
      ∃ w1 : World,
        drm_fb_create_dumb sample_formats { sample_dumb_ok with create_ret := -22 }
          sample_empty (-1) 128 DRM_FORMAT_XRGB8888 = .ok (NULL, w1) ∧
        w1.trace =
          [Event.DRM_IOCTL_MODE_CREATE_DUMB 3 32 4294967295 128 (-22) 5 512 65536,
           Event.free 7]) := by
  constructor
  · obtain ⟨r, w1, tr, h, htr, _, hreg⟩ :=
      (drm_fb_create_dumb_no_bounds_check sample_formats sample_dumb_rejected sample_empty
        8192 128 DRM_FORMAT_XRGB8888 (by decide)).2.1 sample_xrgb rfl (by decide) (by decide)
    exact ⟨r, w1, tr, h, htr, hreg rfl⟩
  · obtain ⟨r, w1, tr, h, htr, hfail, _⟩ :=
      (drm_fb_create_dumb_no_bounds_check sample_formats
        { sample_dumb_ok with create_ret := -22 } sample_empty (-1) 128 DRM_FORMAT_XRGB8888
        (by decide)).2.1 sample_xrgb rfl (by decide) (by decide)
    obtain ⟨hr, htr2⟩ := hfail (by decide)
    subst hr htr2
    exact ⟨Or.inl (by decide), w1, h, htr⟩

/-! ## Geometry bounds of the import factories -/

/-- **C7.** For a driver buffer object (not yet wrapped, with at most four
planes) whose width or height lies outside the backend's bounds,
`drm_fb_get_from_bo` returns `NULL`, makes no registration call and leaves the
registry unchanged. For a dmabuf descriptor whose width or height lies outside
the bounds, `drm_fb_get_from_dmabuf` does the same when the descriptor carries
flags, when the allocation fails, and when the run gets as far as the geometry
check (the driver yields an object), and these are its only runs that return.
When the descriptor carries no flags, the object is allocated and the driver
yields no object, or the modifier-aware primitive is required and the build
lacks it, the run of an out-of-bounds descriptor does not return: label
`err_free` unlinks the registry link that was never initialised and
dereferences `NULL`. A width or height equal to a minimum or a maximum passes
the check: with a known format the run goes on to a registration call. -/
theorem drm_fb_get_out_of_bounds (cfg : build_config) (fmts : pixel_formats) (w : World)
    ( is_opaque : Bool) :
    (∀ (k : get_from_bo_replies) (bo : Ptr) (g : gbm_bo) (type : drm_fb_type),
      w.bos bo = some g → g.user_data = NULL → g.plane_count ≤ 4 →
      w.b.out_of_bounds g.width g.height →
      ∃ w1, drm_fb_get_from_bo cfg fmts k w bo is_opaque type = .ok (NULL, w1) ∧
        w1.b.fb_list = w.b.fb_list ∧
        ∃ tr, w1.trace = w.trace ++ tr ∧ ∀ e ∈ tr, e.is_addfb = false) ∧
    (∀ (k : dmabuf_replies) (dmabuf : dmabuf_attributes),
      w.b.out_of_bounds dmabuf.width dmabuf.height →
      (∀ (r : Ptr) (w1 : World),
        drm_fb_get_from_dmabuf cfg fmts k w dmabuf is_opaque = .ok (r, w1) →
        r = NULL ∧ w1.b.fb_list = w.b.fb_list ∧
        ∃ tr, w1.trace = w.trace ++ tr ∧ ∀ e ∈ tr, e.is_addfb = false) ∧
      ((dmabuf.flags ≠ 0 ∨ k.zalloc = NULL ∨
          (k.import_ret ≠ NULL ∧
            ((dmabuf.modifier.get 0 ≠ DRM_FORMAT_MOD_INVALID ∨ dmabuf.n_planes > 1 ∨
              dmabuf.offset.get 0 > 0) → cfg.HAVE_GBM_FD_IMPORT = true))) →
        ∃ w1, drm_fb_get_from_dmabuf cfg fmts k w dmabuf is_opaque = .ok (NULL, w1) ∧
          w1.b.fb_list = w.b.fb_list ∧
          ∃ tr, w1.trace = w.trace ++ tr ∧ ∀ e ∈ tr, e.is_addfb = false) ∧
      (dmabuf.flags = 0 → k.zalloc ≠ NULL →
        (k.import_ret = NULL ∨
          ((dmabuf.modifier.get 0 ≠ DRM_FORMAT_MOD_INVALID ∨ dmabuf.n_planes > 1 ∨
            dmabuf.offset.get 0 > 0) ∧ cfg.HAVE_GBM_FD_IMPORT = false)) →
        drm_fb_get_from_dmabuf cfg fmts k w dmabuf is_opaque = .error Fault.null_deref)) ∧
    (∀ (k : get_from_bo_replies) (bo : Ptr) (g : gbm_bo) (type : drm_fb_type)
        (fmt : pixel_format_info),
      w.bos bo = some g → g.user_data = NULL → g.plane_count ≤ 4 → k.zalloc ≠ NULL →
      fmts.pixel_format_get_info g.format = some fmt →
      (w.b.min_width ≤ g.width ∧ g.width ≤ w.b.max_width ∧
        w.b.min_height ≤ g.height ∧ g.height ≤ w.b.max_height) →
      ∃ (r : Ptr) (w1 : World) (e : Event) (tr : List Event),
        drm_fb_get_from_bo cfg fmts k w bo is_opaque type = .ok (r, w1) ∧
        w1.trace = w.trace ++ e :: tr ∧ e.is_addfb = true) ∧
    (∀ (k : dmabuf_replies) (dmabuf : dmabuf_attributes) (fmt : pixel_format_info)
        (handles : arr4) (num_planes : Int),
      dmabuf.flags = 0 → k.zalloc ≠ NULL → k.import_ret ≠ NULL →
      ((dmabuf.modifier.get 0 ≠ DRM_FORMAT_MOD_INVALID ∨ dmabuf.n_planes > 1 ∨
        dmabuf.offset.get 0 > 0) → cfg.HAVE_GBM_FD_IMPORT = true) →
      fmts.pixel_format_get_info dmabuf.format = some fmt →
      drm_fb_get_from_dmabuf_planes cfg k.import_bo dmabuf.n_planes arr4.zero =
        (.ok (some handles), num_planes) →
      (w.b.min_width ≤ dmabuf.width ∧ dmabuf.width ≤ w.b.max_width ∧
        w.b.min_height ≤ dmabuf.height ∧ dmabuf.height ≤ w.b.max_height) →
      ∃ (r : Ptr) (w1 : World) (e0 e : Event) (tr : List Event),
        drm_fb_get_from_dmabuf cfg fmts k w dmabuf is_opaque = .ok (r, w1) ∧
        w1.trace = w.trace ++ e0 :: e :: tr ∧ e0.is_gbm_import = true ∧
        e.is_addfb = true) := by
  refine ⟨?_, ?_, ?_, ?_⟩
  · intro k bo g type hg hud hpc hout
    obtain ⟨w1, h, hb, _, htr⟩ :=
      drm_fb_get_from_bo_out_of_bounds cfg fmts k w bo g is_opaque type hg hud hpc hout
    exact ⟨w1, h, by rw [hb], htr⟩
  · intro k dmabuf hout
    refine ⟨?_, ?_, ?_⟩
    · intro r w1 h
      by_cases hreach : dmabuf.flags ≠ 0 ∨ k.zalloc = NULL ∨
          (k.import_ret ≠ NULL ∧
            ((dmabuf.modifier.get 0 ≠ DRM_FORMAT_MOD_INVALID ∨ dmabuf.n_planes > 1 ∨
              dmabuf.offset.get 0 > 0) → cfg.HAVE_GBM_FD_IMPORT = true))
      · obtain ⟨w2, h2, hb, htr⟩ := drm_fb_get_from_dmabuf_out_of_bounds_reached cfg fmts k w
          dmabuf is_opaque hout hreach
        rw [h2] at h
        injection h with h
        injection h with hr hw
        subst hr hw
        exact ⟨rfl, by rw [hb], htr⟩
      · exfalso
        have hflags : dmabuf.flags = 0 := by
          by_contra hne
          exact hreach (Or.inl hne)
        have hz : k.zalloc ≠ NULL := fun hzz => hreach (Or.inr (Or.inl hzz))
        have hfail : k.import_ret = NULL ∨
            ((dmabuf.modifier.get 0 ≠ DRM_FORMAT_MOD_INVALID ∨ dmabuf.n_planes > 1 ∨
              dmabuf.offset.get 0 > 0) ∧ cfg.HAVE_GBM_FD_IMPORT = false) := by
          by_contra hcon
          push_neg at hcon
          apply hreach
          refine Or.inr (Or.inr ⟨hcon.1, fun hn => ?_⟩)
          have := hcon.2 hn
          simpa using this
        rw [drm_fb_get_from_dmabuf_import_failed cfg fmts k w dmabuf is_opaque hflags hz
          hfail] at h
        exact absurd h (by simp)
    · intro hreach
      obtain ⟨w2, h2, hb, htr⟩ := drm_fb_get_from_dmabuf_out_of_bounds_reached cfg fmts k w
        dmabuf is_opaque hout hreach
      exact ⟨w2, h2, by rw [hb], htr⟩
    · intro hflags hz hfail
      exact drm_fb_get_from_dmabuf_import_failed cfg fmts k w dmabuf is_opaque hflags hz hfail
  · intro k bo g type fmt hg hud hpc hz hfmt hin
    exact drm_fb_get_from_bo_registration_reached cfg fmts k w bo g is_opaque type fmt hg hud
      hpc hz hfmt hin
  · intro k dmabuf fmt handles num_planes hflags hz hret hhave hfmt hplanes hin
    exact drm_fb_get_from_dmabuf_registration_reached cfg fmts k w dmabuf is_opaque fmt handles
      num_planes hflags hz hret hhave hfmt hplanes hin

/-- Instance of **C7** on a backend with bounds 64x64 to 4096x4096: a driver
object and a descriptor 8192 wide are refused without a registration call, and
a driver object of exactly 4096x64 is registered. When the driver yields no
object for the descriptor 8192 wide, the run does not return `NULL`: it
dereferences `NULL`. -/
theorem drm_fb_get_out_of_bounds_witness :
    (∃ w1, drm_fb_get_from_bo sample_build sample_formats sample_bo_replies sample_world_bos
        200 false drm_fb_type.BUFFER_CLIENT = .ok (NULL, w1) ∧
      w1.b.fb_list = [] ∧
      ∃ tr, w1.trace = [] ++ tr ∧ ∀ e ∈ tr, e.is_addfb = false) ∧
    (∃ w1, drm_fb_get_from_dmabuf sample_build sample_formats sample_dmabuf_replies
        sample_world_bos sample_dmabuf_wide false = .ok (NULL, w1) ∧
      w1.b.fb_list = [] ∧
      ∃ tr, w1.trace = [] ++ tr ∧ ∀ e ∈ tr, e.is_addfb = false) ∧
    (sample_world_bos.b.out_of_bounds sample_dmabuf_wide.width sample_dmabuf_wide.height ∧
      drm_fb_get_from_dmabuf sample_build sample_formats
        { sample_dmabuf_replies with import_ret := NULL } sample_world_bos sample_dmabuf_wide
        false = .error Fault.null_deref) ∧
    (∃ (r : Ptr) (w1 : World) (e : Event) (tr : List Event),
      drm_fb_get_from_bo sample_build sample_formats sample_bo_replies sample_world_bos
        201 false drm_fb_type.BUFFER_CLIENT = .ok (r, w1) ∧
      w1.trace = [] ++ e :: tr ∧ e.is_addfb = true) :=
  ⟨(drm_fb_get_out_of_bounds sample_build sample_formats sample_world_bos false).1
      sample_bo_replies 200 sample_bo_wide drm_fb_type.BUFFER_CLIENT rfl rfl (by decide)
      (Or.inr (Or.inl (by decide))),
    ((drm_fb_get_out_of_bounds sample_build sample_formats sample_world_bos false).2.1
      sample_dmabuf_replies sample_dmabuf_wide (Or.inr (Or.inl (by decide)))).2.1
      (Or.inr (Or.inr ⟨by decide, fun _ => rfl⟩)),
    ⟨Or.inr (Or.inl (by decide)),
      ((drm_fb_get_out_of_bounds sample_build sample_formats sample_world_bos false).2.1
        { sample_dmabuf_replies with import_ret := NULL } sample_dmabuf_wide
        (Or.inr (Or.inl (by decide)))).2.2 rfl (by decide) (Or.inl rfl)⟩,
    (drm_fb_get_out_of_bounds sample_build sample_formats sample_world_bos false).2.2.1
      sample_bo_replies 201 sample_bo_edge drm_fb_type.BUFFER_CLIENT sample_xrgb rfl rfl
      (by decide) (by decide) rfl (by decide)⟩

/-! ## Creation of dumb buffers -/

/-- **C8.** Whatever the width and height, for a format code that resolves to
a format with non-zero depth and bpp: if the object is allocated, the kernel's
create-dumb call succeeds, the registration succeeds with a non-zero id (the
generic call, or the legacy call after a failed generic call), the map-dumb
call succeeds and `mmap` returns a valid address (neither `MAP_FAILED` nor
`NULL`), then `drm_fb_create_dumb` returns the new object: reference count 1,
origin dumb, one plane whose handle and stride are the kernel's handle and
pitch, modifier `DRM_FORMAT_MOD_INVALID`, the requested width and height, the
kernel's byte size, the mapping `mmap` returned, the registration id the
kernel gave, and a place at the head of the backend's registry. -/
theorem drm_fb_create_dumb_success (fmts : pixel_formats) (k : create_dumb_replies)
    (w : World) (width height : Int) (format : Nat) (fmt : pixel_format_info)
    (hz : k.zalloc ≠ NULL) (hfmt : fmts.pixel_format_get_info format = some fmt)
    (hd : fmt.depth ≠ 0) (hb : fmt.bpp ≠ 0) (hc : k.create_ret = 0)
    (hreg : (k.addfb.addfb2.ret = 0 ∧ k.addfb.addfb2.buf_id ≠ 0) ∨
      (k.addfb.addfb2.ret ≠ 0 ∧ k.addfb.addfb.ret = 0 ∧ k.addfb.addfb.buf_id ≠ 0))
    (hmap : k.map_ret = 0) (hmm : k.mmap_ret ≠ MAP_FAILED) (hnn : k.mmap_ret ≠ NULL) :
    ∃ (w1 : World) (fb : drm_fb),
      drm_fb_create_dumb fmts k w width height format = .ok (k.zalloc, w1) ∧
      w1.fbs k.zalloc = some fb ∧
      fb.refcnt = 1 ∧ fb.type = drm_fb_type.BUFFER_PIXMAN_DUMB ∧
      fb.num_planes = 1 ∧ fb.handles = ⟨k.create_handle, 0, 0, 0⟩ ∧
      fb.strides = ⟨k.create_pitch, 0, 0, 0⟩ ∧ fb.offsets = ⟨0, 0, 0, 0⟩ ∧
      fb.modifier = DRM_FORMAT_MOD_INVALID ∧ fb.format = some fmt ∧
      fb.width = width ∧ fb.height = height ∧ fb.size = k.create_size ∧
      fb.map = k.mmap_ret ∧ fb.map ≠ NULL ∧
      fb.fb_id ≠ 0 ∧
      fb.fb_id = (if k.addfb.addfb2.ret = 0 then k.addfb.addfb2.buf_id
        else k.addfb.addfb.buf_id) ∧
      fb.backend_link = wl_link.linked ∧
      w1.b.fb_list = k.zalloc :: w.b.fb_list ∧ k.zalloc ∈ w1.b.fb_list := by
  have hmap2 : ¬ (k.map_ret ≠ 0) := by simp [hmap]
  have hcalls := drm_fb_create_dumb_calls k w.b.fb_modifiers w.b.drm_fd width height fmt
    { drm_fb.zalloc with refcnt := 1, format := some fmt } rfl hd hb
  have heq := drm_fb_create_dumb_eq fmts k w width height format fmt _ hz hfmt hd hb hc rfl
  rcases hreg with ⟨h2, hid⟩ | ⟨h2, h1, hid⟩
  · rw [hcalls, if_pos h2] at heq
    simp only [ne_eq, not_true_eq_false, if_false, if_neg hmap2, if_neg hmm] at heq
    refine ⟨_, _, heq, Function.update_same _ _ _, ?_⟩
    simp [drm_fb_create_dumb_fill, arr4.set, arr4.zero, drm_fb.zalloc, h2, hid, hnn]
  · rw [hcalls, if_neg h2] at heq
    simp only [h1, ne_eq, not_true_eq_false, if_false, if_neg hmap2, if_neg hmm] at heq
    refine ⟨_, _, heq, Function.update_same _ _ _, ?_⟩
    simp [drm_fb_create_dumb_fill, arr4.set, arr4.zero, drm_fb.zalloc, h2, h1, hid, hnn,
      addfb_reply.store]

/-- Instance of **C8**: a 128x128 XRGB8888 dumb buffer on a backend with bounds
64x64 to 4096x4096. -/
theorem drm_fb_create_dumb_success_witness :
    ∃ (w1 : World) (fb : drm_fb),
      drm_fb_create_dumb sample_formats sample_dumb_ok sample_empty 128 128
        DRM_FORMAT_XRGB8888 = .ok (7, w1) ∧
      w1.fbs 7 = some fb ∧ fb.refcnt = 1 ∧ fb.size = 65536 ∧ fb.map = 4096 ∧
      fb.fb_id = 42 ∧ w1.b.fb_list = [7] := by
  obtain ⟨w1, fb, h, hfb, hr, _, _, _, _, _, _, _, _, _, hs, hm, _, _, hid, _, hl, _⟩ :=
    drm_fb_create_dumb_success sample_formats sample_dumb_ok sample_empty 128 128
      DRM_FORMAT_XRGB8888 sample_xrgb (by decide) rfl (by decide) (by decide) rfl
      (Or.inl ⟨rfl, by decide⟩) rfl (by decide) (by decide)
  exact ⟨w1, fb, h, hfb, hr, hs, hm, hid, hl⟩

/-- **C9.** Every run of `drm_fb_create_dumb` that fails after the kernel
allocated the dumb buffer (the registration fails, or the map-dumb call fails,
or `mmap` fails) returns `NULL`, makes exactly one destroy-dumb call, for the
allocated handle, and makes a remove-framebuffer call if and only if the
registration had succeeded, then exactly one, for the registered id. Hence,
for replies a kernel can give (a fresh handle, a fresh id), the kernel's dumb
handles and registered framebuffer ids after the run are those before it. -/
theorem drm_fb_create_dumb_unwinds (fmts : pixel_formats) (k : create_dumb_replies)
    (w : World) (width height : Int) (format : Nat) (fmt : pixel_format_info)
    (hz : k.zalloc ≠ NULL) (hfmt : fmts.pixel_format_get_info format = some fmt)
    (hd : fmt.depth ≠ 0) (hb : fmt.bpp ≠ 0) (hc : k.create_ret = 0)
    (hfail : ¬ (k.addfb.addfb2.ret = 0 ∨ k.addfb.addfb.ret = 0) ∨ k.map_ret ≠ 0 ∨
      k.mmap_ret = MAP_FAILED) :
    ∃ (w1 : World) (tr : List Event),
      drm_fb_create_dumb fmts k w width height format = .ok (NULL, w1) ∧
      w1.trace = w.trace ++ tr ∧
      tr.filter Event.is_destroy_dumb =
        [Event.DRM_IOCTL_MODE_DESTROY_DUMB w.b.drm_fd k.create_handle] ∧
      ((k.addfb.addfb2.ret = 0 ∨ k.addfb.addfb.ret = 0) →
        tr.filter Event.is_rmfb = [Event.drmModeRmFB w.b.drm_fd
          (if k.addfb.addfb2.ret = 0 then k.addfb.addfb2.buf_id else k.addfb.addfb.buf_id)]) ∧
      (¬ (k.addfb.addfb2.ret = 0 ∨ k.addfb.addfb.ret = 0) → tr.filter Event.is_rmfb = []) ∧
      (∀ s : kms_state, kms_admits s tr = true → kms_run s tr = s) := by
  have hcalls := drm_fb_create_dumb_calls k w.b.fb_modifiers w.b.drm_fd width height fmt
    { drm_fb.zalloc with refcnt := 1, format := some fmt } rfl hd hb
  have heq := drm_fb_create_dumb_eq fmts k w width height format fmt _ hz hfmt hd hb hc rfl
  rw [hcalls] at heq
  clear hcalls
  by_cases h2 : k.addfb.addfb2.ret = 0 <;> by_cases h1 : k.addfb.addfb.ret = 0 <;>
    by_cases hm : k.map_ret = 0 <;> by_cases hmm : k.mmap_ret = MAP_FAILED <;>
    simp only [h2, h1, hm, hmm, ne_eq, not_true_eq_false, not_false_eq_true, if_true,
      if_false, or_true, true_or, or_self, or_false, false_or, addfb_reply.store] at heq hfail
      ⊢ <;>
    ( refine ⟨_, _, heq, rfl, ?_, ?_, ?_, ?_⟩
      · simp [Event.is_destroy_dumb]
      · simp [Event.is_rmfb]
      · simp [Event.is_rmfb]
      · intro s hs
        simp [kms_admits, kms_can_reply, kms_step, hc, h2, h1] at hs
        simp [kms_run, kms_step, hc, h2, h1, hs, Finset.erase_insert] )

/-- Instance of **C9**: the kernel allocates handle 5 and registers id 42, then
the map-dumb call fails. The run removes framebuffer 42, destroys handle 5 and
returns `NULL`; a kernel that held no object before holds none afterwards. -/
theorem drm_fb_create_dumb_unwinds_witness :
    (∃ (w1 : World) (tr : List Event),
      drm_fb_create_dumb sample_formats sample_dumb_map_fails sample_empty 128 128
        DRM_FORMAT_XRGB8888 = .ok (NULL, w1) ∧
      w1.trace = sample_empty.trace ++ tr ∧
      tr.filter Event.is_destroy_dumb = [Event.DRM_IOCTL_MODE_DESTROY_DUMB 3 5] ∧
      tr.filter Event.is_rmfb = [Event.drmModeRmFB 3 42] ∧
      (∀ s : kms_state, kms_admits s tr = true → kms_run s tr = s)) ∧
    (∃ w1 : World,
      drm_fb_create_dumb sample_formats sample_dumb_map_fails sample_empty 128 128
        DRM_FORMAT_XRGB8888 = .ok (NULL, w1) ∧
      w1.trace = [Event.DRM_IOCTL_MODE_CREATE_DUMB 3 32 128 128 0 5 512 65536,
        Event.drmModeAddFB2 3 128 128 DRM_FORMAT_XRGB8888 ⟨5, 0, 0, 0⟩ ⟨512, 0, 0, 0⟩
          ⟨0, 0, 0, 0⟩ 0 0 42,
        Event.DRM_IOCTL_MODE_MAP_DUMB 3 5 (-22) 8192, Event.drmModeRmFB 3 42,
        Event.DRM_IOCTL_MODE_DESTROY_DUMB 3 5, Event.free 7] ∧
      kms_admits ⟨∅, ∅⟩ w1.trace = true ∧ kms_run ⟨∅, ∅⟩ w1.trace = ⟨∅, ∅⟩) := by
  constructor
  · obtain ⟨w1, tr, h, htr, hdd, hrm, _, hk⟩ :=
      drm_fb_create_dumb_unwinds sample_formats sample_dumb_map_fails sample_empty 128 128
        DRM_FORMAT_XRGB8888 sample_xrgb (by decide) rfl (by decide) (by decide) rfl
        (Or.inr (Or.inl (by decide)))
    exact ⟨w1, tr, h, htr, hdd, hrm (Or.inl rfl), hk⟩
  · refine ⟨_, rfl, rfl, ?_, ?_⟩
    · decide
    · decide

/-! ## Dmabuf flags -/

/-- **C10.** For a dmabuf descriptor whose `flags` field is non-zero,
`drm_fb_get_from_dmabuf` returns `NULL` and the state is the one before the
call, whatever the other attributes, the build, the formats and the replies
are: the trace is unchanged (no driver import, no kernel registration, no
other call), and so are the registry, the objects and the driver objects. -/
theorem drm_fb_get_from_dmabuf_flags (cfg : build_config) (fmts : pixel_formats)
    (k : dmabuf_replies) (w : World) (dmabuf : dmabuf_attributes) ( is_opaque : Bool)
    (hflags : dmabuf.flags ≠ 0) :
    drm_fb_get_from_dmabuf cfg fmts k w dmabuf is_opaque = .ok (NULL, w) ∧
    ∀ (r : Ptr) (w1 : World),
      drm_fb_get_from_dmabuf cfg fmts k w dmabuf is_opaque = .ok (r, w1) →
      r = NULL ∧ w1.trace = w.trace ∧ w1.b.fb_list = w.b.fb_list ∧
      (w1.trace.filter Event.is_gbm_import = w.trace.filter Event.is_gbm_import) ∧
      (w1.trace.filter Event.is_addfb = w.trace.filter Event.is_addfb) := by
  have h : drm_fb_get_from_dmabuf cfg fmts k w dmabuf is_opaque = .ok (NULL, w) := by
    unfold drm_fb_get_from_dmabuf
    rw [if_pos hflags]
  refine ⟨h, ?_⟩
  intro r w1 h1
  rw [h] at h1
  injection h1 with h1
  injection h1 with hr hw
  subst hr hw
  exact ⟨rfl, rfl, rfl, rfl, rfl⟩

/-- Instance of **C10**: a descriptor that would otherwise be imported and
registered, with the flag bit 0 set. -/
theorem drm_fb_get_from_dmabuf_flags_witness :
    drm_fb_get_from_dmabuf sample_build sample_formats sample_dmabuf_replies sample_empty
      { sample_dmabuf_mixed with flags := 1 } false = .ok (NULL, sample_empty) :=
  (drm_fb_get_from_dmabuf_flags sample_build sample_formats sample_dmabuf_replies sample_empty
    { sample_dmabuf_mixed with flags := 1 } false (by decide)).1

/-! ## Dmabuf import: the ways a run can end -/

/-- The plane loop of `drm_fb_get_from_dmabuf` never leaves the arrays: libgbm
reports an error for a plane index of 4 or more. -/
theorem drm_fb_get_from_dmabuf_handles_ok (g : gbm_bo) :
    ∀ (n i : Nat) (h : arr4), ∃ o, drm_fb_get_from_dmabuf_handles g n i h = .ok o := by
  intro n
  induction n with
  | zero => intro i h; exact ⟨some h, rfl⟩
  | succ n ih =>
    intro i h
    by_cases herr : gbm_bo_get_handle_for_plane g i = GBM_HANDLE_ERROR
    · exact ⟨none, by simp only [drm_fb_get_from_dmabuf_handles, if_pos herr]⟩
    · have hi : ¬ (4 ≤ i) := by
        intro h4
        apply herr
        have : ¬ (((i : Int) < g.plane_count) ∧ i < 4) := by omega
        simp only [gbm_bo_get_handle_for_plane, if_neg this]
      simp only [drm_fb_get_from_dmabuf_handles, if_neg herr, if_neg hi]
      exact ih _ _

/-- The plane handles `drm_fb_get_from_dmabuf` reads are either all there or
the query failed; the step never faults. -/
theorem drm_fb_get_from_dmabuf_planes_ok (cfg : build_config) (g : gbm_bo) (n_planes : Int)
    (h : arr4) :
    ∃ o np, drm_fb_get_from_dmabuf_planes cfg g n_planes h = (.ok o, np) := by
  unfold drm_fb_get_from_dmabuf_planes
  by_cases hm : cfg.HAVE_GBM_MODIFIERS = true
  · obtain ⟨o, ho⟩ := drm_fb_get_from_dmabuf_handles_ok g n_planes.toNat 0 h
    exact ⟨o, n_planes, by simp only [if_pos hm, ho]⟩
  · by_cases herr : gbm_bo_get_handle g = GBM_HANDLE_ERROR
    · exact ⟨none, 1, by simp only [if_neg hm, if_pos herr]⟩
    · exact ⟨some (h.set 0 (gbm_bo_get_handle g)), 1, by simp only [if_neg hm, if_neg herr]⟩

/-- A run of `drm_fb_addfb` that returns non-zero registered nothing: the
object is as before and no call it made registered a framebuffer. -/
theorem drm_fb_addfb_calls_failed (k : addfb_replies) (m : Bool) (fb : drm_fb)
    (fmt : pixel_format_info) (h : (drm_fb_addfb_calls k m fb fmt).1 ≠ 0) :
    (drm_fb_addfb_calls k m fb fmt).2.1 = fb ∧
    ∀ e ∈ (drm_fb_addfb_calls k m fb fmt).2.2, e.registers = none := by
  unfold drm_fb_addfb_calls at h ⊢
  split_ifs at h ⊢ with h1 h2 h3 h4 <;>
    simp_all [addfb_reply.store, Event.registers]

/-- A run of `drm_fb_addfb` that returns 0 registered the object under the id
now stored in `fb_id`. -/
theorem drm_fb_addfb_calls_registers (k : addfb_replies) (m : Bool) (fb : drm_fb)
    (fmt : pixel_format_info) (h : (drm_fb_addfb_calls k m fb fmt).1 = 0) :
    ∃ e ∈ (drm_fb_addfb_calls k m fb fmt).2.2,
      e.registers = some (drm_fb_addfb_calls k m fb fmt).2.1.fb_id := by
  unfold drm_fb_addfb_calls at h ⊢
  split_ifs at h ⊢ with h1 h2 h3 h4 <;>
    simp_all [addfb_reply.store, Event.registers]

/-- A call that is neither a dumb-buffer call, nor a removal, nor a successful
registration leaves the kernel's objects as they are. -/
theorem kms_step_of_registers_none (s : kms_state) (e : Event) (hr : e.registers = none)
    (h1 : e.is_rmfb = false) (h2 : e.is_create_dumb = false)
    (h3 : e.is_destroy_dumb = false) : kms_step s e = s := by
  cases e <;>
    simp_all [Event.registers, Event.is_rmfb, Event.is_create_dumb, Event.is_destroy_dumb,
      kms_step]

/-- A sequence of calls that each leave the kernel's objects as they are
leaves them as they are. -/
theorem kms_run_of_steps (tr : List Event) (h : ∀ e ∈ tr, ∀ s, kms_step s e = s) :
    ∀ s, kms_run s tr = s := by
  induction tr with
  | nil => intro s; rfl
  | cons e rest ih =>
    intro s
    simp only [kms_run, List.foldl_cons]
    rw [h e (List.mem_cons_self _ _) s]
    exact ih (fun x hx => h x (List.mem_cons_of_mem _ hx)) s

/-- Closed form of the end of `drm_fb_get_from_dmabuf` on a freshly imported,
unregistered object: when the registration fails the driver object is
destroyed and the object freed; when it succeeds the object joins the registry. -/
theorem drm_fb_get_from_dmabuf_register_eq (k : dmabuf_replies) (w : World) (p : Ptr)
    (fb : drm_fb) (fmt : pixel_format_info) (g : gbm_bo)
    (hfmt : fb.format = some fmt) (hl : fb.backend_link = wl_link.self) (hbo : fb.bo ≠ NULL)
    (hg : w.bos fb.bo = some g) (hh : g.destroy_user_data = false) (hid : fb.fb_id = 0) :
    drm_fb_get_from_dmabuf_register k (w.store p fb) p =
      if (drm_fb_addfb_calls k.addfb w.b.fb_modifiers fb fmt).1 ≠ 0 then
        .ok (NULL,
          { b := w.b,
            fbs := Function.update w.fbs p none,
            bos := Function.update w.bos fb.bo none,
            trace := w.trace ++ ((drm_fb_addfb_calls k.addfb w.b.fb_modifiers fb fmt).2.2 ++
              [Event.gbm_bo_destroy fb.bo,
               Event.weston_buffer_reference fb.buffer_ref NULL,
               Event.weston_buffer_release_reference fb.buffer_release_ref NULL,
               Event.free p]) })
      else
        .ok (p,
          { b := { w.b with fb_list := p :: w.b.fb_list },
            fbs := Function.update w.fbs p
              (some { (drm_fb_addfb_calls k.addfb w.b.fb_modifiers fb fmt).2.1 with
                backend_link := wl_link.linked }),
            bos := w.bos,
            trace := w.trace ++ (drm_fb_addfb_calls k.addfb w.b.fb_modifiers fb fmt).2.2 }) := by
  obtain ⟨hlink, hbo2, _, _, _⟩ := drm_fb_addfb_calls_fields k.addfb w.b.fb_modifiers fb fmt
  unfold drm_fb_get_from_dmabuf_register
  rw [drm_fb_addfb_eq k.addfb (w.store p fb) p fb fmt (World.store_fbs_same _ _ _) hfmt]
  by_cases hr : (drm_fb_addfb_calls k.addfb w.b.fb_modifiers fb fmt).1 = 0
  · have hr2 : ¬ ((drm_fb_addfb_calls k.addfb w.b.fb_modifiers fb fmt).1 ≠ 0) := by simp [hr]
    simp only [World.store, if_neg hr2]
    rw [drm_fb_remember_eq _ p (drm_fb_addfb_calls k.addfb w.b.fb_modifiers fb fmt).2.1
      (by simp) (by rw [hlink, hl]; decide)]
    simp [hlink, hl]
  · have hr2 : (drm_fb_addfb_calls k.addfb w.b.fb_modifiers fb fmt).1 ≠ 0 := hr
    obtain ⟨hsame, _⟩ := drm_fb_addfb_calls_failed k.addfb w.b.fb_modifiers fb fmt hr2
    simp only [World.store, if_pos hr2]
    rw [drm_fb_get_from_dmabuf_err_free_eq _ p
      (drm_fb_addfb_calls k.addfb w.b.fb_modifiers fb fmt).2.1 g (by simp)
      (by rw [hlink, hl]; decide) (by rw [hbo2]; exact hbo) (by rw [hbo2]; exact hg) hh]
    simp [hsame, hl, hid]

/-- Closed form of label `err_free` of `drm_fb_get_from_dmabuf` on a freshly
imported, unregistered object. -/
theorem drm_fb_get_from_dmabuf_err_free_fresh (w : World) (p : Ptr) (fb : drm_fb) (g : gbm_bo)
    (hl : fb.backend_link = wl_link.self) (hbo : fb.bo ≠ NULL)
    (hg : w.bos fb.bo = some g) (hh : g.destroy_user_data = false) (hid : fb.fb_id = 0) :
    drm_fb_get_from_dmabuf_err_free (w.store p fb) p = .ok (NULL,
      { b := w.b,
        fbs := Function.update w.fbs p none,
        bos := Function.update w.bos fb.bo none,
        trace := w.trace ++ ([] ++
          [Event.gbm_bo_destroy fb.bo,
           Event.weston_buffer_reference fb.buffer_ref NULL,
           Event.weston_buffer_release_reference fb.buffer_release_ref NULL,
           Event.free p]) }) := by
  rw [drm_fb_get_from_dmabuf_err_free_eq _ p fb g (World.store_fbs_same _ _ _)
    (by rw [hl]; decide) hbo hg hh]
  simp [World.store, hl, hid]

/-- The two ways the part of `drm_fb_get_from_dmabuf` that follows a successful
driver import can end. It always returns. Either it returns `NULL`: then every
registration call it made failed, the driver object was destroyed, the object
freed, and the backend is as before. Or it returns the object: then the format
was known, the geometry within bounds, the plane handles were handed out, a
registration call registered the object under its `fb_id`, and the object is at
the head of the registry with the format the caller asked for. -/
theorem drm_fb_get_from_dmabuf_imported_ends (cfg : build_config) (fmts : pixel_formats)
    (k : dmabuf_replies) (w : World) (dmabuf : dmabuf_attributes) ( is_opaque : Bool)
    (p : Ptr) (fb0 : drm_fb) (g : gbm_bo)
    (hbo : fb0.bo ≠ NULL) (hg : w.bos fb0.bo = some g) (hh : g.destroy_user_data = false)
    (hid : fb0.fb_id = 0) :
    ∃ (r : Ptr) (w1 : World) (calls : List Event),
      drm_fb_get_from_dmabuf_imported cfg fmts k w dmabuf is_opaque p fb0 = .ok (r, w1) ∧
      (∀ e ∈ calls, e.is_addfb = true) ∧
      ((r = NULL ∧ w1.b = w.b ∧ w1.fbs = Function.update w.fbs p none ∧
          w1.bos = Function.update w.bos fb0.bo none ∧
          w1.trace = w.trace ++ (calls ++
            [Event.gbm_bo_destroy fb0.bo,
             Event.weston_buffer_reference fb0.buffer_ref NULL,
             Event.weston_buffer_release_reference fb0.buffer_release_ref NULL,
             Event.free p]) ∧
          (∀ e ∈ calls, e.registers = none)) ∨
       (r = p ∧ w1.b = { w.b with fb_list := p :: w.b.fb_list } ∧ w1.bos = w.bos ∧
          w1.trace = w.trace ++ calls ∧
          ∃ (fb : drm_fb) (fmt : pixel_format_info) (handles : arr4) (np : Int),
            fmts.pixel_format_get_info dmabuf.format = some fmt ∧
            ¬ w.b.out_of_bounds dmabuf.width dmabuf.height ∧
            drm_fb_get_from_dmabuf_planes cfg k.import_bo dmabuf.n_planes fb0.handles =
              (.ok (some handles), np) ∧
            w1.fbs = Function.update w.fbs p (some fb) ∧
            fb.format = some (if is_opaque = true then
              fmts.pixel_format_get_opaque_substitute fmt else fmt) ∧
            fb.backend_link = wl_link.linked ∧
            (∃ e ∈ calls, e.registers = some fb.fb_id))) := by
  have hbo1 : ¬ (fb0.bo = NULL) := hbo
  unfold drm_fb_get_from_dmabuf_imported
  rw [if_neg hbo1]
  simp only
  cases hfmt : fmts.pixel_format_get_info dmabuf.format with
  | none =>
    simp only
    rw [drm_fb_get_from_dmabuf_err_free_fresh w p _ g (by rfl) (by simpa using hbo)
      (by simpa using hg) hh (by simpa using hid)]
    exact ⟨NULL, _, [], rfl, by simp, Or.inl ⟨rfl, rfl, rfl, rfl, rfl, by simp⟩⟩
  | some fmt =>
    by_cases hcheck : w.b.min_width > dmabuf.width ∨ dmabuf.width > w.b.max_width ∨
        w.b.min_height > dmabuf.height ∨ dmabuf.height > w.b.max_height
    · cases is_opaque <;> simp only [Bool.false_eq_true, if_false, if_true, if_pos hcheck] <;>
      ( rw [drm_fb_get_from_dmabuf_err_free_fresh w p _ g (by rfl) (by simpa using hbo)
          (by simpa using hg) hh (by simpa using hid)]
        exact ⟨NULL, _, [], rfl, by simp, Or.inl ⟨rfl, rfl, rfl, rfl, rfl, by simp⟩⟩ )
    · have hin : ¬ w.b.out_of_bounds dmabuf.width dmabuf.height := by
        intro ho
        apply hcheck
        unfold drm_backend.out_of_bounds at ho
        omega
      obtain ⟨o, np, hpl⟩ := drm_fb_get_from_dmabuf_planes_ok cfg k.import_bo dmabuf.n_planes
        fb0.handles
      cases o with
      | none =>
        cases is_opaque <;>
          simp only [Bool.false_eq_true, if_false, if_true, if_neg hcheck, hpl] <;>
        ( rw [drm_fb_get_from_dmabuf_err_free_fresh w p _ g (by rfl) (by simpa using hbo)
            (by simpa using hg) hh (by simpa using hid)]
          exact ⟨NULL, _, [], rfl, by simp, Or.inl ⟨rfl, rfl, rfl, rfl, rfl, by simp⟩⟩ )
      | some handles =>
        have key : ∀ (fb3 : drm_fb) (fmt3 : pixel_format_info), fb3.format = some fmt3 →
            fb3.backend_link = wl_link.self → fb3.bo = fb0.bo → fb3.fb_id = 0 →
            fb3.buffer_ref = fb0.buffer_ref → fb3.buffer_release_ref = fb0.buffer_release_ref →
            ∀ (Q : Ptr → World → List Event → Prop),
            (∀ (r : Ptr) (w1 : World) (calls : List Event),
              (∀ e ∈ calls, e.is_addfb = true) →
              ((r = NULL ∧ w1.b = w.b ∧ w1.fbs = Function.update w.fbs p none ∧
                  w1.bos = Function.update w.bos fb0.bo none ∧
                  w1.trace = w.trace ++ (calls ++
                    [Event.gbm_bo_destroy fb0.bo,
                     Event.weston_buffer_reference fb0.buffer_ref NULL,
                     Event.weston_buffer_release_reference fb0.buffer_release_ref NULL,
                     Event.free p]) ∧
                  (∀ e ∈ calls, e.registers = none)) ∨
               (r = p ∧ w1.b = { w.b with fb_list := p :: w.b.fb_list } ∧ w1.bos = w.bos ∧
                  w1.trace = w.trace ++ calls ∧
                  ∃ (fb : drm_fb),
                    w1.fbs = Function.update w.fbs p (some fb) ∧
                    fb.format = some fmt3 ∧
                    fb.backend_link = wl_link.linked ∧
                    (∃ e ∈ calls, e.registers = some fb.fb_id))) → Q r w1 calls) →
            ∃ (r : Ptr) (w1 : World) (calls : List Event),
              drm_fb_get_from_dmabuf_register k (w.store p fb3) p = .ok (r, w1) ∧
              Q r w1 calls := by
          intro fb3 fmt3 hf3 hl3 hb3 hi3 hr3 hrr3 Q hQ
          rw [drm_fb_get_from_dmabuf_register_eq k w p fb3 fmt3 g hf3 hl3 (by rw [hb3]; exact hbo)
            (by rw [hb3]; exact hg) hh hi3]
          by_cases hr : (drm_fb_addfb_calls k.addfb w.b.fb_modifiers fb3 fmt3).1 = 0
          · have hr2 : ¬ ((drm_fb_addfb_calls k.addfb w.b.fb_modifiers fb3 fmt3).1 ≠ 0) := by
              simp [hr]
            rw [if_neg hr2]
            refine ⟨p, _, _, rfl, hQ _ _ _ (drm_fb_addfb_calls_is_addfb _ _ _ _) (Or.inr
              ⟨rfl, rfl, rfl, rfl, _, rfl, ?_, rfl, ?_⟩)⟩
            · rw [drm_fb_addfb_calls_fb]
              exact hf3
            · exact drm_fb_addfb_calls_registers _ _ _ _ hr
          · have hr2 : (drm_fb_addfb_calls k.addfb w.b.fb_modifiers fb3 fmt3).1 ≠ 0 := hr
            rw [if_pos hr2, hb3, hr3, hrr3]
            exact ⟨NULL, _, _, rfl, hQ _ _ _ (drm_fb_addfb_calls_is_addfb _ _ _ _) (Or.inl
              ⟨rfl, rfl, rfl, rfl, rfl,
                (drm_fb_addfb_calls_failed _ _ _ _ hr2).2⟩)⟩
        cases is_opaque <;>
          simp only [Bool.false_eq_true, if_false, if_true, if_neg hcheck, hpl]
        · refine key _ fmt ?_ ?_ ?_ ?_ ?_ ?_ _ ?_
          · rfl
          · rfl
          · rfl
          · exact hid
          · rfl
          · rfl
          · intro r w1 calls h2 h3
            refine ⟨h2, ?_⟩
            rcases h3 with h3 | ⟨ha, hb, hc, hd, fb, he, hf, hg2, hreg⟩
            · exact Or.inl h3
            · exact Or.inr ⟨ha, hb, hc, hd, fb, fmt, handles, np, rfl, hin, rfl, he, hf, hg2,
                hreg⟩
        · refine key _ (fmts.pixel_format_get_opaque_substitute fmt) ?_ ?_ ?_ ?_ ?_ ?_ _ ?_
          · rfl
          · rfl
          · rfl
          · exact hid
          · rfl
          · rfl
          · intro r w1 calls h2 h3
            refine ⟨h2, ?_⟩
            rcases h3 with h3 | ⟨ha, hb, hc, hd, fb, he, hf, hg2, hreg⟩
            · exact Or.inl h3
            · exact Or.inr ⟨ha, hb, hc, hd, fb, fmt, handles, np, rfl, hin, rfl, he, hf, hg2,
                hreg⟩

/-- The lemma `drm_fb_get_from_dmabuf_imported_ends` on the state left by the
driver import; `w0` is the state right after the call of `gbm_bo_import`. -/
theorem drm_fb_get_from_dmabuf_after_import_ends (cfg : build_config) (fmts : pixel_formats)
    (k : dmabuf_replies) (w0 : World) (dmabuf : dmabuf_attributes) ( is_opaque : Bool)
    (hret : k.import_ret ≠ NULL) :
    ∃ (r : Ptr) (w1 : World) (calls : List Event),
      drm_fb_get_from_dmabuf_imported cfg fmts k
        ((w0.gbm_import k.import_ret k.import_bo).store k.zalloc
          (drm_fb_get_from_dmabuf_alloc k.import_ret))
        dmabuf is_opaque k.zalloc (drm_fb_get_from_dmabuf_alloc k.import_ret) = .ok (r, w1) ∧
      (∀ e ∈ calls, e.is_addfb = true) ∧
      ((r = NULL ∧ w1.b = w0.b ∧ w1.fbs k.zalloc = none ∧
          (∀ q, q ≠ k.zalloc → w1.fbs q = w0.fbs q) ∧
          w1.bos k.import_ret = none ∧ (∀ q, q ≠ k.import_ret → w1.bos q = w0.bos q) ∧
          w1.trace = w0.trace ++ (calls ++
            [Event.gbm_bo_destroy k.import_ret,
             Event.weston_buffer_reference NULL NULL,
             Event.weston_buffer_release_reference NULL NULL,
             Event.free k.zalloc]) ∧
          (∀ e ∈ calls, e.registers = none)) ∨
       (r = k.zalloc ∧ w1.b = { w0.b with fb_list := k.zalloc :: w0.b.fb_list } ∧
          w1.trace = w0.trace ++ calls ∧
          ∃ (fb : drm_fb) (fmt : pixel_format_info) (handles : arr4) (np : Int),
            fmts.pixel_format_get_info dmabuf.format = some fmt ∧
            ¬ w0.b.out_of_bounds dmabuf.width dmabuf.height ∧
            drm_fb_get_from_dmabuf_planes cfg k.import_bo dmabuf.n_planes arr4.zero =
              (.ok (some handles), np) ∧
            w1.fbs k.zalloc = some fb ∧
            fb.format = some (if is_opaque = true then
              fmts.pixel_format_get_opaque_substitute fmt else fmt) ∧
            fb.backend_link = wl_link.linked ∧
            (∃ e ∈ calls, e.registers = some fb.fb_id))) := by
  obtain ⟨r, w1, calls, h1, h2, h3⟩ := drm_fb_get_from_dmabuf_imported_ends cfg fmts k
    ((w0.gbm_import k.import_ret k.import_bo).store k.zalloc
      (drm_fb_get_from_dmabuf_alloc k.import_ret))
    dmabuf is_opaque k.zalloc (drm_fb_get_from_dmabuf_alloc k.import_ret)
    { k.import_bo with user_data := NULL, destroy_user_data := false }
    hret (by simp [World.store, World.gbm_import, drm_fb_get_from_dmabuf_alloc, hret]) rfl rfl
  refine ⟨r, w1, calls, h1, h2, ?_⟩
  rcases h3 with ⟨ha, hb, hc, hd, he, hf⟩ | ⟨ha, hb, hc, hd, fb, fmt, handles, np, h4, h5, h6,
    h7, h8, h9, h10⟩
  · refine Or.inl ⟨ha, hb, ?_, ?_, ?_, ?_, he, hf⟩
    · rw [hc]
      exact Function.update_same _ _ _
    · intro q hq
      rw [hc]
      simp [World.store, World.gbm_import, Function.update_noteq hq]
    · rw [hd]
      exact Function.update_same _ _ _
    · intro q hq
      rw [hd]
      simp [World.store, World.gbm_import, drm_fb_get_from_dmabuf_alloc, hret,
        Function.update_noteq hq]
  · refine Or.inr ⟨ha, hb, hd, fb, fmt, handles, np, h4, h5, h6, ?_, h8, h9, h10⟩
    rw [h7]
    exact Function.update_same _ _ _

/-- The ways a run of `drm_fb_get_from_dmabuf` can end when the descriptor
carries no flags, the object is allocated, the import primitive the descriptor
needs exists in the build and the driver import yields an object. The run
returns; its first call is the driver import, through the modifier-aware
primitive exactly when `modifier[0]` is valid, or there is more than one plane,
or the first offset is non-zero; the calls that follow the import are
registration calls and, on failure, the teardown. -/
theorem drm_fb_get_from_dmabuf_import_ok_ends (cfg : build_config) (fmts : pixel_formats)
    (k : dmabuf_replies) (w : World) (dmabuf : dmabuf_attributes) ( is_opaque : Bool)
    (hflags : dmabuf.flags = 0) (hz : k.zalloc ≠ NULL) (hret : k.import_ret ≠ NULL)
    (hhave : dmabuf.needs_modifier_import → cfg.HAVE_GBM_FD_IMPORT = true) :
    ∃ (r : Ptr) (w1 : World) (calls : List Event),
      drm_fb_get_from_dmabuf cfg fmts k w dmabuf is_opaque = .ok (r, w1) ∧
      (∀ e ∈ calls, e.is_addfb = true) ∧
      ((r = NULL ∧ w1.b = w.b ∧ w1.fbs k.zalloc = none ∧
          (∀ q, q ≠ k.zalloc → w1.fbs q = w.fbs q) ∧
          w1.bos k.import_ret = none ∧ (∀ q, q ≠ k.import_ret → w1.bos q = w.bos q) ∧
          w1.trace = w.trace ++
            ((if dmabuf.needs_modifier_import then
                Event.gbm_bo_import_fd_modifier w.b.gbm dmabuf.width dmabuf.height
                  dmabuf.format dmabuf.n_planes (dmabuf.modifier.get 0) k.import_ret
              else
                Event.gbm_bo_import_fd w.b.gbm dmabuf.width dmabuf.height dmabuf.format
                  (dmabuf.stride.get 0) (dmabuf.fd.get 0) k.import_ret) ::
              (calls ++
                [Event.gbm_bo_destroy k.import_ret,
                 Event.weston_buffer_reference NULL NULL,
                 Event.weston_buffer_release_reference NULL NULL,
                 Event.free k.zalloc])) ∧
          (∀ e ∈ calls, e.registers = none)) ∨
       (r = k.zalloc ∧ w1.b = { w.b with fb_list := k.zalloc :: w.b.fb_list } ∧
          w1.trace = w.trace ++
            ((if dmabuf.needs_modifier_import then
                Event.gbm_bo_import_fd_modifier w.b.gbm dmabuf.width dmabuf.height
                  dmabuf.format dmabuf.n_planes (dmabuf.modifier.get 0) k.import_ret
              else
                Event.gbm_bo_import_fd w.b.gbm dmabuf.width dmabuf.height dmabuf.format
                  (dmabuf.stride.get 0) (dmabuf.fd.get 0) k.import_ret) :: calls) ∧
          ∃ (fb : drm_fb) (fmt : pixel_format_info) (handles : arr4) (np : Int),
            fmts.pixel_format_get_info dmabuf.format = some fmt ∧
            ¬ w.b.out_of_bounds dmabuf.width dmabuf.height ∧
            drm_fb_get_from_dmabuf_planes cfg k.import_bo dmabuf.n_planes arr4.zero =
              (.ok (some handles), np) ∧
            w1.fbs k.zalloc = some fb ∧
            fb.format = some (if is_opaque = true then
              fmts.pixel_format_get_opaque_substitute fmt else fmt) ∧
            fb.backend_link = wl_link.linked ∧
            (∃ e ∈ calls, e.registers = some fb.fb_id))) := by
  have hf : ¬ (dmabuf.flags ≠ 0) := by simp [hflags]
  unfold drm_fb_get_from_dmabuf
  rw [if_neg hf, if_neg hz]
  by_cases hneeds : dmabuf.needs_modifier_import
  · have hneeds2 : dmabuf.modifier.get 0 ≠ DRM_FORMAT_MOD_INVALID ∨ dmabuf.n_planes > 1 ∨
        dmabuf.offset.get 0 > 0 := hneeds
    rw [if_pos hneeds2, if_pos (hhave hneeds), if_pos hneeds]
    obtain ⟨r, w1, calls, h1, h2, h3⟩ := drm_fb_get_from_dmabuf_after_import_ends cfg fmts k
      (w.emit (Event.gbm_bo_import_fd_modifier w.b.gbm dmabuf.width dmabuf.height
        dmabuf.format dmabuf.n_planes (dmabuf.modifier.get 0) k.import_ret))
      dmabuf is_opaque hret
    refine ⟨r, w1, calls, h1, h2, ?_⟩
    rcases h3 with ⟨ha, hb, hc, hd, he, hf2, hg, hh⟩ | ⟨ha, hb, hc, hrest⟩
    · exact Or.inl ⟨ha, hb, hc, hd, he, hf2, hg.trans (List.append_assoc _ _ _), hh⟩
    · exact Or.inr ⟨ha, hb, hc.trans (List.append_assoc _ _ _), hrest⟩
  · have hneeds2 : ¬ (dmabuf.modifier.get 0 ≠ DRM_FORMAT_MOD_INVALID ∨ dmabuf.n_planes > 1 ∨
        dmabuf.offset.get 0 > 0) := hneeds
    rw [if_neg hneeds2, if_neg hneeds]
    obtain ⟨r, w1, calls, h1, h2, h3⟩ := drm_fb_get_from_dmabuf_after_import_ends cfg fmts k
      (w.emit (Event.gbm_bo_import_fd w.b.gbm dmabuf.width dmabuf.height dmabuf.format
        (dmabuf.stride.get 0) (dmabuf.fd.get 0) k.import_ret))
      dmabuf is_opaque hret
    refine ⟨r, w1, calls, h1, h2, ?_⟩
    rcases h3 with ⟨ha, hb, hc, hd, he, hf2, hg, hh⟩ | ⟨ha, hb, hc, hrest⟩
    · exact Or.inl ⟨ha, hb, hc, hd, he, hf2, hg.trans (List.append_assoc _ _ _), hh⟩
    · exact Or.inr ⟨ha, hb, hc.trans (List.append_assoc _ _ _), hrest⟩

/-- A registration call is no driver import. -/
theorem Event.is_gbm_import_of_is_addfb (e : Event) (h : e.is_addfb = true) :
    e.is_gbm_import = false := by
  cases e <;> simp [Event.is_addfb] at h <;> rfl

/-! ## Choice of the import primitive -/

/-- **C11.** For a descriptor without flags (and an allocated object),
`drm_fb_get_from_dmabuf` continues, in a build with the modifier-aware import,
from the state left by one call of the modifier-aware multi-fd import when
`modifier[0]` is not `DRM_FORMAT_MOD_INVALID`, or there is more than one plane,
or `offset[0] > 0`, and otherwise, in every build, from the state left by one
call of the legacy single-fd import with `stride[0]` and `fd[0]`. When the
primitive exists and yields a driver object the run returns, and that import
is its first call and its only driver import. When the modifier-aware import
is required and the build lacks it, no import is made and no driver object is
created, but the run does not return a failure: label `err_free` unlinks the
registry link that was never initialised and dereferences `NULL`. -/
theorem drm_fb_get_from_dmabuf_import_primitive (cfg : build_config) (fmts : pixel_formats)
    (k : dmabuf_replies) (w : World) (dmabuf : dmabuf_attributes) ( is_opaque : Bool)
    (hflags : dmabuf.flags = 0) (hz : k.zalloc ≠ NULL) :
    (dmabuf.needs_modifier_import → cfg.HAVE_GBM_FD_IMPORT = true →
      drm_fb_get_from_dmabuf cfg fmts k w dmabuf is_opaque =
        drm_fb_get_from_dmabuf_imported cfg fmts k
          (((w.emit (Event.gbm_bo_import_fd_modifier w.b.gbm dmabuf.width dmabuf.height
              dmabuf.format dmabuf.n_planes (dmabuf.modifier.get 0) k.import_ret)).gbm_import
            k.import_ret k.import_bo).store k.zalloc
              (drm_fb_get_from_dmabuf_alloc k.import_ret))
          dmabuf is_opaque k.zalloc (drm_fb_get_from_dmabuf_alloc k.import_ret)) ∧
    (¬ dmabuf.needs_modifier_import →
      drm_fb_get_from_dmabuf cfg fmts k w dmabuf is_opaque =
        drm_fb_get_from_dmabuf_imported cfg fmts k
          (((w.emit (Event.gbm_bo_import_fd w.b.gbm dmabuf.width dmabuf.height dmabuf.format
              (dmabuf.stride.get 0) (dmabuf.fd.get 0) k.import_ret)).gbm_import
            k.import_ret k.import_bo).store k.zalloc
              (drm_fb_get_from_dmabuf_alloc k.import_ret))
          dmabuf is_opaque k.zalloc (drm_fb_get_from_dmabuf_alloc k.import_ret)) ∧
    ((dmabuf.needs_modifier_import → cfg.HAVE_GBM_FD_IMPORT = true) → k.import_ret ≠ NULL →
      ∃ (r : Ptr) (w1 : World) (tr : List Event),
        drm_fb_get_from_dmabuf cfg fmts k w dmabuf is_opaque = .ok (r, w1) ∧
        w1.trace = w.trace ++
          ((if dmabuf.needs_modifier_import then
              Event.gbm_bo_import_fd_modifier w.b.gbm dmabuf.width dmabuf.height
                dmabuf.format dmabuf.n_planes (dmabuf.modifier.get 0) k.import_ret
            else
              Event.gbm_bo_import_fd w.b.gbm dmabuf.width dmabuf.height dmabuf.format
                (dmabuf.stride.get 0) (dmabuf.fd.get 0) k.import_ret) :: tr) ∧
        ∀ e ∈ tr, e.is_gbm_import = false) ∧
    (dmabuf.needs_modifier_import → cfg.HAVE_GBM_FD_IMPORT = false →
      drm_fb_get_from_dmabuf cfg fmts k w dmabuf is_opaque =
        drm_fb_get_from_dmabuf_err_free
          (w.store k.zalloc (drm_fb_get_from_dmabuf_alloc NULL)) k.zalloc ∧
      drm_fb_get_from_dmabuf cfg fmts k w dmabuf is_opaque = .error Fault.null_deref) := by
  have hf : ¬ (dmabuf.flags ≠ 0) := by simp [hflags]
  refine ⟨?_, ?_, ?_, ?_⟩
  · intro hneeds hhave
    have hneeds2 : dmabuf.modifier.get 0 ≠ DRM_FORMAT_MOD_INVALID ∨ dmabuf.n_planes > 1 ∨
        dmabuf.offset.get 0 > 0 := hneeds
    unfold drm_fb_get_from_dmabuf
    rw [if_neg hf, if_neg hz, if_pos hneeds2, if_pos hhave]
  · intro hneeds
    have hneeds2 : ¬ (dmabuf.modifier.get 0 ≠ DRM_FORMAT_MOD_INVALID ∨ dmabuf.n_planes > 1 ∨
        dmabuf.offset.get 0 > 0) := hneeds
    unfold drm_fb_get_from_dmabuf
    rw [if_neg hf, if_neg hz, if_neg hneeds2]
  · intro hhave hret
    obtain ⟨r, w1, calls, h1, h2, h3⟩ := drm_fb_get_from_dmabuf_import_ok_ends cfg fmts k w
      dmabuf is_opaque hflags hz hret hhave
    rcases h3 with ⟨_, _, _, _, _, _, htr, _⟩ | ⟨_, _, htr, _⟩
    · refine ⟨r, w1, _, h1, htr, ?_⟩
      intro e he
      rcases List.mem_append.mp he with hc | ht
      · exact Event.is_gbm_import_of_is_addfb e (h2 e hc)
      · simp only [List.mem_cons, List.mem_singleton, List.not_mem_nil, or_false] at ht
        rcases ht with rfl | rfl | rfl | rfl <;> rfl
    · exact ⟨r, w1, _, h1, htr, fun e he => Event.is_gbm_import_of_is_addfb e (h2 e he)⟩
  · intro hneeds hno
    refine ⟨?_, drm_fb_get_from_dmabuf_import_failed cfg fmts k w dmabuf is_opaque hflags hz
      (Or.inr ⟨hneeds, hno⟩)⟩
    have hneeds2 : dmabuf.modifier.get 0 ≠ DRM_FORMAT_MOD_INVALID ∨ dmabuf.n_planes > 1 ∨
        dmabuf.offset.get 0 > 0 := hneeds
    have hno2 : ¬ (cfg.HAVE_GBM_FD_IMPORT = true) := by simp [hno]
    unfold drm_fb_get_from_dmabuf
    rw [if_neg hf, if_neg hz, if_pos hneeds2, if_neg hno2]

/-- Instance of **C11**. In a build without the modifier-aware import, the
two-plane descriptor `sample_dmabuf_mixed` (no flags, `modifier[0] = 1`) makes
`drm_fb_get_from_dmabuf` dereference `NULL` instead of returning a failure. In
the build that has the primitive the same descriptor is imported through it. -/
theorem drm_fb_get_from_dmabuf_import_primitive_witness :
    sample_dmabuf_mixed.flags = 0 ∧ sample_dmabuf_mixed.needs_modifier_import ∧
    sample_build_no_fd_import.HAVE_GBM_FD_IMPORT = false ∧
    drm_fb_get_from_dmabuf sample_build_no_fd_import sample_formats sample_dmabuf_replies
      sample_empty sample_dmabuf_mixed false = .error Fault.null_deref ∧
    ∃ (r : Ptr) (w1 : World) (tr : List Event),
      drm_fb_get_from_dmabuf sample_build sample_formats sample_dmabuf_replies
        sample_empty sample_dmabuf_mixed false = .ok (r, w1) ∧
      w1.trace = Event.gbm_bo_import_fd_modifier 100 128 128 DRM_FORMAT_NV12 2 1 200 :: tr ∧
      ∀ e ∈ tr, e.is_gbm_import = false :=
  ⟨rfl, by decide, rfl,
    ((drm_fb_get_from_dmabuf_import_primitive sample_build_no_fd_import sample_formats
      sample_dmabuf_replies sample_empty sample_dmabuf_mixed false rfl (by decide)).2.2.2
      (by decide) rfl).2,
    (drm_fb_get_from_dmabuf_import_primitive sample_build sample_formats
      sample_dmabuf_replies sample_empty sample_dmabuf_mixed false rfl (by decide)).2.2.1
      (fun _ => rfl) (by decide)⟩

/-! ## Unwinding of a failed dmabuf import -/

/-- **C12.** When the descriptor carries no flags, the object is allocated and
the driver import succeeds, `drm_fb_get_from_dmabuf` returns. Whenever it then
returns `NULL` (it does so when the format is unknown, when the geometry is out
of bounds, when a plane handle query fails, and when no registration call
succeeds), the calls of the run contain `gbm_bo_destroy` for the imported
driver object exactly once and the driver object no longer exists, no call of
the run registered a framebuffer and the kernel's objects are those before the
run, the object is freed, and the backend with its registry is as before. -/
theorem drm_fb_get_from_dmabuf_failure_unwinds (cfg : build_config) (fmts : pixel_formats)
    (k : dmabuf_replies) (w : World) (dmabuf : dmabuf_attributes) ( is_opaque : Bool)
    (hflags : dmabuf.flags = 0) (hz : k.zalloc ≠ NULL) (hret : k.import_ret ≠ NULL)
    (hhave : dmabuf.needs_modifier_import → cfg.HAVE_GBM_FD_IMPORT = true) :
    ∃ (r : Ptr) (w1 : World) (tr : List Event),
      drm_fb_get_from_dmabuf cfg fmts k w dmabuf is_opaque = .ok (r, w1) ∧
      w1.trace = w.trace ++ tr ∧
      (fmts.pixel_format_get_info dmabuf.format = none → r = NULL) ∧
      (w.b.out_of_bounds dmabuf.width dmabuf.height → r = NULL) ∧
      ((drm_fb_get_from_dmabuf_planes cfg k.import_bo dmabuf.n_planes arr4.zero).1 = .ok none →
        r = NULL) ∧
      ((∀ e ∈ tr, e.registers = none) → r = NULL) ∧
      (r = NULL →
        tr.count (Event.gbm_bo_destroy k.import_ret) = 1 ∧
        w1.bos k.import_ret = none ∧ (∀ q, q ≠ k.import_ret → w1.bos q = w.bos q) ∧
        (∀ e ∈ tr, e.registers = none) ∧ (∀ e ∈ tr, e.is_rmfb = false) ∧
        (∀ s : kms_state, kms_run s tr = s) ∧
        w1.fbs k.zalloc = none ∧ (∀ q, q ≠ k.zalloc → w1.fbs q = w.fbs q) ∧
        w1.b = w.b ∧ w1.b.fb_list = w.b.fb_list) := by
  obtain ⟨r, w1, calls, h1, h2, h3⟩ := drm_fb_get_from_dmabuf_import_ok_ends cfg fmts k w
    dmabuf is_opaque hflags hz hret hhave
  rcases h3 with ⟨hr, hb, hfz, hfq, hbz, hbq, htr, hreg⟩ |
    ⟨hr, hb, htr, fb, fmt, handles, np, hfmt, hin, hpl, hfb, _, _, e, he, hreg⟩
  · have hinert : ∀ e ∈ (if dmabuf.needs_modifier_import then
            Event.gbm_bo_import_fd_modifier w.b.gbm dmabuf.width dmabuf.height
              dmabuf.format dmabuf.n_planes (dmabuf.modifier.get 0) k.import_ret
          else
            Event.gbm_bo_import_fd w.b.gbm dmabuf.width dmabuf.height dmabuf.format
              (dmabuf.stride.get 0) (dmabuf.fd.get 0) k.import_ret) ::
          (calls ++
            [Event.gbm_bo_destroy k.import_ret,
             Event.weston_buffer_reference NULL NULL,
             Event.weston_buffer_release_reference NULL NULL,
             Event.free k.zalloc]),
        e.registers = none ∧ e.is_rmfb = false ∧ e.is_create_dumb = false ∧
          e.is_destroy_dumb = false := by
      intro e he
      rcases List.mem_cons.mp he with rfl | he
      · split_ifs <;> exact ⟨rfl, rfl, rfl, rfl⟩
      · rcases List.mem_append.mp he with hc | ht
        · have ha := h2 e hc
          refine ⟨hreg e hc, ?_, ?_, ?_⟩ <;>
            ( cases e <;> simp [Event.is_addfb] at ha <;> rfl )
        · simp only [List.mem_cons, List.mem_singleton, List.not_mem_nil, or_false] at ht
          rcases ht with rfl | rfl | rfl | rfl <;> exact ⟨rfl, rfl, rfl, rfl⟩
    refine ⟨r, w1, _, h1, htr, fun _ => hr, fun _ => hr, fun _ => hr, fun _ => hr, ?_⟩
    intro _
    refine ⟨?_, hbz, hbq, fun e he => (hinert e he).1, fun e he => (hinert e he).2.1, ?_, hfz,
      hfq, hb, by rw [hb]⟩
    · have hcalls : calls.count (Event.gbm_bo_destroy k.import_ret) = 0 := by
        apply List.count_eq_zero_of_not_mem
        intro hm
        have ha := h2 _ hm
        simp [Event.is_addfb] at ha
      have h0 : ((if dmabuf.needs_modifier_import then
            Event.gbm_bo_import_fd_modifier w.b.gbm dmabuf.width dmabuf.height
              dmabuf.format dmabuf.n_planes (dmabuf.modifier.get 0) k.import_ret
          else
            Event.gbm_bo_import_fd w.b.gbm dmabuf.width dmabuf.height dmabuf.format
              (dmabuf.stride.get 0) (dmabuf.fd.get 0) k.import_ret) ==
          Event.gbm_bo_destroy k.import_ret) = false := by
        split_ifs <;> simp
      rw [List.count_cons, List.count_append, hcalls, h0]
      simp [List.count_cons]
    · exact kms_run_of_steps _ (fun e he s =>
        kms_step_of_registers_none s e (hinert e he).1 (hinert e he).2.1 (hinert e he).2.2.1
          (hinert e he).2.2.2)
  · have hnn : r ≠ NULL := by
      rw [hr]
      exact hz
    refine ⟨r, w1, _, h1, htr, ?_, ?_, ?_, ?_, fun h => absurd h hnn⟩
    · intro hnone
      rw [hfmt] at hnone
      exact absurd hnone (by simp)
    · intro hout
      exact absurd hout hin
    · intro hnone
      rw [hpl] at hnone
      exact absurd hnone (by simp)
    · intro hall
      have := hall e (List.mem_cons_of_mem _ he)
      rw [hreg] at this
      exact absurd this (by simp)

/-- Instance of **C12**: the two-plane descriptor is imported as driver object
200 and the kernel rejects the registration. The run destroys the driver
object, frees the object and returns `NULL`; nothing is registered and the
registry is empty as before. -/
theorem drm_fb_get_from_dmabuf_failure_unwinds_witness :
    ∃ (w1 : World),
      drm_fb_get_from_dmabuf sample_build sample_formats sample_dmabuf_replies_rejected
        sample_empty sample_dmabuf_mixed false = .ok (NULL, w1) ∧
      w1.trace = [Event.gbm_bo_import_fd_modifier 100 128 128 DRM_FORMAT_NV12 2 1 200,
        Event.drmModeAddFB2WithModifiers 3 128 128 DRM_FORMAT_NV12 ⟨5, 6, 0, 0⟩
          ⟨128, 128, 0, 0⟩ ⟨0, 0, 0, 0⟩ ⟨1, 1, 0, 0⟩ 2 (-22) 0,
        Event.gbm_bo_destroy 200, Event.weston_buffer_reference 0 0,
        Event.weston_buffer_release_reference 0 0, Event.free 7] ∧
      w1.trace.count (Event.gbm_bo_destroy 200) = 1 ∧
      w1.bos 200 = none ∧ w1.fbs 7 = none ∧ w1.b.fb_list = [] ∧
      (∀ s : kms_state, kms_run s w1.trace = s) := by
  obtain ⟨r, w1, tr, h, htr, _, _, _, hfail, hun⟩ :=
    drm_fb_get_from_dmabuf_failure_unwinds sample_build sample_formats
      sample_dmabuf_replies_rejected sample_empty sample_dmabuf_mixed false rfl (by decide)
      (by decide) (fun _ => rfl)
  have hev : drm_fb_get_from_dmabuf sample_build sample_formats sample_dmabuf_replies_rejected
      sample_empty sample_dmabuf_mixed false = .ok (NULL, _) := rfl
  rw [hev] at h
  injection h with h
  injection h with hr hw
  subst hw
  obtain ⟨hc, hb, _, _, _, hk, hf, _, _, hl⟩ := hun hr.symm
  have htr2 : tr = _ := htr.symm
  subst htr2
  exact ⟨_, rfl, rfl, hc, hb, hf, hl, hk⟩

/-! ## Suspend -/

/-- Closed form of the loop of `drm_fb_suspend` over live members: the state
is as before but for the calls, one removal per member that is not
suspend-safe, in the order of the list. -/
theorem drm_fb_suspend_loop_eq (k : Ptr → Int) :
    ∀ (l : List Ptr) (w : World), (∀ p ∈ l, w.fbs p ≠ none) →
      drm_fb_suspend_loop k l w = .ok
        { w with trace := w.trace ++ l.filterMap (fun p => (w.fbs p).bind (fun fb =>
            if fb.suspend_safe = true then none
            else some (Event.drmModeRmFB fb.fd fb.fb_id))) } := by
  intro l
  induction l with
  | nil => intro w _; simp [drm_fb_suspend_loop]
  | cons p rest ih =>
    intro w hlive
    obtain ⟨fb, hfb⟩ := Option.ne_none_iff_exists'.mp (hlive p (List.mem_cons_self _ _))
    have hrest : ∀ q ∈ rest, w.fbs q ≠ none := fun q hq => hlive q (List.mem_cons_of_mem _ hq)
    by_cases hs : fb.suspend_safe = true
    · simp only [drm_fb_suspend_loop, World.load_of_fbs w p fb hfb, if_pos hs]
      rw [ih w hrest]
      simp [List.filterMap_cons, hfb, hs]
    · simp only [drm_fb_suspend_loop, World.load_of_fbs w p fb hfb, if_neg hs, drm_fb_rmfb]
      rw [ih _ (by simpa [World.emit] using hrest)]
      simp [List.filterMap_cons, hfb, hs, World.emit]

/-- On a kernel that carries out each removal, a sequence of removals
registers nothing. -/
theorem kms_run_rmfb_subset (tr : List Event) (h : ∀ e ∈ tr, e.is_rmfb = true) :
    ∀ s : kms_state, (kms_run s tr).fb_ids ⊆ s.fb_ids := by
  induction tr with
  | nil => intro s; exact Finset.Subset.refl _
  | cons e rest ih =>
    intro s
    have he := h e (List.mem_cons_self _ _)
    have hr := ih (fun x hx => h x (List.mem_cons_of_mem _ hx)) (kms_step s e)
    simp only [kms_run, List.foldl_cons] at hr ⊢
    refine hr.trans ?_
    cases e <;> simp [Event.is_rmfb] at he
    simp only [kms_step]
    exact Finset.erase_subset _ _

/-- On a kernel that carries out each removal, an id removed by a sequence of
removals is not registered afterwards. -/
theorem kms_run_rmfb_not_mem (tr : List Event) (h : ∀ e ∈ tr, e.is_rmfb = true) :
    ∀ (s : kms_state) (fd : Int) (id : Nat), Event.drmModeRmFB fd id ∈ tr →
      id ∉ (kms_run s tr).fb_ids := by
  induction tr with
  | nil => intro s fd id hm; simp at hm
  | cons e rest ih =>
    intro s fd id hm
    have hrest : ∀ x ∈ rest, x.is_rmfb = true := fun x hx => h x (List.mem_cons_of_mem _ hx)
    simp only [kms_run, List.foldl_cons]
    rcases List.mem_cons.mp hm with heq | hin
    · subst heq
      intro hmem
      have := kms_run_rmfb_subset rest hrest (kms_step s (Event.drmModeRmFB fd id)) hmem
      simp [kms_step] at this
    · exact ih hrest (kms_step s e) fd id hin

/-- **C13.** On a registry whose members are live objects, `drm_fb_suspend`
returns, whatever the kernel replies. The calls it makes are exactly one
`drmModeRmFB` for each member that is not suspend-safe, with that member's
`fd` and `fb_id`, in the order of the registry, and none for a suspend-safe
member. The backend with its registry (members and order), every object
(reference counts and every other field, of suspend-safe buffers and of the
others) and every driver buffer object are unchanged. -/
theorem drm_fb_suspend_removes (k : Ptr → Int) (w : World)
    (hlive : ∀ p ∈ w.b.fb_list, w.fbs p ≠ none) :
    ∃ w1 : World,
      drm_fb_suspend k w = .ok w1 ∧
      w1.trace = w.trace ++ w.b.fb_list.filterMap (fun p => (w.fbs p).bind (fun fb =>
        if fb.suspend_safe = true then none
        else some (Event.drmModeRmFB fb.fd fb.fb_id))) ∧
      ((w1.trace.drop w.trace.length).length =
        (w.b.fb_list.filter (fun p => (w.fbs p).any (fun fb => !fb.suspend_safe))).length) ∧
      w1.b = w.b ∧ w1.b.fb_list = w.b.fb_list ∧
      w1.fbs = w.fbs ∧ (∀ p fb, w.fbs p = some fb → ∃ fb1, w1.fbs p = some fb1 ∧
        fb1.refcnt = fb.refcnt ∧ (fb.suspend_safe = true → fb1 = fb)) ∧
      w1.bos = w.bos := by
  refine ⟨_, drm_fb_suspend_loop_eq k w.b.fb_list w hlive, rfl, ?_, rfl, rfl, rfl, ?_, rfl⟩
  · simp only [List.drop_left]
    generalize w.b.fb_list = l
    induction l with
    | nil => rfl
    | cons p rest ih =>
      cases hfb : w.fbs p with
      | none => simp [List.filterMap_cons, List.filter_cons, hfb, ih]
      | some fb =>
        by_cases hs : fb.suspend_safe = true <;>
          simp [List.filterMap_cons, List.filter_cons, hfb, hs, ih]
  · intro p fb hfb
    exact ⟨fb, hfb, rfl, fun _ => rfl⟩

/-- Instance of **C13**: a registry with one ordinary buffer (id 42) and one
suspend-safe buffer (id 50). One removal is issued, for id 42. -/
theorem drm_fb_suspend_removes_witness :
    ∃ w1 : World,
      drm_fb_suspend (fun _ => 0) sample_world_two = .ok w1 ∧
      w1.trace = [Event.drmModeRmFB 3 42] ∧
      w1.b.fb_list = [7, 8] ∧ w1.fbs = sample_world_two.fbs ∧
      w1.bos = sample_world_two.bos := by
  obtain ⟨w1, h, htr, _, _, hl, hf, _, hb⟩ :=
    drm_fb_suspend_removes (fun _ => 0) sample_world_two (by decide)
  exact ⟨w1, h, htr, hl, hf, hb⟩

/-- **C14**, counterexample. The registry holds one buffer that is not
suspend-safe, registered under id 42, and the kernel knows id 42. After
`drm_fb_suspend`, with the removal succeeding, the buffer is still a member of
the registry and its `fb_id` is still 42, not 0, while the kernel no longer
knows id 42: a non-zero registration id on an object unknown to the kernel. -/
theorem drm_fb_suspend_fb_id_not_cleared :
    7 ∈ sample_world_dumb.b.fb_list ∧ sample_world_dumb.fbs 7 = some sample_fb_dumb ∧
    sample_fb_dumb.suspend_safe = false ∧ sample_fb_dumb.fb_id = 42 ∧
    ∃ (w1 : World) (fb : drm_fb),
      drm_fb_suspend (fun _ => 0) sample_world_dumb = .ok w1 ∧
      7 ∈ w1.b.fb_list ∧ w1.fbs 7 = some fb ∧ fb.suspend_safe = false ∧
      fb.fb_id = 42 ∧ fb.fb_id ≠ 0 ∧
      w1.trace = [Event.drmModeRmFB 3 42] ∧
      fb.fb_id ∉ (kms_run ⟨∅, {42}⟩ w1.trace).fb_ids := by
  refine ⟨by decide, rfl, rfl, rfl, _, _, rfl, by decide, rfl, rfl, rfl, by decide, rfl, ?_⟩
  decide

/-- **C14**, as amended. `drm_fb_suspend` clears no registration id. On a
registry whose members are live objects it returns, whatever the kernel
replies to the removals, and every object is exactly as before, `fb_id`
included: a member that is not suspend-safe keeps the id it had, zero or not.
The removal was issued for that id, so on a kernel that carries the removals
out the id is not registered afterwards although `fb_id` still holds it. -/
theorem drm_fb_suspend_keeps_fb_id (k : Ptr → Int) (w : World)
    (hlive : ∀ p ∈ w.b.fb_list, w.fbs p ≠ none) :
    ∃ (w1 : World) (tr : List Event),
      drm_fb_suspend k w = .ok w1 ∧ w1.trace = w.trace ++ tr ∧
      w1.b.fb_list = w.b.fb_list ∧
      ∀ p ∈ w.b.fb_list, ∀ fb, w.fbs p = some fb →
        w1.fbs p = some fb ∧
        (fb.suspend_safe = false →
          Event.drmModeRmFB fb.fd fb.fb_id ∈ tr ∧
          ∀ s : kms_state, fb.fb_id ∉ (kms_run s tr).fb_ids) := by
  have hall : ∀ e ∈ w.b.fb_list.filterMap (fun p => (w.fbs p).bind (fun fb =>
      if fb.suspend_safe = true then none
      else some (Event.drmModeRmFB fb.fd fb.fb_id))), e.is_rmfb = true := by
    intro e he
    obtain ⟨p, _, hp⟩ := List.mem_filterMap.mp he
    cases hfb : w.fbs p with
    | none => simp [hfb] at hp
    | some fb =>
      by_cases hs : fb.suspend_safe = true
      · simp [hfb, hs] at hp
      · simp [hfb, hs] at hp
        subst hp
        rfl
  refine ⟨_, _, drm_fb_suspend_loop_eq k w.b.fb_list w hlive, rfl, rfl, ?_⟩
  intro p hp fb hfb
  refine ⟨hfb, ?_⟩
  intro hs
  have hmem : Event.drmModeRmFB fb.fd fb.fb_id ∈ w.b.fb_list.filterMap (fun p =>
      (w.fbs p).bind (fun fb =>
        if fb.suspend_safe = true then none
        else some (Event.drmModeRmFB fb.fd fb.fb_id))) :=
    List.mem_filterMap.mpr ⟨p, hp, by simp [hfb, hs]⟩
  exact ⟨hmem, fun s => kms_run_rmfb_not_mem _ hall s fb.fd fb.fb_id hmem⟩

/-- Instance of **C14** as amended: after `drm_fb_suspend` on a registry with
the ordinary buffer 7 (id 42) and the suspend-safe buffer 8 (id 50), buffer 7
still has `fb_id = 42` and a kernel that knew ids 42 and 50 knows only id 50. -/
theorem drm_fb_suspend_keeps_fb_id_witness :
    ∃ (w1 : World) (tr : List Event),
      drm_fb_suspend (fun _ => -22) sample_world_two = .ok w1 ∧
      w1.trace = sample_world_two.trace ++ tr ∧
      w1.fbs 7 = some sample_fb_dumb ∧ sample_fb_dumb.fb_id = 42 ∧
      Event.drmModeRmFB 3 42 ∈ tr ∧ 42 ∉ (kms_run ⟨∅, {42, 50}⟩ tr).fb_ids := by
  obtain ⟨w1, tr, h, htr, _, hall⟩ :=
    drm_fb_suspend_keeps_fb_id (fun _ => -22) sample_world_two (by decide)
  obtain ⟨hfb, hrest⟩ := hall 7 (by decide) sample_fb_dumb rfl
  obtain ⟨hm, hk⟩ := hrest rfl
  exact ⟨w1, tr, h, htr, hfb, rfl, hm, hk _⟩

/-! ## Resume -/

/-- The calls of a visit depend on the backend's modifier flag and on the
object visited only. -/
theorem drm_fb_resume_calls_congr (k : Ptr → addfb_replies) (w w2 : World) (p : Ptr)
    (hb : w2.b = w.b) (hf : w2.fbs p = w.fbs p) :
    drm_fb_resume_calls k w2 p = drm_fb_resume_calls k w p := by
  simp only [drm_fb_resume_calls, hb, hf]

/-- The loop of `drm_fb_resume` over distinct live members, each of which has a
format unless it is suspend-safe: it returns; it visits every member, makes the
calls of `drm_fb_addfb` for the members that are not suspend-safe, in order,
whatever the earlier registrations returned; and each such member holds the
object `drm_fb_addfb` leaves, every other object being as before. -/
theorem drm_fb_resume_loop_ends (k : Ptr → addfb_replies) :
    ∀ (l : List Ptr) (w : World), l.Nodup → (∀ p ∈ l, w.fbs p ≠ none) →
      (∀ p ∈ l, ∀ fb, w.fbs p = some fb → fb.suspend_safe = false → fb.format ≠ none) →
      ∃ w1 : World,
        drm_fb_resume_loop k l w = .ok w1 ∧ w1.b = w.b ∧ w1.bos = w.bos ∧
        w1.trace = w.trace ++ l.flatMap (drm_fb_resume_calls k w) ∧
        (∀ q, q ∉ l → w1.fbs q = w.fbs q) ∧
        (∀ q ∈ l, ∀ fb, w.fbs q = some fb →
          (fb.suspend_safe = true → w1.fbs q = some fb) ∧
          (∀ fmt, fb.suspend_safe = false → fb.format = some fmt →
            w1.fbs q = some (drm_fb_addfb_calls (k q) w.b.fb_modifiers fb fmt).2.1)) := by
  intro l
  induction l with
  | nil =>
    intro w _ _ _
    exact ⟨w, rfl, rfl, rfl, by simp, fun _ _ => rfl, fun q hq => absurd hq (by simp)⟩
  | cons p rest ih =>
    intro w hnd hlive hfmt
    obtain ⟨hp, hnd2⟩ := List.nodup_cons.mp hnd
    obtain ⟨fb, hfb⟩ := Option.ne_none_iff_exists'.mp (hlive p (List.mem_cons_self _ _))
    have hrest : ∀ q ∈ rest, w.fbs q ≠ none := fun q hq => hlive q (List.mem_cons_of_mem _ hq)
    have hfrest : ∀ q ∈ rest, ∀ fb, w.fbs q = some fb → fb.suspend_safe = false →
        fb.format ≠ none := fun q hq => hfmt q (List.mem_cons_of_mem _ hq)
    by_cases hs : fb.suspend_safe = true
    · obtain ⟨w1, h1, hb, hbo, htr, hout, hin⟩ := ih w hnd2 hrest hfrest
      refine ⟨w1, ?_, hb, hbo, ?_, ?_, ?_⟩
      · simp only [drm_fb_resume_loop, World.load_of_fbs w p fb hfb, if_pos hs]
        exact h1
      · rw [htr, List.flatMap_cons]
        simp [drm_fb_resume_calls, hfb, hs]
      · intro q hq
        exact hout q (fun h => hq (List.mem_cons_of_mem _ h))
      · intro q hq fbq hfbq
        rcases List.mem_cons.mp hq with rfl | hq2
        · rw [hfb] at hfbq
          injection hfbq with hfbq
          subst hfbq
          refine ⟨fun _ => ?_, fun fmt hns _ => ?_⟩
          · rw [hout q hp]
            exact hfb
          · rw [hs] at hns
            exact absurd hns (by decide)
        · exact hin q hq2 fbq hfbq
    · have hs2 : fb.suspend_safe = false := by simpa using hs
      obtain ⟨fmt, hfm⟩ := Option.ne_none_iff_exists'.mp
        (hfmt p (List.mem_cons_self _ _) fb hfb hs2)
      have hne : ∀ q ∈ rest, q ≠ p := fun q hq h => hp (h ▸ hq)
      obtain ⟨w1, h1, hb, hbo, htr, hout, hin⟩ := ih
        { w with
          trace := w.trace ++ (drm_fb_addfb_calls (k p) w.b.fb_modifiers fb fmt).2.2,
          fbs := Function.update w.fbs p
            (some (drm_fb_addfb_calls (k p) w.b.fb_modifiers fb fmt).2.1) }
        hnd2
        (fun q hq => by
          simp only [Function.update_noteq (hne q hq)]
          exact hrest q hq)
        (fun q hq fbq hfbq => by
          simp only [Function.update_noteq (hne q hq)] at hfbq
          exact hfrest q hq fbq hfbq)
      refine ⟨w1, ?_, hb, hbo, ?_, ?_, ?_⟩
      · simp only [drm_fb_resume_loop, World.load_of_fbs w p fb hfb, if_neg hs,
          drm_fb_addfb_eq (k p) w p fb fmt hfb hfm]
        exact h1
      · rw [htr, List.flatMap_cons]
        have hcongr : rest.flatMap (drm_fb_resume_calls k
            { w with
              trace := w.trace ++ (drm_fb_addfb_calls (k p) w.b.fb_modifiers fb fmt).2.2,
              fbs := Function.update w.fbs p
                (some (drm_fb_addfb_calls (k p) w.b.fb_modifiers fb fmt).2.1) }) =
            rest.flatMap (drm_fb_resume_calls k w) := by
          apply List.flatMap_congr
          intro q hq
          exact drm_fb_resume_calls_congr k w _ q rfl (Function.update_noteq (hne q hq) _ _)
        rw [hcongr]
        simp [drm_fb_resume_calls, hfb, hs, hfm]
      · intro q hq
        rw [hout q (fun h => hq (List.mem_cons_of_mem _ h))]
        exact Function.update_noteq (fun h : q = p => hq (by rw [h]; exact List.mem_cons_self _ _)) _ _
      · intro q hq fbq hfbq
        rcases List.mem_cons.mp hq with rfl | hq2
        · rw [hfb] at hfbq
          injection hfbq with hfbq
          subst hfbq
          refine ⟨fun hsafe => absurd hsafe hs, fun fmt2 _ hfm2 => ?_⟩
          rw [hfm] at hfm2
          injection hfm2 with hfm2
          subst hfm2
          rw [hout q hp]
          exact Function.update_same _ _ _
        · exact hin q hq2 fbq (by
            simp only [Function.update_noteq (hne q hq2)]
            exact hfbq)

/-- A registration call, successful or not, removes nothing from the kernel's
registered ids. -/
theorem kms_step_addfb_superset (s : kms_state) (e : Event) (h : e.is_addfb = true) :
    s.fb_ids ⊆ (kms_step s e).fb_ids := by
  cases e <;> simp [Event.is_addfb] at h <;> simp only [kms_step] <;> split_ifs <;>
    first
    | exact Finset.Subset.refl _
    | exact Finset.subset_insert _ _

/-- A successful registration call leaves its id registered. -/
theorem kms_step_registers (s : kms_state) (e : Event) (id : Nat)
    (h : e.registers = some id) : id ∈ (kms_step s e).fb_ids := by
  cases e <;> simp only [Event.registers] at h <;> first
    | contradiction
    | ( split_ifs at h with hr
        injection h with h
        subst h
        simp [kms_step, hr] )

/-- Registration calls remove nothing from the kernel's registered ids. -/
theorem kms_run_addfb_superset (tr : List Event) (h : ∀ e ∈ tr, e.is_addfb = true) :
    ∀ s : kms_state, s.fb_ids ⊆ (kms_run s tr).fb_ids := by
  induction tr with
  | nil => intro s; exact Finset.Subset.refl _
  | cons e rest ih =>
    intro s
    have hr := ih (fun x hx => h x (List.mem_cons_of_mem _ hx)) (kms_step s e)
    simp only [kms_run, List.foldl_cons] at hr ⊢
    exact (kms_step_addfb_superset s e (h e (List.mem_cons_self _ _))).trans hr

/-- An id registered by a call of a sequence of registration calls is
registered after the sequence. -/
theorem kms_run_addfb_mem (tr : List Event) (h : ∀ e ∈ tr, e.is_addfb = true) :
    ∀ (s : kms_state) (e0 : Event) (id : Nat), e0 ∈ tr → e0.registers = some id →
      id ∈ (kms_run s tr).fb_ids := by
  induction tr with
  | nil => intro s e0 id hm; simp at hm
  | cons e rest ih =>
    intro s e0 id hm hreg
    have hrest : ∀ x ∈ rest, x.is_addfb = true := fun x hx => h x (List.mem_cons_of_mem _ hx)
    simp only [kms_run, List.foldl_cons]
    rcases List.mem_cons.mp hm with heq | hin
    · subst heq
      exact kms_run_addfb_superset rest hrest _ (kms_step_registers s e0 id hreg)
    · exact ih hrest (kms_step s e) e0 id hin hreg

/-- The kernel's objects after two sequences of calls in a row. -/
theorem kms_run_append (s : kms_state) (a b : List Event) :
    kms_run s (a ++ b) = kms_run (kms_run s a) b := by
  simp [kms_run, List.foldl_append]

/-- Every call of a visit of `drm_fb_resume` is a registration call. -/
theorem drm_fb_resume_calls_is_addfb (k : Ptr → addfb_replies) (w : World) (p : Ptr) :
    ∀ e ∈ drm_fb_resume_calls k w p, e.is_addfb = true := by
  unfold drm_fb_resume_calls
  cases hfb : w.fbs p with
  | none => simp
  | some fb =>
    by_cases hs : fb.suspend_safe = true
    · simp [hs]
    · cases hfm : fb.format with
      | none => simp [hs, hfm]
      | some fmt =>
        simp only [if_neg hs, hfm]
        exact drm_fb_addfb_calls_is_addfb _ _ _ _

/-- **C15.** On a registry of distinct live members, each with a format unless
it is suspend-safe, `drm_fb_resume` returns. Its calls are, member by member in
the order of the registry, the calls of one run of `drm_fb_addfb` for each
member that is not suspend-safe, whatever the runs for the earlier members
returned, and none for a suspend-safe member; a member that is not
suspend-safe holds afterwards the object its run of `drm_fb_addfb` left, and
every other object, the backend and the driver objects are unchanged. After
`drm_fb_suspend` followed by `drm_fb_resume`, every member that is not
suspend-safe and whose registration returned 0 is registered with the kernel
under the id stored in its `fb_id`; suspend-safe members are unchanged after
the suspend and after the resume. -/
theorem drm_fb_resume_registers (ks : Ptr → Int) (ka : Ptr → addfb_replies) (w : World)
    (hnodup : w.b.fb_list.Nodup) (hlive : ∀ p ∈ w.b.fb_list, w.fbs p ≠ none)
    (hfmt : ∀ p ∈ w.b.fb_list, ∀ fb, w.fbs p = some fb → fb.suspend_safe = false →
      fb.format ≠ none) :
    (∃ w2 : World,
      drm_fb_resume ka w = .ok w2 ∧
      w2.trace = w.trace ++ w.b.fb_list.flatMap (drm_fb_resume_calls ka w) ∧
      w2.b = w.b ∧ w2.bos = w.bos ∧
      (∀ p, p ∉ w.b.fb_list → w2.fbs p = w.fbs p) ∧
      (∀ p ∈ w.b.fb_list, ∀ fb, w.fbs p = some fb →
        (fb.suspend_safe = true → drm_fb_resume_calls ka w p = [] ∧ w2.fbs p = some fb) ∧
        (∀ fmt, fb.suspend_safe = false → fb.format = some fmt →
          drm_fb_resume_calls ka w p =
            (drm_fb_addfb_calls (ka p) w.b.fb_modifiers fb fmt).2.2 ∧
          w2.fbs p = some (drm_fb_addfb_calls (ka p) w.b.fb_modifiers fb fmt).2.1))) ∧
    (∃ (w1 w3 : World) (tr : List Event),
      drm_fb_suspend ks w = .ok w1 ∧ drm_fb_resume ka w1 = .ok w3 ∧
      w3.trace = w.trace ++ tr ∧ w3.b = w.b ∧ w3.bos = w.bos ∧
      (∀ p ∈ w.b.fb_list, ∀ fb, w.fbs p = some fb →
        (fb.suspend_safe = true → w1.fbs p = some fb ∧ w3.fbs p = some fb) ∧
        (∀ fmt, fb.suspend_safe = false → fb.format = some fmt →
          (drm_fb_addfb_calls (ka p) w.b.fb_modifiers fb fmt).1 = 0 →
          ∃ fb3, w3.fbs p = some fb3 ∧
            ∀ s : kms_state, fb3.fb_id ∈ (kms_run s tr).fb_ids))) := by
  obtain ⟨w2, h2, hb, hbo, htr, hout, hin⟩ :=
    drm_fb_resume_loop_ends ka w.b.fb_list w hnodup hlive hfmt
  constructor
  · refine ⟨w2, h2, htr, hb, hbo, hout, ?_⟩
    intro p hp fb hfb
    obtain ⟨hsafe, hreg⟩ := hin p hp fb hfb
    refine ⟨fun hs => ⟨?_, hsafe hs⟩, fun fmt hs hfm => ⟨?_, hreg fmt hs hfm⟩⟩
    · simp [drm_fb_resume_calls, hfb, hs]
    · simp [drm_fb_resume_calls, hfb, hs, hfm]
  · obtain ⟨w3, h3, hb3, hbo3, htr3, _, hin3⟩ :=
      drm_fb_resume_loop_ends ka w.b.fb_list
        { w with trace := w.trace ++ w.b.fb_list.filterMap (fun p => (w.fbs p).bind (fun fb =>
            if fb.suspend_safe = true then none
            else some (Event.drmModeRmFB fb.fd fb.fb_id))) }
        hnodup hlive hfmt
    refine ⟨_, w3, _, drm_fb_suspend_loop_eq ks w.b.fb_list w hlive, h3,
      htr3.trans (List.append_assoc _ _ _), hb3, hbo3, ?_⟩
    intro p hp fb hfb
    obtain ⟨hsafe, hreg⟩ := hin3 p hp fb hfb
    refine ⟨fun hs => ⟨hfb, hsafe hs⟩, ?_⟩
    intro fmt hs hfm hret
    refine ⟨_, hreg fmt hs hfm, ?_⟩
    intro s
    rw [kms_run_append]
    obtain ⟨e, he, hreg2⟩ := drm_fb_addfb_calls_registers (ka p) w.b.fb_modifiers fb fmt hret
    refine kms_run_addfb_mem _ ?_ _ e _ ?_ hreg2
    · intro x hx
      obtain ⟨q, _, hq⟩ := List.mem_flatMap.mp hx
      exact drm_fb_resume_calls_is_addfb ka _ q x hq
    · refine List.mem_flatMap.mpr ⟨p, hp, ?_⟩
      have hs2 : ¬ (fb.suspend_safe = true) := by simp [hs]
      simp only [drm_fb_resume_calls, hfb, if_neg hs2, hfm]
      exact he

/-- Instance of **C15**: a registry with the ordinary buffer 7 (id 42) and the
suspend-safe buffer 8 (id 50). Suspend removes id 42; resume registers buffer 7
again, under the new id 61, which is then its `fb_id` and known to the kernel;
buffer 8 is untouched. -/
theorem drm_fb_resume_registers_witness :
    ∃ (w1 w3 : World) (tr : List Event),
      drm_fb_suspend (fun _ => 0) sample_world_two = .ok w1 ∧
      drm_fb_resume (fun _ => sample_addfb_resume) w1 = .ok w3 ∧
      w3.trace = sample_world_two.trace ++ tr ∧
      w1.fbs 8 = some sample_fb_safe ∧ w3.fbs 8 = some sample_fb_safe ∧
      ∃ fb3, w3.fbs 7 = some fb3 ∧ ∀ s : kms_state, fb3.fb_id ∈ (kms_run s tr).fb_ids := by
  obtain ⟨w1, w3, tr, h1, h3, htr, _, _, hall⟩ :=
    (drm_fb_resume_registers (fun _ => 0) (fun _ => sample_addfb_resume) sample_world_two
      (by decide) (by decide)
      (by
        intro p hp fb hfb _
        have hl : sample_world_two.b.fb_list = [7, 8] := rfl
        rw [hl] at hp
        have hp2 : p = 7 ∨ p = 8 := by simpa using hp
        rcases hp2 with rfl | rfl
        · have : fb = sample_fb_dumb := by
            have h7 : sample_world_two.fbs 7 = some sample_fb_dumb := rfl
            rw [h7] at hfb
            injection hfb with hfb
            exact hfb.symm
          subst this
          decide
        · have : fb = sample_fb_safe := by
            have h8 : sample_world_two.fbs 8 = some sample_fb_safe := rfl
            rw [h8] at hfb
            injection hfb with hfb
            exact hfb.symm
          subst this
          decide)).2
  obtain ⟨hs8, _⟩ := hall 8 (by decide) sample_fb_safe rfl
  obtain ⟨_, hr7⟩ := hall 7 (by decide) sample_fb_dumb rfl
  obtain ⟨hw1, hw3⟩ := hs8 rfl
  exact ⟨w1, w3, tr, h1, h3, htr, hw1, hw3, hr7 sample_xrgb rfl rfl rfl⟩

/-! ## Opaque substitution -/

/-- The plane description read by `drm_fb_get_from_bo` leaves the format and
the link of the new buffer as they were. -/
theorem drm_fb_get_from_bo_fill_inv (cfg : build_config) (g : gbm_bo) (fb0 fb1 : drm_fb)
    (h : drm_fb_get_from_bo_fill cfg g fb0 = .ok fb1) :
    fb1.format = fb0.format ∧ fb1.backend_link = fb0.backend_link := by
  unfold drm_fb_get_from_bo_fill at h
  split_ifs at h
  · split at h
    · contradiction
    · injection h with h
      subst h
      exact ⟨rfl, rfl⟩
  · injection h with h
    subst h
    exact ⟨rfl, rfl⟩

/-- A buffer returned by `drm_fb_get_from_bo` for a driver object that was not
yet wrapped carries the format the caller asked for: the resolved format, or
its opaque substitute. -/
theorem drm_fb_get_from_bo_format (cfg : build_config) (fmts : pixel_formats)
    (k : get_from_bo_replies) (w : World) (bo : Ptr) (g : gbm_bo) ( is_opaque : Bool)
    (type : drm_fb_type) (f : pixel_format_info) (r : Ptr) (w1 : World)
    (hg : w.bos bo = some g) (hud : g.user_data = NULL)
    (hf : fmts.pixel_format_get_info g.format = some f)
    (h : drm_fb_get_from_bo cfg fmts k w bo is_opaque type = .ok (r, w1)) (hr : r ≠ NULL) :
    ∃ fb, w1.fbs r = some fb ∧
      fb.format = some (if is_opaque = true then fmts.pixel_format_get_opaque_substitute f
        else f) := by
  have hud2 : ¬ (g.user_data ≠ NULL) := by simp [hud]
  have key : ∀ (fb2 : drm_fb) (fmt2 : pixel_format_info), fb2.format = some fmt2 →
      fb2.backend_link = wl_link.self →
      (match drm_fb_addfb k.addfb (w.store k.zalloc fb2) k.zalloc with
        | .error e => .error e
        | .ok (ret, w1) =>
          if ret ≠ 0 then .ok (NULL, w1.free k.zalloc)
          else
            match drm_fb_remember w1 k.zalloc with
            | .error e => .error e
            | .ok w2 =>
              .ok (k.zalloc,
                { (w2.emit (Event.gbm_bo_set_user_data bo k.zalloc)) with
                  bos := (Function.update (w2.emit (Event.gbm_bo_set_user_data bo
                    k.zalloc)).bos bo
                    (some { g with user_data := k.zalloc, destroy_user_data := true })) }) :
          Except Fault (Ptr × World)) = .ok (r, w1) →
      ∃ fb, w1.fbs r = some fb ∧ fb.format = some fmt2 := by
    intro fb2 fmt2 hf2 hl2 h2
    obtain ⟨hlink, _, _, _, _⟩ := drm_fb_addfb_calls_fields k.addfb w.b.fb_modifiers fb2 fmt2
    rw [drm_fb_addfb_eq k.addfb (w.store k.zalloc fb2) k.zalloc fb2 fmt2
      (World.store_fbs_same _ _ _) hf2] at h2
    simp only [World.store] at h2
    split_ifs at h2 with hret
    · injection h2 with h2
      injection h2 with h2 _
      exact absurd h2.symm hr
    · rw [drm_fb_remember_eq _ k.zalloc
        (drm_fb_addfb_calls k.addfb w.b.fb_modifiers fb2 fmt2).2.1 (by simp)
        (by rw [hlink, hl2]; decide)] at h2
      injection h2 with h2
      injection h2 with h2 h3
      subst h2 h3
      refine ⟨_, Function.update_same _ _ _, ?_⟩
      rw [drm_fb_addfb_calls_fb]
      exact hf2
  unfold drm_fb_get_from_bo at h
  simp only [hg, if_neg hud2] at h
  by_cases hz : k.zalloc = NULL
  · rw [if_pos hz] at h
    injection h with h
    injection h with h _
    exact absurd h.symm hr
  · rw [if_neg hz] at h
    cases hfill : drm_fb_get_from_bo_fill cfg g
        (drm_fb_get_from_bo_alloc fmts w.b.drm_fd bo g type) with
    | error e => simp [hfill] at h
    | ok fb1 =>
      obtain ⟨hfmt1, hl1⟩ := drm_fb_get_from_bo_fill_inv cfg g _ fb1 hfill
      have hfmt2 : fb1.format = some f := by
        rw [hfmt1]
        exact hf
      have hl2 : fb1.backend_link = wl_link.self := by
        rw [hl1]
        rfl
      simp only [hfill, hfmt2] at h
      cases is_opaque <;> simp only [Bool.false_eq_true, if_false, if_true] at h ⊢
      · split at h
        · injection h with h
          injection h with h _
          exact absurd h.symm hr
        · exact key fb1 f hfmt2 hl2 h
      · split at h
        · injection h with h
          injection h with h _
          exact absurd h.symm hr
        · exact key { fb1 with format := some (fmts.pixel_format_get_opaque_substitute f) } _
            rfl hl2 h

/-- A buffer returned by `drm_fb_get_from_dmabuf` carries the format the caller
asked for: the resolved format, or its opaque substitute. -/
theorem drm_fb_get_from_dmabuf_format (cfg : build_config) (fmts : pixel_formats)
    (k : dmabuf_replies) (w : World) (dmabuf : dmabuf_attributes) ( is_opaque : Bool)
    (f : pixel_format_info) (r : Ptr) (w1 : World)
    (hf : fmts.pixel_format_get_info dmabuf.format = some f)
    (h : drm_fb_get_from_dmabuf cfg fmts k w dmabuf is_opaque = .ok (r, w1)) (hr : r ≠ NULL) :
    ∃ fb, w1.fbs r = some fb ∧
      fb.format = some (if is_opaque = true then fmts.pixel_format_get_opaque_substitute f
        else f) := by
  have hflags : dmabuf.flags = 0 := by
    by_contra hne
    unfold drm_fb_get_from_dmabuf at h
    rw [if_pos hne] at h
    injection h with h
    injection h with h _
    exact hr h.symm
  have hz : k.zalloc ≠ NULL := by
    intro hz
    have hf0 : ¬ (dmabuf.flags ≠ 0) := by simp [hflags]
    unfold drm_fb_get_from_dmabuf at h
    rw [if_neg hf0, if_pos hz] at h
    injection h with h
    injection h with h _
    exact hr h.symm
  have hret : k.import_ret ≠ NULL := by
    intro hret
    rw [drm_fb_get_from_dmabuf_import_failed cfg fmts k w dmabuf is_opaque hflags hz
      (Or.inl hret)] at h
    contradiction
  have hhave : dmabuf.needs_modifier_import → cfg.HAVE_GBM_FD_IMPORT = true := by
    intro hneeds
    by_contra hno
    rw [drm_fb_get_from_dmabuf_import_failed cfg fmts k w dmabuf is_opaque hflags hz
      (Or.inr ⟨hneeds, by simpa using hno⟩)] at h
    contradiction
  obtain ⟨r2, w2, calls, h1, _, h3⟩ := drm_fb_get_from_dmabuf_import_ok_ends cfg fmts k w
    dmabuf is_opaque hflags hz hret hhave
  rw [h] at h1
  injection h1 with h1
  injection h1 with hr2 hw2
  subst hr2 hw2
  rcases h3 with ⟨hn, _⟩ | ⟨hp, _, _, fb, fmt, _, _, hfmt, _, _, hfb, hform, _⟩
  · exact absurd hn hr
  · rw [hf] at hfmt
    injection hfmt with hfmt
    subst hfmt
    rw [hp]
    exact ⟨fb, hfb, hform⟩

/-- `drm_fb_set_buffer` leaves the format of the buffer as it is. -/
theorem drm_fb_set_buffer_format (w w2 : World) (p buffer buffer_release : Ptr) (fb : drm_fb)
    (hfb : w.fbs p = some fb)
    (h : drm_fb_set_buffer w p buffer buffer_release = .ok w2) :
    ∃ fb2, w2.fbs p = some fb2 ∧ fb2.format = fb.format := by
  unfold drm_fb_set_buffer at h
  rw [World.load_of_fbs w p fb hfb] at h
  simp only at h
  split at h
  · contradiction
  · split at h
    · contradiction
    · injection h with h
      subst h
      exact ⟨_, World.store_fbs_same _ _ _, rfl⟩

/-- A buffer returned by `drm_fb_get_from_view` carries the format the view
asks for: the resolved format of the attached buffer, or its opaque substitute
when the view is opaque. The driver object imported for a client buffer is a
new one, so `drm_fb_get_from_bo` wraps it. -/
theorem drm_fb_get_from_view_format (cfg : build_config) (fmts : pixel_formats)
    (k : view_replies) (w : World) (ev : view_inputs) (f : pixel_format_info) (r : Ptr)
    (w1 : World)
    (hd : ∀ d, ev.dmabuf = some d → fmts.pixel_format_get_info d.format = some f)
    (hc : ev.dmabuf = none → fmts.pixel_format_get_info k.import_bo.format = some f)
    (h : drm_fb_get_from_view cfg fmts k w ev = .ok (r, w1)) (hr : r ≠ NULL) :
    ∃ fb, w1.fbs r = some fb ∧
      fb.format = some (if ev.view_is_opaque = true then
        fmts.pixel_format_get_opaque_substitute f else f) := by
  have hnull : ∀ w0 : World, (Except.ok (NULL, w0) : Except Fault (Ptr × World)) =
      .ok (r, w1) → False := by
    intro w0 h0
    injection h0 with h0
    injection h0 with h0 _
    exact hr h0.symm
  unfold drm_fb_get_from_view at h
  split at h
  · exact (hnull _ h).elim
  · split at h
    · exact (hnull _ h).elim
    · split at h
      · exact (hnull _ h).elim
      · split at h
        · exact (hnull _ h).elim
        · split at h
          · exact (hnull _ h).elim
          · split at h
            · exact (hnull _ h).elim
            · cases hdma : ev.dmabuf with
              | some d =>
                simp only [hdma] at h
                cases hget : drm_fb_get_from_dmabuf cfg fmts k.dmabuf w d ev.view_is_opaque with
                | error e => simp [hget] at h
                | ok res =>
                  obtain ⟨fbp, wa⟩ := res
                  simp only [hget] at h
                  by_cases hz : fbp = NULL
                  · rw [if_pos hz] at h
                    exact (hnull _ h).elim
                  · rw [if_neg hz] at h
                    obtain ⟨fb, hfb, hfmt⟩ := drm_fb_get_from_dmabuf_format cfg fmts k.dmabuf w d
                      ev.view_is_opaque f fbp wa (hd d hdma) hget hz
                    cases hset : drm_fb_set_buffer wa fbp ev.buffer ev.buffer_release with
                    | error e => simp [hset] at h
                    | ok wb =>
                      simp only [hset] at h
                      injection h with h
                      injection h with h1 h2
                      subst h1 h2
                      obtain ⟨fb2, hfb2, hfmt2⟩ :=
                        drm_fb_set_buffer_format wa wb fbp ev.buffer ev.buffer_release fb hfb hset
                      exact ⟨fb2, hfb2, hfmt2.trans hfmt⟩
              | none =>
                simp only [hdma] at h
                by_cases hi : k.import_ret = NULL
                · rw [if_pos hi] at h
                  exact (hnull _ h).elim
                · rw [if_neg hi] at h
                  cases hget : drm_fb_get_from_bo cfg fmts k.bo
                      ((w.emit (Event.gbm_bo_import_wl_buffer w.b.gbm ev.resource
                        k.import_ret)).gbm_import k.import_ret k.import_bo)
                      k.import_ret ev.view_is_opaque drm_fb_type.BUFFER_CLIENT with
                  | error e => simp [hget] at h
                  | ok res =>
                    obtain ⟨fbp, wa⟩ := res
                    simp only [hget] at h
                    by_cases hz : fbp = NULL
                    · rw [if_pos hz] at h
                      split at h
                      · contradiction
                      · exact (hnull _ h).elim
                    · rw [if_neg hz] at h
                      obtain ⟨fb, hfb, hfmt⟩ := drm_fb_get_from_bo_format cfg fmts k.bo _
                        k.import_ret
                        { k.import_bo with user_data := NULL, destroy_user_data := false }
                        ev.view_is_opaque drm_fb_type.BUFFER_CLIENT f fbp wa
                        (by simp [World.gbm_import, World.emit, hi]) rfl (hc hdma) hget hz
                      cases hset : drm_fb_set_buffer wa fbp ev.buffer ev.buffer_release with
                      | error e => simp [hset] at h
                      | ok wb =>
                        simp only [hset] at h
                        injection h with h
                        injection h with h1 h2
                        subst h1 h2
                        obtain ⟨fb2, hfb2, hfmt2⟩ :=
                          drm_fb_set_buffer_format wa wb fbp ev.buffer ev.buffer_release fb hfb
                            hset
                        exact ⟨fb2, hfb2, hfmt2.trans hfmt⟩

/-- **C16.** Let the format code of the buffer resolve to the format info `f`.
Every run of `drm_fb_get_from_bo` that wraps a driver object (one not yet
wrapped) and returns a buffer, and every run of `drm_fb_get_from_dmabuf` that
returns a buffer, returns one whose format is
`pixel_format_get_opaque_substitute(f)` when the caller passed
`is_opaque = true` and `f` itself when it passed `is_opaque = false`. So does
every run of `drm_fb_get_from_view` that returns a buffer, with the opacity of
the view for `is_opaque`: the driver object it imports for a client buffer is
always a new one. -/
theorem drm_fb_get_format_substitute (cfg : build_config) (fmts : pixel_formats) (w : World)
    ( is_opaque : Bool) (f : pixel_format_info) :
    (∀ (k : get_from_bo_replies) (bo : Ptr) (g : gbm_bo) (type : drm_fb_type) (r : Ptr)
        (w1 : World),
      w.bos bo = some g → g.user_data = NULL →
      fmts.pixel_format_get_info g.format = some f →
      drm_fb_get_from_bo cfg fmts k w bo is_opaque type = .ok (r, w1) → r ≠ NULL →
      ∃ fb, w1.fbs r = some fb ∧
        ( is_opaque = true → fb.format = some (fmts.pixel_format_get_opaque_substitute f)) ∧
        ( is_opaque = false → fb.format = some f)) ∧
    (∀ (k : dmabuf_replies) (dmabuf : dmabuf_attributes) (r : Ptr) (w1 : World),
      fmts.pixel_format_get_info dmabuf.format = some f →
      drm_fb_get_from_dmabuf cfg fmts k w dmabuf is_opaque = .ok (r, w1) → r ≠ NULL →
      ∃ fb, w1.fbs r = some fb ∧
        ( is_opaque = true → fb.format = some (fmts.pixel_format_get_opaque_substitute f)) ∧
        ( is_opaque = false → fb.format = some f)) ∧
    (∀ (k : view_replies) (ev : view_inputs) (r : Ptr) (w1 : World),
      ev.view_is_opaque = is_opaque →
      (∀ d, ev.dmabuf = some d → fmts.pixel_format_get_info d.format = some f) →
      (ev.dmabuf = none → fmts.pixel_format_get_info k.import_bo.format = some f) →
      drm_fb_get_from_view cfg fmts k w ev = .ok (r, w1) → r ≠ NULL →
      ∃ fb, w1.fbs r = some fb ∧
        ( is_opaque = true → fb.format = some (fmts.pixel_format_get_opaque_substitute f)) ∧
        ( is_opaque = false → fb.format = some f)) := by
  refine ⟨?_, ?_, ?_⟩
  · intro k bo g type r w1 hg hud hf h hr
    obtain ⟨fb, hfb, hfmt⟩ :=
      drm_fb_get_from_bo_format cfg fmts k w bo g is_opaque type f r w1 hg hud hf h hr
    refine ⟨fb, hfb, fun ho => ?_, fun ho => ?_⟩
    · rw [hfmt, if_pos ho]
    · rw [hfmt, ho]
      rfl
  · intro k dmabuf r w1 hf h hr
    obtain ⟨fb, hfb, hfmt⟩ :=
      drm_fb_get_from_dmabuf_format cfg fmts k w dmabuf is_opaque f r w1 hf h hr
    refine ⟨fb, hfb, fun ho => ?_, fun ho => ?_⟩
    · rw [hfmt, if_pos ho]
    · rw [hfmt, ho]
      rfl
  · intro k ev r w1 hop hd hc h hr
    obtain ⟨fb, hfb, hfmt⟩ := drm_fb_get_from_view_format cfg fmts k w ev f r w1 hd hc h hr
    rw [hop] at hfmt
    refine ⟨fb, hfb, fun ho => ?_, fun ho => ?_⟩
    · rw [hfmt, if_pos ho]
    · rw [hfmt, ho]
      rfl

/-- Instance of **C16**: an ARGB8888 driver object, an ARGB8888 dmabuf
descriptor and an opaque view with an ARGB8888 client buffer. The three imports
succeed and the buffer carries XRGB8888, the alpha-free substitute. -/
theorem drm_fb_get_format_substitute_witness :
    (∃ (w1 : World) (fb : drm_fb),
      drm_fb_get_from_bo sample_build sample_formats sample_bo_replies sample_world_argb 200
        true drm_fb_type.BUFFER_CLIENT = .ok (7, w1) ∧
      w1.fbs 7 = some fb ∧ fb.format = some sample_xrgb) ∧
    (∃ (w1 : World) (fb : drm_fb),
      drm_fb_get_from_dmabuf sample_build sample_formats sample_dmabuf_replies_argb
        sample_empty sample_dmabuf_argb true = .ok (7, w1) ∧
      w1.fbs 7 = some fb ∧ fb.format = some sample_xrgb) ∧
    (∃ (w1 : World) (fb : drm_fb),
      drm_fb_get_from_view sample_build sample_formats
        { sample_view_replies with import_bo := sample_bo_argb } sample_empty
        { sample_view_shm with shm_buffer := NULL } = .ok (7, w1) ∧
      w1.fbs 7 = some fb ∧ fb.format = some sample_xrgb) := by
  have hbo : drm_fb_get_from_bo sample_build sample_formats sample_bo_replies
      sample_world_argb 200 true drm_fb_type.BUFFER_CLIENT = .ok (7, _) := rfl
  have hdma : drm_fb_get_from_dmabuf sample_build sample_formats sample_dmabuf_replies_argb
      sample_empty sample_dmabuf_argb true = .ok (7, _) := rfl
  have hview : drm_fb_get_from_view sample_build sample_formats
      { sample_view_replies with import_bo := sample_bo_argb } sample_empty
      { sample_view_shm with shm_buffer := NULL } = .ok (7, _) := rfl
  obtain ⟨fb1, h1, h1t, _⟩ :=
    (drm_fb_get_format_substitute sample_build sample_formats sample_world_argb true
      sample_argb).1 sample_bo_replies 200 sample_bo_argb drm_fb_type.BUFFER_CLIENT 7 _
      rfl rfl rfl hbo (by decide)
  obtain ⟨fb2, h2, h2t, _⟩ :=
    (drm_fb_get_format_substitute sample_build sample_formats sample_empty true
      sample_argb).2.1 sample_dmabuf_replies_argb sample_dmabuf_argb 7 _ rfl hdma (by decide)
  obtain ⟨fb3, h3, h3t, _⟩ :=
    (drm_fb_get_format_substitute sample_build sample_formats sample_empty true
      sample_argb).2.2 { sample_view_replies with import_bo := sample_bo_argb }
      { sample_view_shm with shm_buffer := NULL } 7 _ rfl
      (fun d hd => by simp [sample_view_shm] at hd) (fun _ => rfl) hview (by decide)
  exact ⟨⟨_, fb1, hbo, h1, h1t rfl⟩, ⟨_, fb2, hdma, h2, h2t rfl⟩, ⟨_, fb3, hview, h3, h3t rfl⟩⟩

/-! ## Registry membership at teardown -/

/-- The registry after a link was removed from it: in a registry without
duplicates, where the buffer is a member exactly when its link is linked, the
buffer is gone and the other members are there in their order. -/
theorem wl_list_remove_registry (l : List Ptr) (p : Ptr) (link : wl_link) (hnodup : l.Nodup)
    (hmem : p ∈ l ↔ link = wl_link.linked) :
    (if link = wl_link.linked then l.erase p else l) = l.filter (fun q => q != p) ∧
    p ∉ (if link = wl_link.linked then l.erase p else l) := by
  by_cases hl : link = wl_link.linked
  · rw [if_pos hl]
    exact ⟨hnodup.erase_eq_filter p, hnodup.not_mem_erase⟩
  · rw [if_neg hl]
    have hp : p ∉ l := fun h => hl (hmem.mp h)
    refine ⟨(List.filter_eq_self.mpr ?_).symm, hp⟩
    intro a ha
    simp only [bne_iff_ne, ne_eq]
    intro h
    exact hp (h ▸ ha)

/-- The steps of `drm_fb_destroy` on a live buffer with an initialised link:
first `drm_fb_forget`, which makes no call and takes the buffer out of the
registry, then the removal of the kernel framebuffer when `fb_id` is non-zero,
the release of the buffer references, and `free`. -/
theorem drm_fb_destroy_steps (w : World) (p : Ptr) (fb : drm_fb) (hfb : w.fbs p = some fb)
    (hl : fb.backend_link ≠ wl_link.null) (hnodup : w.b.fb_list.Nodup)
    (hmem : p ∈ w.b.fb_list ↔ fb.backend_link = wl_link.linked) :
    ∃ w_forgot w2 : World,
      drm_fb_forget w p = .ok w_forgot ∧ w_forgot.trace = w.trace ∧
      p ∉ w_forgot.b.fb_list ∧
      drm_fb_destroy w p = .ok w2 ∧
      w2.trace = w_forgot.trace ++
        ((if fb.fb_id ≠ 0 then [Event.drmModeRmFB fb.fd fb.fb_id] else []) ++
          [Event.weston_buffer_reference fb.buffer_ref NULL,
           Event.weston_buffer_release_reference fb.buffer_release_ref NULL,
           Event.free p]) ∧
      w2.b.fb_list = w.b.fb_list.filter (fun q => q != p) ∧ p ∉ w2.b.fb_list ∧
      w2.fbs = Function.update w.fbs p none ∧ w2.bos = w.bos := by
  obtain ⟨hfilter, hnot⟩ := wl_list_remove_registry w.b.fb_list p fb.backend_link hnodup hmem
  exact ⟨_, _, drm_fb_forget_eq w p fb hfb hl, rfl, hnot, drm_fb_destroy_eq w p fb hfb hl, rfl,
    hfilter, hnot, rfl, rfl⟩

/-- The last call of `drm_fb_unref`, once the teardown of the buffer's origin
has returned: the destroy callback is invoked if one is registered. -/
theorem drm_fb_unref_finish (cfg : build_config) (w : World) (p : Ptr) (fb : drm_fb)
    (ws : World) (hp : p ≠ NULL) (hfb : w.fbs p = some fb) (hn : fb.refcnt = 1)
    (hs : drm_fb_unref_switch cfg (w.store p { fb with refcnt := 0 }) p
      { fb with refcnt := 0 } = .ok ws) :
    ∃ w1 : World,
      drm_fb_unref cfg w p = .ok w1 ∧ w1.b = ws.b ∧ w1.fbs = ws.fbs ∧ w1.bos = ws.bos ∧
      w1.trace = ws.trace ++
        (if fb.on_destroy ≠ NULL then [Event.on_destroy fb.on_destroy fb.on_destroy_priv]
         else []) := by
  rw [drm_fb_unref_last cfg w p fb hp hfb hn, hs]
  by_cases hc : fb.on_destroy ≠ NULL
  · simp only [if_pos hc]
    exact ⟨_, rfl, rfl, rfl, rfl, rfl⟩
  · simp only [if_neg hc]
    exact ⟨_, rfl, rfl, rfl, rfl, by simp⟩


/-- **C17**, counterexample. A GPU-surface-backed buffer with one reference is
a member of the registry. `drm_fb_unref` drops the last reference, releases the
buffer to its surface and returns, and the buffer is still a member of the
registry and still a live object. -/
theorem drm_fb_unref_surface_stays_registered :
    sample_world_surface.fbs 7 = some sample_fb_surface ∧
    sample_fb_surface.type = drm_fb_type.BUFFER_GBM_SURFACE ∧
    sample_fb_surface.refcnt = 1 ∧ 7 ∈ sample_world_surface.b.fb_list ∧
    ∃ w1 : World,
      drm_fb_unref sample_build sample_world_surface 7 = .ok w1 ∧
      7 ∈ w1.b.fb_list ∧ w1.fbs 7 = some { sample_fb_surface with refcnt := 0 } ∧
      w1.trace = [Event.gbm_surface_release_buffer 500 200, Event.on_destroy 900 901] := by
  refine ⟨rfl, rfl, rfl, by decide, _, rfl, by decide, rfl, rfl⟩

/-- **C17**, as amended. Let `drm_fb_unref` drop the last reference of a live
buffer, in a registry without duplicates where the buffer is a member exactly
when its link is linked. It returns. A GPU-surface-backed buffer is only
released to its surface: the backend and the buffer's membership are as before.
A buffer of any other origin is not a member of the registry afterwards, the
other members are there in their order, and the object is freed. The removal
from the registry is the first step of `drm_fb_destroy`, not of the teardown:
`drm_fb_destroy` starts from a state `w_mid` in which the backend is as before
and the calls `pre` have been made — for a dumb buffer the unmapping (when
mapped) and the kernel's destroy-dumb, for the other origins `gbm_bo_destroy`,
which for a dmabuf import has released the driver object by then; there
`drm_fb_forget` removes the buffer without a call, and the kernel
deregistration (when `fb_id` is non-zero), the release of the buffer
references and `free` follow, then the destroy callback. -/
theorem drm_fb_unref_registry (cfg : build_config) (w : World) (p : Ptr) (fb : drm_fb)
    (hlive : w.live cfg p fb) (hn : fb.refcnt = 1) (hnodup : w.b.fb_list.Nodup)
    (hmem : p ∈ w.b.fb_list ↔ fb.backend_link = wl_link.linked) :
    ∃ w1 : World,
      drm_fb_unref cfg w p = .ok w1 ∧
      (fb.type = drm_fb_type.BUFFER_GBM_SURFACE →
        w1.b = w.b ∧ (p ∈ w1.b.fb_list ↔ p ∈ w.b.fb_list) ∧
        w1.fbs p = some { fb with refcnt := 0 }) ∧
      (fb.type ≠ drm_fb_type.BUFFER_GBM_SURFACE →
        p ∉ w1.b.fb_list ∧ w1.b.fb_list = w.b.fb_list.filter (fun q => q != p) ∧
        w1.fbs p = none ∧
        ∃ (w_mid w_forgot w2 : World) (pre : List Event),
          w_mid.trace = w.trace ++ pre ∧
          (fb.type = drm_fb_type.BUFFER_PIXMAN_DUMB →
            pre = (if fb.map ≠ NULL ∧ fb.size > 0 then [Event.munmap fb.map fb.size] else []) ++
              [Event.DRM_IOCTL_MODE_DESTROY_DUMB fb.fd (fb.handles.get 0)]) ∧
          (fb.type ≠ drm_fb_type.BUFFER_PIXMAN_DUMB → pre = [Event.gbm_bo_destroy fb.bo]) ∧
          (fb.type = drm_fb_type.BUFFER_DMABUF → w_mid.bos fb.bo = none) ∧
          w_mid.b = w.b ∧ w_mid.fbs p = some { fb with refcnt := 0 } ∧
          drm_fb_forget w_mid p = .ok w_forgot ∧ w_forgot.trace = w_mid.trace ∧
          p ∉ w_forgot.b.fb_list ∧
          drm_fb_destroy w_mid p = .ok w2 ∧
          w2.trace = w_forgot.trace ++
            ((if fb.fb_id ≠ 0 then [Event.drmModeRmFB fb.fd fb.fb_id] else []) ++
              [Event.weston_buffer_reference fb.buffer_ref NULL,
               Event.weston_buffer_release_reference fb.buffer_release_ref NULL,
               Event.free p]) ∧
          w1.b = w2.b ∧ w1.fbs = w2.fbs ∧
          w1.trace = w2.trace ++
            (if fb.on_destroy ≠ NULL then [Event.on_destroy fb.on_destroy fb.on_destroy_priv]
             else [])) := by
  obtain ⟨hp, hfb, hl, ht⟩ := hlive
  -- the teardown from a state `w_mid` handed to `drm_fb_destroy`
  have assemble : ∀ (w_mid : World) (pre : List Event),
      w_mid.trace = w.trace ++ pre → w_mid.b = w.b →
      w_mid.fbs p = some { fb with refcnt := 0 } →
      (∀ w2, drm_fb_destroy w_mid p = .ok w2 → ∃ ws : World,
        drm_fb_unref_switch cfg (w.store p { fb with refcnt := 0 }) p { fb with refcnt := 0 } =
          .ok ws ∧ ws.b = w2.b ∧ ws.fbs = w2.fbs ∧ ws.trace = w2.trace) →
      ∃ w1 : World,
        drm_fb_unref cfg w p = .ok w1 ∧
        p ∉ w1.b.fb_list ∧ w1.b.fb_list = w.b.fb_list.filter (fun q => q != p) ∧
        w1.fbs p = none ∧
        ∃ (w_forgot w2 : World),
          drm_fb_forget w_mid p = .ok w_forgot ∧ w_forgot.trace = w_mid.trace ∧
          p ∉ w_forgot.b.fb_list ∧
          drm_fb_destroy w_mid p = .ok w2 ∧
          w2.trace = w_forgot.trace ++
            ((if fb.fb_id ≠ 0 then [Event.drmModeRmFB fb.fd fb.fb_id] else []) ++
              [Event.weston_buffer_reference fb.buffer_ref NULL,
               Event.weston_buffer_release_reference fb.buffer_release_ref NULL,
               Event.free p]) ∧
          w1.b = w2.b ∧ w1.fbs = w2.fbs ∧
          w1.trace = w2.trace ++
            (if fb.on_destroy ≠ NULL then [Event.on_destroy fb.on_destroy fb.on_destroy_priv]
             else []) := by
    intro w_mid pre htr hb hmid hsw
    obtain ⟨w_forgot, w2, hf1, hf2, hf3, hd1, hd2, hd3, hd4, hd5, _⟩ :=
      drm_fb_destroy_steps w_mid p { fb with refcnt := 0 } hmid hl (by rw [hb]; exact hnodup)
        (by rw [hb]; exact hmem)
    obtain ⟨ws, hs1, hs2, hs3, hs4⟩ := hsw w2 hd1
    obtain ⟨w1, hu1, hu2, hu3, _, hu5⟩ := drm_fb_unref_finish cfg w p fb ws hp hfb hn hs1
    refine ⟨w1, hu1, ?_, ?_, ?_, w_forgot, w2, hf1, hf2, hf3, hd1, hd2, hu2.trans hs2,
      hu3.trans hs3, by rw [hu5, hs4]⟩
    · rw [hu2, hs2]
      exact hd4
    · rw [hu2, hs2, hd3, hb]
    · rw [hu3, hs3, hd5]
      exact Function.update_same _ _ _
  -- the teardown of a buffer wrapped around a driver object: libgbm runs the hook
  have wrapped : fb.type = drm_fb_type.BUFFER_CLIENT ∨ fb.type = drm_fb_type.BUFFER_CURSOR →
      cfg.BUILD_DRM_GBM = true →
      (∃ g, w.bos fb.bo = some g ∧ g.user_data = p ∧ g.destroy_user_data = true) →
      ∀ w2, drm_fb_destroy
          ((w.store p { fb with refcnt := 0 }).emit (Event.gbm_bo_destroy fb.bo)) p = .ok w2 →
        ∃ ws : World,
          drm_fb_unref_switch cfg (w.store p { fb with refcnt := 0 }) p
            { fb with refcnt := 0 } = .ok ws ∧
          ws.b = w2.b ∧ ws.fbs = w2.fbs ∧ ws.trace = w2.trace := by
    intro htype hbuild hbo w2 hd
    obtain ⟨g, hg, hud, hh⟩ := hbo
    refine ⟨{ w2 with bos := Function.update w2.bos fb.bo none }, ?_, rfl, rfl, rfl⟩
    have hsw : drm_fb_unref_switch cfg (w.store p { fb with refcnt := 0 }) p
        { fb with refcnt := 0 } = gbm_bo_destroy (w.store p { fb with refcnt := 0 }) fb.bo := by
      rcases htype with htype | htype <;>
        simp only [drm_fb_unref_switch, htype, hbuild, if_true]
    have hg0 : (w.store p { fb with refcnt := 0 }).bos fb.bo = some g := hg
    have hty : ({ fb with refcnt := 0 } : drm_fb).type = drm_fb_type.BUFFER_GBM_SURFACE ∨
        ({ fb with refcnt := 0 } : drm_fb).type = drm_fb_type.BUFFER_CLIENT ∨
        ({ fb with refcnt := 0 } : drm_fb).type = drm_fb_type.BUFFER_CURSOR := by
      rcases htype with htype | htype
      · exact Or.inr (Or.inl htype)
      · exact Or.inr (Or.inr htype)
    rw [hsw]
    unfold gbm_bo_destroy
    simp only [hg0, hh, if_true]
    unfold drm_fb_destroy_gbm
    rw [hud, World.load_of_fbs _ p { fb with refcnt := 0 }
      (by simpa [World.emit] using World.store_fbs_same w p { fb with refcnt := 0 })]
    simp only [if_pos hty, hd]
  have hcases : fb.type = drm_fb_type.BUFFER_INVALID ∨ fb.type = drm_fb_type.BUFFER_CLIENT ∨
      fb.type = drm_fb_type.BUFFER_DMABUF ∨ fb.type = drm_fb_type.BUFFER_PIXMAN_DUMB ∨
      fb.type = drm_fb_type.BUFFER_GBM_SURFACE ∨ fb.type = drm_fb_type.BUFFER_CURSOR := by
    cases fb.type <;> simp
  rcases hcases with htype | htype | htype | htype | htype | htype <;>
    simp only [htype] at ht
  · -- client
    obtain ⟨w1, h1, h2, h3, h4, w_forgot, w2, h5⟩ := assemble
      ((w.store p { fb with refcnt := 0 }).emit (Event.gbm_bo_destroy fb.bo))
      [Event.gbm_bo_destroy fb.bo] rfl rfl (World.store_fbs_same _ _ _)
      (wrapped (Or.inl htype) ht.1 ht.2)
    exact ⟨w1, h1, fun hc => absurd (htype.symm.trans hc) (by decide), fun _ => ⟨h2, h3, h4,
      (w.store p { fb with refcnt := 0 }).emit (Event.gbm_bo_destroy fb.bo), w_forgot, w2,
      [Event.gbm_bo_destroy fb.bo], rfl, fun hc => absurd (htype.symm.trans hc) (by decide),
      fun _ => rfl, fun hc => absurd (htype.symm.trans hc) (by decide), rfl,
      World.store_fbs_same _ _ _, h5⟩⟩
  · -- dmabuf
    obtain ⟨hbuild, hbo, g, hg, hh⟩ := ht
    obtain ⟨w1, h1, h2, h3, h4, w_forgot, w2, h5⟩ := assemble
      { (w.store p { fb with refcnt := 0 }) with
        trace := w.trace ++ [Event.gbm_bo_destroy fb.bo],
        bos := Function.update w.bos fb.bo none }
      [Event.gbm_bo_destroy fb.bo] rfl rfl (World.store_fbs_same _ _ _)
      (fun w2 hd => by
        refine ⟨w2, ?_, rfl, rfl, rfl⟩
        have hsw : drm_fb_unref_switch cfg (w.store p { fb with refcnt := 0 }) p
            { fb with refcnt := 0 } =
            drm_fb_destroy_dmabuf (w.store p { fb with refcnt := 0 }) p := by
          simp only [drm_fb_unref_switch, htype, hbuild, if_true]
        have hbo0 : ({ fb with refcnt := 0 } : drm_fb).bo ≠ NULL := hbo
        rw [hsw]
        unfold drm_fb_destroy_dmabuf
        rw [World.load_of_fbs _ p { fb with refcnt := 0 } (World.store_fbs_same _ _ _)]
        simp only [if_pos hbo0]
        rw [gbm_bo_destroy_plain_eq (w.store p { fb with refcnt := 0 }) fb.bo g hg hh]
        exact hd)
    exact ⟨w1, h1, fun hc => absurd (htype.symm.trans hc) (by decide), fun _ => ⟨h2, h3, h4,
      { (w.store p { fb with refcnt := 0 }) with
        trace := w.trace ++ [Event.gbm_bo_destroy fb.bo],
        bos := Function.update w.bos fb.bo none },
      w_forgot, w2, [Event.gbm_bo_destroy fb.bo], rfl,
      fun hc => absurd (htype.symm.trans hc) (by decide),
      fun _ => rfl, fun _ => Function.update_same _ _ _, rfl,
      World.store_fbs_same _ _ _, h5⟩⟩
  · -- dumb
    obtain ⟨w1, h1, h2, h3, h4, w_forgot, w2, h5⟩ := assemble
      { (w.store p { fb with refcnt := 0 }) with
        trace := w.trace ++
          ((if fb.map ≠ NULL ∧ fb.size > 0 then [Event.munmap fb.map fb.size] else []) ++
            [Event.DRM_IOCTL_MODE_DESTROY_DUMB fb.fd (fb.handles.get 0)]) }
      _ rfl rfl (World.store_fbs_same _ _ _)
      (fun w2 hd => by
        refine ⟨w2, ?_, rfl, rfl, rfl⟩
        have hsw : drm_fb_unref_switch cfg (w.store p { fb with refcnt := 0 }) p
            { fb with refcnt := 0 } =
            drm_fb_destroy_dumb (w.store p { fb with refcnt := 0 }) p := by
          simp only [drm_fb_unref_switch, htype]
        have hty : ¬ (({ fb with refcnt := 0 } : drm_fb).type ≠
            drm_fb_type.BUFFER_PIXMAN_DUMB) := by
          simp [htype]
        rw [hsw]
        unfold drm_fb_destroy_dumb
        rw [World.load_of_fbs _ p { fb with refcnt := 0 } (World.store_fbs_same _ _ _)]
        simp only [if_neg hty]
        rw [← hd]
        by_cases hm : fb.map ≠ NULL ∧ fb.size > 0
        · simp only [if_pos hm, World.emit, World.store, List.append_assoc, List.singleton_append]
        · simp only [if_neg hm, World.emit, World.store, List.nil_append])
    exact ⟨w1, h1, fun hc => absurd (htype.symm.trans hc) (by decide), fun _ => ⟨h2, h3, h4,
      { (w.store p { fb with refcnt := 0 }) with
        trace := w.trace ++
          ((if fb.map ≠ NULL ∧ fb.size > 0 then [Event.munmap fb.map fb.size] else []) ++
            [Event.DRM_IOCTL_MODE_DESTROY_DUMB fb.fd (fb.handles.get 0)]) },
      w_forgot, w2,
      (if fb.map ≠ NULL ∧ fb.size > 0 then [Event.munmap fb.map fb.size] else []) ++
        [Event.DRM_IOCTL_MODE_DESTROY_DUMB fb.fd (fb.handles.get 0)],
      rfl, fun _ => rfl,
      fun hc => absurd htype hc, fun hc => absurd (htype.symm.trans hc) (by decide), rfl,
      World.store_fbs_same _ _ _, h5⟩⟩
  · -- surface
    obtain ⟨w1, hu1, hu2, hu3, _, _⟩ := drm_fb_unref_finish cfg w p fb
      ((w.store p { fb with refcnt := 0 }).emit
        (Event.gbm_surface_release_buffer fb.gbm_surface fb.bo)) hp hfb hn
      (by simp only [drm_fb_unref_switch, htype, ht, if_true])
    refine ⟨w1, hu1, fun _ => ⟨hu2, by rw [hu2]; rfl, ?_⟩, fun hc => absurd htype hc⟩
    rw [hu3]
    exact World.store_fbs_same _ _ _
  · -- cursor
    obtain ⟨w1, h1, h2, h3, h4, w_forgot, w2, h5⟩ := assemble
      ((w.store p { fb with refcnt := 0 }).emit (Event.gbm_bo_destroy fb.bo))
      [Event.gbm_bo_destroy fb.bo] rfl rfl (World.store_fbs_same _ _ _)
      (wrapped (Or.inr htype) ht.1 ht.2)
    exact ⟨w1, h1, fun hc => absurd (htype.symm.trans hc) (by decide), fun _ => ⟨h2, h3, h4,
      (w.store p { fb with refcnt := 0 }).emit (Event.gbm_bo_destroy fb.bo), w_forgot, w2,
      [Event.gbm_bo_destroy fb.bo], rfl, fun hc => absurd (htype.symm.trans hc) (by decide),
      fun _ => rfl, fun hc => absurd (htype.symm.trans hc) (by decide), rfl,
      World.store_fbs_same _ _ _, h5⟩⟩

/-- Instance of **C17** as amended: the last reference of the mapped,
registered dumb buffer at address 7 is dropped. `drm_fb_destroy` is entered
after the unmapping and the kernel's destroy-dumb, with the buffer still in the
registry; its first step takes the buffer out, and the buffer is not a member
when `drm_fb_unref` returns. -/
theorem drm_fb_unref_registry_witness :
    ∃ (w1 w_mid w_forgot : World),
      drm_fb_unref sample_build (sample_world_dumb.store 7 { sample_fb_dumb with refcnt := 1 })
        7 = .ok w1 ∧
      7 ∉ w1.b.fb_list ∧ w1.fbs 7 = none ∧
      w_mid.trace = [Event.munmap 4096 65536, Event.DRM_IOCTL_MODE_DESTROY_DUMB 3 5] ∧
      7 ∈ w_mid.b.fb_list ∧
      drm_fb_forget w_mid 7 = .ok w_forgot ∧ 7 ∉ w_forgot.b.fb_list := by
  obtain ⟨w1, h1, _, hrest⟩ :=
    drm_fb_unref_registry sample_build
      (sample_world_dumb.store 7 { sample_fb_dumb with refcnt := 1 }) 7
      { sample_fb_dumb with refcnt := 1 }
      ⟨by decide, World.store_fbs_same _ _ _, by decide, trivial⟩ rfl (by decide) (by decide)
  obtain ⟨h2, _, h3, w_mid, w_forgot, w2, pre, htr, hpre, _, _, hb, _, hf, _, hnot, _⟩ :=
    hrest (by decide)
  refine ⟨w1, w_mid, w_forgot, h1, h2, h3, ?_, ?_, hf, hnot⟩
  · rw [htr, hpre rfl]
    rfl
  · rw [hb]
    decide

/-! ## The destroy callback -/

/-- The teardown of a live buffer that is not backed by a GPU surface returns
and frees the object. -/
theorem drm_fb_unref_switch_frees (cfg : build_config) (w : World) (p : Ptr) (fb : drm_fb)
    (hlive : w.live cfg p fb) (hns : fb.type ≠ drm_fb_type.BUFFER_GBM_SURFACE) :
    ∃ ws : World, drm_fb_unref_switch cfg w p fb = .ok ws ∧ ws.fbs p = none := by
  obtain ⟨hp, hfb, hl, ht⟩ := hlive
  cases htype : fb.type <;> simp only [htype] at ht
  · obtain ⟨hb, g, hg, hud, hh⟩ := ht
    rw [← hud] at hfb
    rw [show drm_fb_unref_switch cfg w p fb = gbm_bo_destroy w fb.bo by
        simp only [drm_fb_unref_switch, htype, hb, if_true],
      gbm_bo_destroy_hook_eq w fb.bo g fb hg hh hfb (Or.inr (Or.inl htype)) hl]
    refine ⟨_, rfl, ?_⟩
    rw [← hud]
    exact Function.update_same _ _ _
  · obtain ⟨hb, hbo, g, hg, hh⟩ := ht
    rw [show drm_fb_unref_switch cfg w p fb = drm_fb_destroy_dmabuf w p by
        simp only [drm_fb_unref_switch, htype, hb, if_true],
      drm_fb_destroy_dmabuf_eq w p fb g hfb hl hbo hg hh]
    exact ⟨_, rfl, Function.update_same _ _ _⟩
  · rw [show drm_fb_unref_switch cfg w p fb = drm_fb_destroy_dumb w p by
        simp only [drm_fb_unref_switch, htype],
      drm_fb_destroy_dumb_eq w p fb hfb htype hl]
    exact ⟨_, rfl, Function.update_same _ _ _⟩
  · exact absurd htype hns
  · obtain ⟨hb, g, hg, hud, hh⟩ := ht
    rw [← hud] at hfb
    rw [show drm_fb_unref_switch cfg w p fb = gbm_bo_destroy w fb.bo by
        simp only [drm_fb_unref_switch, htype, hb, if_true],
      gbm_bo_destroy_hook_eq w fb.bo g fb hg hh hfb (Or.inr (Or.inr htype)) hl]
    refine ⟨_, rfl, ?_⟩
    rw [← hud]
    exact Function.update_same _ _ _

/-- **C18**, counterexample. A GPU-surface-backed buffer with one reference
carries the destroy callback 900 with context 901. `drm_fb_unref` drops the
reference and invokes the callback; `drm_fb_get_from_bo` then hands out the
same object again, and a second `drm_fb_unref` to zero invokes the same
callback a second time. -/
theorem drm_fb_unref_surface_callback_twice :
    sample_fb_surface.type = drm_fb_type.BUFFER_GBM_SURFACE ∧
    sample_fb_surface.on_destroy = 900 ∧
    ∃ (w1 w2 w3 : World),
      drm_fb_unref sample_build sample_world_surface 7 = .ok w1 ∧
      w1.trace = [Event.gbm_surface_release_buffer 500 200, Event.on_destroy 900 901] ∧
      drm_fb_get_from_bo sample_build sample_formats sample_bo_replies w1 200 false
        drm_fb_type.BUFFER_GBM_SURFACE = .ok (7, w2) ∧
      drm_fb_unref sample_build w2 7 = .ok w3 ∧
      w3.trace = [Event.gbm_surface_release_buffer 500 200, Event.on_destroy 900 901,
        Event.gbm_surface_release_buffer 500 200, Event.on_destroy 900 901] ∧
      w3.trace.count (Event.on_destroy 900 901) = 2 := by
  refine ⟨rfl, rfl, _, _, _, rfl, rfl, rfl, rfl, rfl, ?_⟩
  decide

/-- **C18**, as amended. `drm_fb_unref` does not clear the destroy callback.
When it drops the last reference of a live buffer with a callback registered,
it runs the teardown, which invokes no callback, and then invokes the callback
once with its context. For a dumb, client, cursor or dmabuf buffer the teardown
has freed the object, so no later `drm_fb_unref` can invoke the callback for
it. A GPU-surface-backed buffer survives with count 0 and the callback still
registered: when `drm_fb_get_from_bo` hands out the object again for its driver
object and `drm_fb_unref` drops that reference, the buffer is released to its
surface and the same callback is invoked again. -/
theorem drm_fb_unref_callback_kept (cfg : build_config) (fmts : pixel_formats)
    (k : get_from_bo_replies) (w : World) (p : Ptr) (fb : drm_fb) ( is_opaque : Bool)
    (hlive : w.live cfg p fb) (hn : fb.refcnt = 1) (hcb : fb.on_destroy ≠ NULL) :
    ∃ (w1 : World) (tr : List Event),
      drm_fb_unref cfg w p = .ok w1 ∧
      w1.trace = w.trace ++ tr ++ [Event.on_destroy fb.on_destroy fb.on_destroy_priv] ∧
      (∀ e ∈ tr, e.is_on_destroy = false) ∧
      (fb.type ≠ drm_fb_type.BUFFER_GBM_SURFACE →
        w1.fbs p = none ∧ drm_fb_unref cfg w1 p = .error Fault.invalid_pointer) ∧
      (fb.type = drm_fb_type.BUFFER_GBM_SURFACE →
        w1.fbs p = some { fb with refcnt := 0 } ∧
        ∀ g, w.bos fb.bo = some g → g.user_data = p →
          ∃ (w2 w3 : World),
            drm_fb_get_from_bo cfg fmts k w1 fb.bo is_opaque
              drm_fb_type.BUFFER_GBM_SURFACE = .ok (p, w2) ∧
            w2.trace = w1.trace ∧
            drm_fb_unref cfg w2 p = .ok w3 ∧
            w3.trace = w1.trace ++
              [Event.gbm_surface_release_buffer fb.gbm_surface fb.bo,
               Event.on_destroy fb.on_destroy fb.on_destroy_priv]) := by
  have hp := hlive.1
  have hfb := hlive.2.1
  have hlive0 := World.live_store_refcnt cfg w p fb 0 hlive
  obtain ⟨ws, tr, hsw, htr, hno, _⟩ := drm_fb_unref_switch_live cfg _ p _ hlive0
  obtain ⟨w1, hu1, hu2, hu3, hu4, hu5⟩ := drm_fb_unref_finish cfg w p fb ws hp hfb hn hsw
  rw [if_pos hcb, htr] at hu5
  refine ⟨w1, tr, hu1, hu5, hno, ?_, ?_⟩
  · intro hns
    obtain ⟨ws2, hsw2, hfree⟩ := drm_fb_unref_switch_frees cfg _ p _ hlive0 hns
    rw [hsw] at hsw2
    injection hsw2 with hsw2
    subst hsw2
    have hnone : w1.fbs p = none := by
      rw [hu3]
      exact hfree
    refine ⟨hnone, ?_⟩
    simp [drm_fb_unref, hp, World.load, hnone]
  · intro hsurf
    have hbuild : cfg.BUILD_DRM_GBM = true := by
      have ht := hlive.2.2.2
      simp only [hsurf] at ht
      exact ht
    have hsw2 : drm_fb_unref_switch cfg (w.store p { fb with refcnt := 0 }) p
        { fb with refcnt := 0 } = .ok ((w.store p { fb with refcnt := 0 }).emit
          (Event.gbm_surface_release_buffer fb.gbm_surface fb.bo)) := by
      simp only [drm_fb_unref_switch, hsurf, hbuild, if_true]
    rw [hsw] at hsw2
    injection hsw2 with hsw2
    subst hsw2
    have h1fb : w1.fbs p = some { fb with refcnt := 0 } := by
      rw [hu3]
      exact World.store_fbs_same _ _ _
    refine ⟨h1fb, ?_⟩
    intro g hg hud
    have h1bo : w1.bos fb.bo = some g := by
      rw [hu4]
      exact hg
    have hudn : g.user_data ≠ NULL := by
      rw [hud]
      exact hp
    have hty : ¬ (({ fb with refcnt := 0 } : drm_fb).type ≠ drm_fb_type.BUFFER_GBM_SURFACE) := by
      simp [hsurf]
    have hget : drm_fb_get_from_bo cfg fmts k w1 fb.bo is_opaque
        drm_fb_type.BUFFER_GBM_SURFACE =
        .ok (p, w1.store p { fb with refcnt := 0 + 1 }) := by
      unfold drm_fb_get_from_bo
      simp only [h1bo, if_pos hudn]
      rw [hud, World.load_of_fbs w1 p _ h1fb]
      simp only [if_neg hty, drm_fb_ref, World.load_of_fbs w1 p _ h1fb]
    obtain ⟨w3, hv1, _, _, _, hv5⟩ := drm_fb_unref_finish cfg
      (w1.store p { fb with refcnt := 0 + 1 }) p { fb with refcnt := 0 + 1 }
      (((w1.store p { fb with refcnt := 0 + 1 }).store p { fb with refcnt := 0 }).emit
        (Event.gbm_surface_release_buffer fb.gbm_surface fb.bo)) hp
      (World.store_fbs_same _ _ _) (by simp)
      (by simp only [drm_fb_unref_switch, hsurf, hbuild, if_true])
    rw [if_pos hcb] at hv5
    refine ⟨_, w3, hget, rfl, hv1, ?_⟩
    rw [hv5]
    simp [World.emit, World.store]

/-- Instance of **C18** as amended: the surface buffer at address 7 with the
callback 900. The callback is invoked at the first drop to zero and again at
the second, after the object was handed out again. -/
theorem drm_fb_unref_callback_kept_witness :
    ∃ (w1 w2 w3 : World),
      drm_fb_unref sample_build sample_world_surface 7 = .ok w1 ∧
      w1.fbs 7 = some { sample_fb_surface with refcnt := 0 } ∧
      drm_fb_get_from_bo sample_build sample_formats sample_bo_replies w1 200 false
        drm_fb_type.BUFFER_GBM_SURFACE = .ok (7, w2) ∧
      drm_fb_unref sample_build w2 7 = .ok w3 ∧
      w3.trace = w1.trace ++
        [Event.gbm_surface_release_buffer 500 200, Event.on_destroy 900 901] := by
  obtain ⟨w1, tr, h1, _, _, _, hs⟩ :=
    drm_fb_unref_callback_kept sample_build sample_formats sample_bo_replies
      sample_world_surface 7 sample_fb_surface false
      ⟨by decide, rfl, by decide, rfl⟩ rfl (by decide)
  obtain ⟨hfb, hrest⟩ := hs rfl
  obtain ⟨w2, w3, h2, _, h3, h4⟩ := hrest sample_bo_surface rfl rfl
  exact ⟨w1, w2, w3, h1, hfb, h2, h3, h4⟩

/-! ## Idempotence of `drm_fb_forget` -/

/-- **C19.** For a live buffer whose registry link is initialised (linked into
the registry, or self-linked and detached), in a registry without duplicates
where the buffer is a member exactly when its link is linked, `drm_fb_forget`
returns and leaves the link self-linked and the buffer out of the registry;
the other members of the registry are there in their order; nothing else
changes (the buffer's other fields, the other objects, the rest of the backend,
the driver objects, the calls made). A second `drm_fb_forget` returns the very
same state. -/
theorem drm_fb_forget_idempotent (w : World) (p : Ptr) (fb : drm_fb)
    (hfb : w.fbs p = some fb) (hl : fb.backend_link ≠ wl_link.null)
    (hnodup : w.b.fb_list.Nodup)
    (hmem : p ∈ w.b.fb_list ↔ fb.backend_link = wl_link.linked) :
    ∃ w1 : World,
      drm_fb_forget w p = .ok w1 ∧
      w1.fbs p = some { fb with backend_link := wl_link.self } ∧
      p ∉ w1.b.fb_list ∧ w1.b.fb_list = w.b.fb_list.filter (fun q => q != p) ∧
      { w1.b with fb_list := w.b.fb_list } = w.b ∧
      (∀ q, q ≠ p → w1.fbs q = w.fbs q) ∧ w1.bos = w.bos ∧ w1.trace = w.trace ∧
      drm_fb_forget w1 p = .ok w1 ∧
      (drm_fb_forget w p >>= fun w2 => drm_fb_forget w2 p) = drm_fb_forget w p := by
  obtain ⟨hfilter, hnot⟩ := wl_list_remove_registry w.b.fb_list p fb.backend_link hnodup hmem
  have h2 : drm_fb_forget
      { w with
        b := { w.b with fb_list :=
          if fb.backend_link = wl_link.linked then w.b.fb_list.erase p else w.b.fb_list },
        fbs := Function.update w.fbs p (some { fb with backend_link := wl_link.self }) } p =
      .ok
      { w with
        b := { w.b with fb_list :=
          if fb.backend_link = wl_link.linked then w.b.fb_list.erase p else w.b.fb_list },
        fbs := Function.update w.fbs p (some { fb with backend_link := wl_link.self }) } := by
    rw [drm_fb_forget_eq _ p { fb with backend_link := wl_link.self }
      (Function.update_same _ _ _) (by simp)]
    simp
  refine ⟨_, drm_fb_forget_eq w p fb hfb hl, Function.update_same _ _ _, hnot, hfilter, rfl,
    ?_, rfl, rfl, h2, ?_⟩
  · intro q hq
    exact Function.update_noteq hq _ _
  · rw [drm_fb_forget_eq w p fb hfb hl]
    exact h2

/-- Instance of **C19**: the registered dumb buffer at address 7, the only
member of the registry. -/
theorem drm_fb_forget_idempotent_witness :
    ∃ w1 : World,
      drm_fb_forget sample_world_dumb 7 = .ok w1 ∧
      w1.fbs 7 = some { sample_fb_dumb with backend_link := wl_link.self } ∧
      w1.b.fb_list = [] ∧ drm_fb_forget w1 7 = .ok w1 := by
  obtain ⟨w1, h, hfb, _, hl, _, _, _, _, h2, _⟩ :=
    drm_fb_forget_idempotent sample_world_dumb 7 sample_fb_dumb rfl (by decide) (by decide)
      (by decide)
  exact ⟨w1, h, hfb, hl, h2⟩


/-! ## View resolution -/

/-- **C20.** `drm_fb_get_from_view` returns `NULL` in the unchanged state (no
call at all, hence no driver import and no kernel registration; the registry,
the objects and the driver objects as before) whenever the view's alpha is not
1, or its transform is not supported for scanout on the output, or the
surface's protection mode is enforced and its desired protection exceeds the
output's current protection, or the surface has no buffer attached, or the
attached buffer is a shared-memory buffer, or the backend has no GBM device. -/
theorem drm_fb_get_from_view_rejects (cfg : build_config) (fmts : pixel_formats)
    (k : view_replies) (w : World) (ev : view_inputs)
    (h : ev.alpha_is_one = false ∨ ev.transform_supported = false ∨
      (ev.protection_mode_enforced = true ∧ ev.desired_protection > ev.current_protection) ∨
      ev.buffer = NULL ∨ ev.shm_buffer ≠ NULL ∨ w.b.gbm = NULL) :
    drm_fb_get_from_view cfg fmts k w ev = .ok (NULL, w) ∧
    ∀ (r : Ptr) (w1 : World), drm_fb_get_from_view cfg fmts k w ev = .ok (r, w1) →
      r = NULL ∧ w1.trace = w.trace ∧
      w1.trace.filter Event.is_gbm_import = w.trace.filter Event.is_gbm_import ∧
      w1.trace.filter Event.is_addfb = w.trace.filter Event.is_addfb ∧
      w1.b.fb_list = w.b.fb_list ∧ w1.fbs = w.fbs ∧ w1.bos = w.bos := by
  have hrun : drm_fb_get_from_view cfg fmts k w ev = .ok (NULL, w) := by
    unfold drm_fb_get_from_view
    by_cases h1 : ev.alpha_is_one = false
    · rw [if_pos h1]
    · rw [if_neg h1]
      by_cases h2 : ev.transform_supported = false
      · rw [if_pos h2]
      · rw [if_neg h2]
        by_cases h3 : ev.protection_mode_enforced = true ∧
            ev.desired_protection > ev.current_protection
        · rw [if_pos h3]
        · rw [if_neg h3]
          by_cases h4 : ev.buffer = NULL
          · rw [if_pos h4]
          · rw [if_neg h4]
            by_cases h5 : ev.shm_buffer ≠ NULL
            · rw [if_pos h5]
            · rw [if_neg h5]
              by_cases h6 : w.b.gbm = NULL
              · rw [if_pos h6]
              · rcases h with h | h | h | h | h | h
                · exact absurd h h1
                · exact absurd h h2
                · exact absurd h h3
                · exact absurd h h4
                · exact absurd h h5
                · exact absurd h h6
  refine ⟨hrun, ?_⟩
  intro r w1 h1
  rw [hrun] at h1
  injection h1 with h1
  injection h1 with hr hw
  subst hr hw
  exact ⟨rfl, rfl, rfl, rfl, rfl, rfl, rfl⟩

/-- Instance of **C20**: a view with a shared-memory buffer attached is
rejected without any call, while the same view with a client buffer that is
not shared memory is imported, registered and returned. -/
theorem drm_fb_get_from_view_rejects_witness :
    drm_fb_get_from_view sample_build sample_formats sample_view_replies sample_empty
      sample_view_shm = .ok (NULL, sample_empty) ∧
    ∃ w1 : World,
      drm_fb_get_from_view sample_build sample_formats sample_view_replies sample_empty
        { sample_view_shm with shm_buffer := NULL } = .ok (7, w1) ∧
      w1.b.fb_list = [7] :=
  ⟨(drm_fb_get_from_view_rejects sample_build sample_formats sample_view_replies sample_empty
      sample_view_shm (Or.inr (Or.inr (Or.inr (Or.inr (Or.inl (by decide))))))).1,
    _, rfl, rfl⟩

/-! ## Liveness of the registry's members -/

/-- A step that leaves the registry as it is and touches only the object at an
address that held no object before keeps every member of the registry live. -/
theorem World.registry_live_of_frame (w w1 : World) (p : Ptr) (hinv : w.registry_live)
    (hfresh : w.fbs p = none) (hl : w1.b.fb_list = w.b.fb_list)
    (hf : ∀ q, q ≠ p → w1.fbs q = w.fbs q) : w1.registry_live := by
  intro q hq
  rw [hl] at hq
  have hne : q ≠ p := by
    intro h
    rw [h] at hq
    exact hinv p hq hfresh
  rw [hf q hne]
  exact hinv q hq

/-- A step that puts a live object in front of the registry and touches no
other object keeps every member of the registry live. -/
theorem World.registry_live_of_cons (w w1 : World) (p : Ptr) (hinv : w.registry_live)
    (hl : w1.b.fb_list = p :: w.b.fb_list) (hp : w1.fbs p ≠ none)
    (hf : ∀ q, q ≠ p → w1.fbs q = w.fbs q) : w1.registry_live := by
  intro q hq
  rw [hl] at hq
  by_cases hne : q = p
  · rw [hne]
    exact hp
  · rw [hf q hne]
    rcases List.mem_cons.mp hq with h | h
    · exact absurd h hne
    · exact hinv q h

/-- Putting a newly stored object in front of the registry keeps every member
of the registry live. -/
theorem World.registry_live_of_remember (w w1 : World) (p : Ptr) (fb : drm_fb)
    (hinv : w.registry_live) (hl : w1.b.fb_list = p :: w.b.fb_list)
    (hfbs : w1.fbs = Function.update w.fbs p (some fb)) : w1.registry_live := by
  refine World.registry_live_of_cons w w1 p hinv hl ?_ ?_
  · rw [hfbs]
    simp
  · intro q hq
    rw [hfbs, Function.update_noteq hq]

/-- The regular teardown `drm_fb_destroy` keeps every member of the registry
live: it unlinks the object with `drm_fb_forget` before it frees it. The
registry holds no address twice, and an object whose link is self-linked is
not a member. -/
theorem drm_fb_destroy_registry_live (w w2 : World) (p : Ptr) (hinv : w.registry_live)
    (hnodup : w.b.fb_list.Nodup)
    (hmem : ∀ fb, w.fbs p = some fb → (p ∈ w.b.fb_list ↔ fb.backend_link = wl_link.linked))
    (h : drm_fb_destroy w p = .ok w2) :
    w2.registry_live ∧ p ∉ w2.b.fb_list ∧ w2.fbs p = none := by
  obtain ⟨fb, hfb, hl⟩ := drm_fb_destroy_ok_inv w w2 p h
  obtain ⟨_, w3, _, _, _, h3, _, hlist, hnot, hfbs, _⟩ :=
    drm_fb_destroy_steps w p fb hfb hl hnodup (hmem fb hfb)
  rw [h3] at h
  injection h with h
  subst h
  refine ⟨?_, hnot, by rw [hfbs]; simp⟩
  intro q hq
  rw [hlist] at hq
  have hq2 := List.mem_filter.mp hq
  have hne : q ≠ p := by simpa using hq2.2
  rw [hfbs, Function.update_noteq hne]
  exact hinv q hq2.1

/-- **C21.** In a state where every member of the registry is a live object,
with an allocator that returns an address holding no object, every run of
`drm_fb_create_dumb` returns, and it leaves every member of the registry live
unless it is a run that fails at the map-dumb call or at `mmap` after the
registration. Every such run breaks the property: it returns `NULL` with the
object it has freed still at the head of the registry (label `err_add_fb`
removes the kernel framebuffer, destroys the dumb buffer and frees the object,
and never calls `drm_fb_forget`), so the next walk over the registry, by
`drm_fb_suspend`, `drm_fb_resume` or `drm_fb_from_gbm_surface`, reads freed
memory. -/
theorem drm_fb_create_dumb_registry_live (fmts : pixel_formats) (k : create_dumb_replies)
    (w : World) (width height : Int) (format : Nat)
    (hinv : w.registry_live) (hfresh : w.fbs k.zalloc = none) :
    (∃ (r : Ptr) (w1 : World),
      drm_fb_create_dumb fmts k w width height format = .ok (r, w1) ∧
      (w1.registry_live ∨
        (r = NULL ∧ k.zalloc ≠ NULL ∧ k.create_ret = 0 ∧
          (k.addfb.addfb2.ret = 0 ∨ k.addfb.addfb.ret = 0) ∧
          (k.map_ret ≠ 0 ∨ k.mmap_ret = MAP_FAILED)))) ∧
    (∀ fmt : pixel_format_info,
      k.zalloc ≠ NULL → fmts.pixel_format_get_info format = some fmt →
      fmt.depth ≠ 0 → fmt.bpp ≠ 0 → k.create_ret = 0 →
      (k.addfb.addfb2.ret = 0 ∨ k.addfb.addfb.ret = 0) →
      (k.map_ret ≠ 0 ∨ k.mmap_ret = MAP_FAILED) →
      ∃ w1 : World,
        drm_fb_create_dumb fmts k w width height format = .ok (NULL, w1) ∧
        w1.b.fb_list = k.zalloc :: w.b.fb_list ∧ w1.fbs k.zalloc = none ∧
        w1.trace.getLast? = some (Event.free k.zalloc) ∧
        ¬ w1.registry_live ∧
        (∀ ks : Ptr → Int, drm_fb_suspend ks w1 = .error Fault.invalid_pointer) ∧
        (∀ kr : Ptr → addfb_replies, drm_fb_resume kr w1 = .error Fault.invalid_pointer) ∧
        (∀ surface : Ptr,
          drm_fb_from_gbm_surface w1 surface = .error Fault.invalid_pointer)) := by
  have hframe : ∀ (w1 : World), w1.b.fb_list = w.b.fb_list →
      (∀ q, q ≠ k.zalloc → w1.fbs q = w.fbs q) → w1.registry_live :=
    fun w1 hl hf => World.registry_live_of_frame w w1 k.zalloc hinv hfresh hl hf
  have hwalk : ∀ w1 : World, k.zalloc ≠ NULL → w1.b.fb_list = k.zalloc :: w.b.fb_list →
      w1.fbs k.zalloc = none →
      ¬ w1.registry_live ∧
      (∀ ks : Ptr → Int, drm_fb_suspend ks w1 = .error Fault.invalid_pointer) ∧
      (∀ kr : Ptr → addfb_replies, drm_fb_resume kr w1 = .error Fault.invalid_pointer) ∧
      (∀ surface : Ptr,
        drm_fb_from_gbm_surface w1 surface = .error Fault.invalid_pointer) := by
    intro w1 hz hl hf
    refine ⟨?_, ?_, ?_, ?_⟩
    · intro hlive
      exact hlive k.zalloc (by rw [hl]; exact List.mem_cons_self _ _) hf
    · intro ks
      simp [drm_fb_suspend, hl, drm_fb_suspend_loop, World.load, hf, hz]
    · intro kr
      simp [drm_fb_resume, hl, drm_fb_resume_loop, World.load, hf, hz]
    · intro s
      simp [drm_fb_from_gbm_surface, hl, drm_fb_from_gbm_surface_loop, World.load, hf, hz]
  constructor
  · by_cases hz : k.zalloc = NULL
    · refine ⟨NULL, w, ?_, Or.inl hinv⟩
      unfold drm_fb_create_dumb
      rw [if_pos hz]
    · cases hfmt : fmts.pixel_format_get_info format with
      | none =>
        unfold drm_fb_create_dumb
        simp only [if_neg hz, hfmt]
        refine ⟨_, _, rfl, Or.inl (hframe _ rfl ?_)⟩
        intro q hq
        simp [drm_fb_create_dumb_err_fb, World.free, World.store, World.emit,
          Function.update_noteq hq]
      | some fmt =>
        by_cases hdb : fmt.depth = 0 ∨ fmt.bpp = 0
        · unfold drm_fb_create_dumb
          simp only [if_neg hz, hfmt, if_pos hdb]
          refine ⟨_, _, rfl, Or.inl (hframe _ rfl ?_)⟩
          intro q hq
          simp [drm_fb_create_dumb_err_fb, World.free, World.store, World.emit,
            Function.update_noteq hq]
        · by_cases hc : k.create_ret = 0
          · have hd : fmt.depth ≠ 0 := fun h => hdb (Or.inl h)
            have hb : fmt.bpp ≠ 0 := fun h => hdb (Or.inr h)
            have hcalls := drm_fb_create_dumb_calls k w.b.fb_modifiers w.b.drm_fd width height
              fmt { drm_fb.zalloc with refcnt := 1, format := some fmt } rfl hd hb
            have heq := drm_fb_create_dumb_eq fmts k w width height format fmt _ hz hfmt hd hb
              hc rfl
            rw [hcalls] at heq
            clear hcalls
            by_cases h2 : k.addfb.addfb2.ret = 0 <;> by_cases h1 : k.addfb.addfb.ret = 0 <;>
              by_cases hm : k.map_ret = 0 <;> by_cases hmm : k.mmap_ret = MAP_FAILED <;>
              simp only [h2, h1, hm, hmm, ne_eq, not_true_eq_false, not_false_eq_true,
                if_true, if_false, or_true, true_or, or_self, or_false, false_or,
                addfb_reply.store] at heq <;>
              refine ⟨_, _, heq, ?_⟩ <;>
              first
              | exact Or.inl (hframe _ rfl (fun q hq => Function.update_noteq hq _ _))
              | exact Or.inl (World.registry_live_of_remember w _ k.zalloc _ hinv rfl rfl)
              | exact Or.inr ⟨rfl, hz, hc, Or.inl h2, Or.inl hm⟩
              | exact Or.inr ⟨rfl, hz, hc, Or.inl h2, Or.inr hmm⟩
              | exact Or.inr ⟨rfl, hz, hc, Or.inr h1, Or.inl hm⟩
              | exact Or.inr ⟨rfl, hz, hc, Or.inr h1, Or.inr hmm⟩
          · unfold drm_fb_create_dumb
            simp only [if_neg hz, hfmt, if_neg hdb, ne_eq, hc, not_false_eq_true, if_true]
            refine ⟨_, _, rfl, Or.inl (hframe _ rfl ?_)⟩
            intro q hq
            simp [drm_fb_create_dumb_err_fb, World.free, World.store, World.emit,
              Function.update_noteq hq]
  · intro fmt hz hfmt hd hb hc hreg hfail
    have hcalls := drm_fb_create_dumb_calls k w.b.fb_modifiers w.b.drm_fd width height
      fmt { drm_fb.zalloc with refcnt := 1, format := some fmt } rfl hd hb
    have heq := drm_fb_create_dumb_eq fmts k w width height format fmt _ hz hfmt hd hb
      hc rfl
    rw [hcalls] at heq
    clear hcalls
    by_cases h2 : k.addfb.addfb2.ret = 0 <;> by_cases h1 : k.addfb.addfb.ret = 0 <;>
      by_cases hm : k.map_ret = 0 <;> by_cases hmm : k.mmap_ret = MAP_FAILED <;>
      simp only [h2, h1, hm, hmm, ne_eq, not_true_eq_false, not_false_eq_true,
        if_true, if_false, or_true, true_or, or_self, or_false, false_or,
        addfb_reply.store] at heq hreg hfail ⊢ <;>
      ( refine ⟨_, heq, rfl, ?_, ?_, hwalk _ hz rfl ?_⟩
        · simp
        · simp
        · simp )

/-- Instance of **C21**. The registry holds the live buffers 7 and 8; the
allocator returns the unused address 9, the kernel allocates handle 5 and
registers id 42, and the map-dumb call fails. `drm_fb_create_dumb` returns
`NULL`; the registry is then `[9, 7, 8]` although the object at 9 was freed as
the last step, and `drm_fb_suspend`, `drm_fb_resume` and
`drm_fb_from_gbm_surface` read the freed object. With replies that let the
map-dumb call and `mmap` succeed, the same call leaves every member live. -/
theorem drm_fb_create_dumb_registry_live_witness :
    sample_world_two.registry_live ∧ sample_world_two.fbs 9 = none ∧
    (∃ w1 : World,
      drm_fb_create_dumb sample_formats { sample_dumb_map_fails with zalloc := 9 }
        sample_world_two 128 128 DRM_FORMAT_XRGB8888 = .ok (NULL, w1) ∧
      w1.b.fb_list = [9, 7, 8] ∧ w1.fbs 9 = none ∧
      w1.trace.getLast? = some (Event.free 9) ∧
      ¬ w1.registry_live ∧
      drm_fb_suspend (fun _ => 0) w1 = .error Fault.invalid_pointer ∧
      drm_fb_resume (fun _ => sample_addfb_resume) w1 = .error Fault.invalid_pointer ∧
      drm_fb_from_gbm_surface w1 500 = .error Fault.invalid_pointer) ∧
    (∃ (r : Ptr) (w1 : World),
      drm_fb_create_dumb sample_formats { sample_dumb_ok with zalloc := 9 }
        sample_world_two 128 128 DRM_FORMAT_XRGB8888 = .ok (r, w1) ∧ w1.registry_live) := by
  have hinv : sample_world_two.registry_live := by decide
  refine ⟨hinv, rfl, ?_, ?_⟩
  · obtain ⟨w1, h, hl, hf, ht, hn, hs, hr, hg⟩ :=
      (drm_fb_create_dumb_registry_live sample_formats
        { sample_dumb_map_fails with zalloc := 9 } sample_world_two 128 128
        DRM_FORMAT_XRGB8888 hinv rfl).2 sample_xrgb (by decide) rfl (by decide) (by decide)
        rfl (Or.inl rfl) (Or.inl (by decide))
    exact ⟨w1, h, hl, hf, ht, hn, hs _, hr _, hg _⟩
  · obtain ⟨r, w1, h, hlive⟩ :=
      (drm_fb_create_dumb_registry_live sample_formats
        { sample_dumb_ok with zalloc := 9 } sample_world_two 128 128
        DRM_FORMAT_XRGB8888 hinv rfl).1
    refine ⟨r, w1, h, ?_⟩
    rcases hlive with hlive | ⟨_, _, _, _, hfail⟩
    · exact hlive
    · exact absurd hfail (by decide)

/-! ## The registry link at the teardown of a failed dmabuf import -/

/-- The end of `drm_fb_get_from_dmabuf`, entered with an initialised registry
link: either the registration fails and label `err_free` is reached with the
link still initialised, or the run returns the object. -/
theorem drm_fb_get_from_dmabuf_register_link (k : dmabuf_replies) (w : World) (p : Ptr)
    (fb : drm_fb) (fmt : pixel_format_info) (hfmt : fb.format = some fmt)
    (hl : fb.backend_link = wl_link.self) :
    (∃ (w0 : World) (fb1 : drm_fb),
      drm_fb_get_from_dmabuf_register k (w.store p fb) p =
        drm_fb_get_from_dmabuf_err_free w0 p ∧
      w0.fbs p = some fb1 ∧ fb1.backend_link = wl_link.self) ∨
    (∃ w1 : World, drm_fb_get_from_dmabuf_register k (w.store p fb) p = .ok (p, w1)) := by
  unfold drm_fb_get_from_dmabuf_register
  rw [drm_fb_addfb_eq k.addfb (w.store p fb) p fb fmt (World.store_fbs_same _ _ _) hfmt]
  have hlink : (drm_fb_addfb_calls k.addfb (w.store p fb).b.fb_modifiers fb fmt).2.1.backend_link
      = wl_link.self := by
    rw [drm_fb_addfb_calls_fb]
    exact hl
  by_cases hr : (drm_fb_addfb_calls k.addfb (w.store p fb).b.fb_modifiers fb fmt).1 ≠ 0
  · left
    simp only [if_pos hr]
    exact ⟨_, _, rfl, by simp, hlink⟩
  · right
    simp only [if_neg hr]
    rw [drm_fb_remember_eq _ p
      (drm_fb_addfb_calls k.addfb (w.store p fb).b.fb_modifiers fb fmt).2.1 (by simp)
      (by rw [hlink]; decide)]
    exact ⟨_, rfl⟩

/-- The part of `drm_fb_get_from_dmabuf` after a successful driver import:
either label `err_free` is reached, and then with the registry link
initialised by `wl_list_init`, or the run returns the object. -/
theorem drm_fb_get_from_dmabuf_imported_link (cfg : build_config) (fmts : pixel_formats)
    (k : dmabuf_replies) (w : World) (dmabuf : dmabuf_attributes) ( is_opaque : Bool)
    (p : Ptr) (fb0 : drm_fb) (hbo : fb0.bo ≠ NULL) :
    (∃ (w0 : World) (fb : drm_fb),
      drm_fb_get_from_dmabuf_imported cfg fmts k w dmabuf is_opaque p fb0 =
        drm_fb_get_from_dmabuf_err_free w0 p ∧
      w0.fbs p = some fb ∧ fb.backend_link = wl_link.self) ∨
    (∃ w1 : World,
      drm_fb_get_from_dmabuf_imported cfg fmts k w dmabuf is_opaque p fb0 = .ok (p, w1)) := by
  have hbo1 : ¬ (fb0.bo = NULL) := hbo
  unfold drm_fb_get_from_dmabuf_imported
  rw [if_neg hbo1]
  simp only
  cases hfmt : fmts.pixel_format_get_info dmabuf.format with
  | none =>
    simp only
    exact Or.inl ⟨_, _, rfl, World.store_fbs_same _ _ _, rfl⟩
  | some fmt =>
    by_cases hcheck : w.b.min_width > dmabuf.width ∨ dmabuf.width > w.b.max_width ∨
        w.b.min_height > dmabuf.height ∨ dmabuf.height > w.b.max_height
    · cases is_opaque <;> simp only [Bool.false_eq_true, if_false, if_true, if_pos hcheck] <;>
        exact Or.inl ⟨_, _, rfl, World.store_fbs_same _ _ _, rfl⟩
    · obtain ⟨o, np, hpl⟩ := drm_fb_get_from_dmabuf_planes_ok cfg k.import_bo dmabuf.n_planes
        fb0.handles
      cases o with
      | none =>
        cases is_opaque <;>
          simp only [Bool.false_eq_true, if_false, if_true, if_neg hcheck, hpl] <;>
          exact Or.inl ⟨_, _, rfl, World.store_fbs_same _ _ _, rfl⟩
      | some handles =>
        cases is_opaque <;>
          simp only [Bool.false_eq_true, if_false, if_true, if_neg hcheck, hpl]
        · exact drm_fb_get_from_dmabuf_register_link k w p _ fmt rfl rfl
        · exact drm_fb_get_from_dmabuf_register_link k w p _
            (fmts.pixel_format_get_opaque_substitute fmt) rfl rfl

/-- A run of `drm_fb_get_from_dmabuf` whose driver import yields an object:
either label `err_free` is reached, and then with the registry link
initialised, or the run returns the object. -/
theorem drm_fb_get_from_dmabuf_link (cfg : build_config) (fmts : pixel_formats)
    (k : dmabuf_replies) (w : World) (dmabuf : dmabuf_attributes) ( is_opaque : Bool)
    (hflags : dmabuf.flags = 0) (hz : k.zalloc ≠ NULL) (hret : k.import_ret ≠ NULL)
    (hhave : dmabuf.needs_modifier_import → cfg.HAVE_GBM_FD_IMPORT = true) :
    (∃ (w0 : World) (fb : drm_fb),
      drm_fb_get_from_dmabuf cfg fmts k w dmabuf is_opaque =
        drm_fb_get_from_dmabuf_err_free w0 k.zalloc ∧
      w0.fbs k.zalloc = some fb ∧ fb.backend_link = wl_link.self) ∨
    (∃ w1 : World,
      drm_fb_get_from_dmabuf cfg fmts k w dmabuf is_opaque = .ok (k.zalloc, w1)) := by
  have hf : ¬ (dmabuf.flags ≠ 0) := by simp [hflags]
  unfold drm_fb_get_from_dmabuf
  rw [if_neg hf, if_neg hz]
  by_cases hneeds : dmabuf.modifier.get 0 ≠ DRM_FORMAT_MOD_INVALID ∨ dmabuf.n_planes > 1 ∨
      dmabuf.offset.get 0 > 0
  · rw [if_pos hneeds, if_pos (hhave hneeds)]
    exact drm_fb_get_from_dmabuf_imported_link cfg fmts k _ dmabuf is_opaque k.zalloc _ hret
  · rw [if_neg hneeds]
    exact drm_fb_get_from_dmabuf_imported_link cfg fmts k _ dmabuf is_opaque k.zalloc _ hret

/-- **C22.** For a descriptor without flags and an allocated object, the
registry link is initialised at the teardown on the failure paths of
`drm_fb_get_from_dmabuf` that follow a successful driver import (unknown
format, geometry out of bounds, no plane handle, registration refused): label
`err_free` is reached with a self-linked object and the run returns `NULL`.
On the two failure paths before `wl_list_init` it is not: when the import by
the driver returns no object, or the modifier-aware primitive is required and
the build lacks it, label `err_free` is reached with the object as `zalloc`
and the first assignments left it, its link zeroed, and `drm_fb_forget`,
applied to that link by `drm_fb_destroy_dmabuf` through `drm_fb_destroy`,
dereferences `NULL`; the run does not return. -/
theorem drm_fb_get_from_dmabuf_teardown_link (cfg : build_config) (fmts : pixel_formats)
    (k : dmabuf_replies) (w : World) (dmabuf : dmabuf_attributes) ( is_opaque : Bool)
    (hflags : dmabuf.flags = 0) (hz : k.zalloc ≠ NULL) :
    ((k.import_ret = NULL ∨
        (dmabuf.needs_modifier_import ∧ cfg.HAVE_GBM_FD_IMPORT = false)) →
      ∃ w0 : World,
        drm_fb_get_from_dmabuf cfg fmts k w dmabuf is_opaque =
          drm_fb_get_from_dmabuf_err_free w0 k.zalloc ∧
        w0.fbs k.zalloc = some (drm_fb_get_from_dmabuf_alloc NULL) ∧
        (drm_fb_get_from_dmabuf_alloc NULL).backend_link = wl_link.null ∧
        drm_fb_destroy_dmabuf w0 k.zalloc = drm_fb_destroy w0 k.zalloc ∧
        drm_fb_forget w0 k.zalloc = .error Fault.null_deref ∧
        drm_fb_get_from_dmabuf cfg fmts k w dmabuf is_opaque = .error Fault.null_deref) ∧
    ((dmabuf.needs_modifier_import → cfg.HAVE_GBM_FD_IMPORT = true) → k.import_ret ≠ NULL →
      ∃ (r : Ptr) (w1 : World),
        drm_fb_get_from_dmabuf cfg fmts k w dmabuf is_opaque = .ok (r, w1) ∧
        (r = NULL ∨ r = k.zalloc) ∧
        (r = NULL →
          ∃ (w0 : World) (fb : drm_fb),
            drm_fb_get_from_dmabuf cfg fmts k w dmabuf is_opaque =
              drm_fb_get_from_dmabuf_err_free w0 k.zalloc ∧
            w0.fbs k.zalloc = some fb ∧ fb.backend_link = wl_link.self)) := by
  have hf : ¬ (dmabuf.flags ≠ 0) := by simp [hflags]
  constructor
  · intro hfail
    have hfault := drm_fb_get_from_dmabuf_import_failed cfg fmts k w dmabuf is_opaque hflags hz
      hfail
    have hlabel : ∃ w0 : World,
        drm_fb_get_from_dmabuf cfg fmts k w dmabuf is_opaque =
          drm_fb_get_from_dmabuf_err_free w0 k.zalloc ∧
        w0.fbs k.zalloc = some (drm_fb_get_from_dmabuf_alloc NULL) := by
      have himp : ∀ w2 : World, k.import_ret = NULL →
          ∃ w0 : World,
            drm_fb_get_from_dmabuf_imported cfg fmts k
              (w2.store k.zalloc (drm_fb_get_from_dmabuf_alloc k.import_ret)) dmabuf is_opaque
              k.zalloc (drm_fb_get_from_dmabuf_alloc k.import_ret) =
              drm_fb_get_from_dmabuf_err_free w0 k.zalloc ∧
            w0.fbs k.zalloc = some (drm_fb_get_from_dmabuf_alloc NULL) := by
        intro w2 hret
        have hbo : (drm_fb_get_from_dmabuf_alloc k.import_ret).bo = NULL := hret
        unfold drm_fb_get_from_dmabuf_imported
        rw [if_pos hbo]
        refine ⟨_, rfl, ?_⟩
        rw [World.store_fbs_same, hret]
      unfold drm_fb_get_from_dmabuf
      rw [if_neg hf, if_neg hz]
      by_cases hneeds : dmabuf.modifier.get 0 ≠ DRM_FORMAT_MOD_INVALID ∨
          dmabuf.n_planes > 1 ∨ dmabuf.offset.get 0 > 0
      · rw [if_pos hneeds]
        by_cases hhave : cfg.HAVE_GBM_FD_IMPORT = true
        · rw [if_pos hhave]
          rcases hfail with hret | ⟨_, hno⟩
          · exact himp _ hret
          · rw [hno] at hhave
            exact absurd hhave (by decide)
        · rw [if_neg hhave]
          exact ⟨_, rfl, World.store_fbs_same _ _ _⟩
      · rw [if_neg hneeds]
        rcases hfail with hret | ⟨hn, _⟩
        · exact himp _ hret
        · exact absurd hn hneeds
    obtain ⟨w0, hrun, hfbs⟩ := hlabel
    refine ⟨w0, hrun, hfbs, rfl, ?_, drm_fb_forget_null w0 k.zalloc _ hfbs rfl, hfault⟩
    unfold drm_fb_destroy_dmabuf
    rw [World.load_of_fbs w0 k.zalloc _ hfbs]
    simp [drm_fb_get_from_dmabuf_alloc]
  · intro hhave hret
    obtain ⟨r, w1, calls, h1, _, h3⟩ := drm_fb_get_from_dmabuf_import_ok_ends cfg fmts k w
      dmabuf is_opaque hflags hz hret hhave
    have hr : r = NULL ∨ r = k.zalloc := by
      rcases h3 with ⟨h, _⟩ | ⟨h, _⟩
      · exact Or.inl h
      · exact Or.inr h
    refine ⟨r, w1, h1, hr, ?_⟩
    intro hnull
    rcases drm_fb_get_from_dmabuf_link cfg fmts k w dmabuf is_opaque hflags hz hret hhave with
      hlink | ⟨w2, h2⟩
    · exact hlink
    · rw [h1] at h2
      injection h2 with h2
      injection h2 with h2 _
      exact absurd (h2.symm.trans hnull) hz

/-- Instance of **C22**. The driver import of the two-plane descriptor
`sample_dmabuf_mixed` returns `NULL`: label `err_free` is reached with the
object at address 7 as `zalloc` left it, and the run dereferences `NULL` in
`drm_fb_forget`. The import of the descriptor `sample_dmabuf_wide`, 8192 wide,
succeeds and the bounds check fails: label `err_free` is reached with a
self-linked object and the run returns `NULL`. -/
theorem drm_fb_get_from_dmabuf_teardown_link_witness :
    (∃ w0 : World,
      drm_fb_get_from_dmabuf sample_build sample_formats
          { sample_dmabuf_replies with import_ret := NULL } sample_empty sample_dmabuf_mixed
          false = drm_fb_get_from_dmabuf_err_free w0 7 ∧
      w0.fbs 7 = some (drm_fb_get_from_dmabuf_alloc NULL) ∧
      (drm_fb_get_from_dmabuf_alloc NULL).backend_link = wl_link.null ∧
      drm_fb_forget w0 7 = .error Fault.null_deref ∧
      drm_fb_get_from_dmabuf sample_build sample_formats
          { sample_dmabuf_replies with import_ret := NULL } sample_empty sample_dmabuf_mixed
          false = .error Fault.null_deref) ∧
    (∃ (w1 w0 : World) (fb : drm_fb),
      drm_fb_get_from_dmabuf sample_build sample_formats sample_dmabuf_replies sample_empty
          sample_dmabuf_wide false = .ok (NULL, w1) ∧
      drm_fb_get_from_dmabuf sample_build sample_formats sample_dmabuf_replies sample_empty
          sample_dmabuf_wide false = drm_fb_get_from_dmabuf_err_free w0 7 ∧
      w0.fbs 7 = some fb ∧ fb.backend_link = wl_link.self) := by
  constructor
  · obtain ⟨w0, h1, h2, h3, _, h5, h6⟩ :=
      (drm_fb_get_from_dmabuf_teardown_link sample_build sample_formats
        { sample_dmabuf_replies with import_ret := NULL } sample_empty sample_dmabuf_mixed
        false rfl (by decide)).1 (Or.inl rfl)
    exact ⟨w0, h1, h2, h3, h5, h6⟩
  · obtain ⟨r, w1, h1, _, h3⟩ :=
      (drm_fb_get_from_dmabuf_teardown_link sample_build sample_formats
        sample_dmabuf_replies sample_empty sample_dmabuf_wide false rfl (by decide)).2
        (fun _ => rfl) (by decide)
    have hnull : ∃ w2 : World,
        drm_fb_get_from_dmabuf sample_build sample_formats sample_dmabuf_replies sample_empty
          sample_dmabuf_wide false = .ok (NULL, w2) := ⟨_, rfl⟩
    obtain ⟨w2, h2⟩ := hnull
    have hr : r = NULL := by
      rw [h1] at h2
      injection h2 with h2
      injection h2 with h2 _
    obtain ⟨w0, fb, h4, h5, h6⟩ := h3 hr
    exact ⟨w2, w0, fb, h2, h4, h5, h6⟩

end DrmFb
